import Mathlib

/-!
Shallow embedding of the `todo-logic` Rust crate (taint-pipeline benchmark).

Rust `String` values are modelled as `List Char`; `String::len()` (a UTF-8
byte count) is modelled by `byteLen`.  Each engine module of the crate is
embedded in a namespace of the same name; pure string transforms become Lean
functions, the ambient timestamp (`chrono::Utc::now().timestamp()`) becomes an
explicit `Int` parameter, the compile-time `cfg!(target_os = ...)` choice
becomes an `Os` parameter, and fallible external effects (socket receives,
LDAP connections, URI parsing) become explicit parameters or environment
records.  A sink call's side effect (process spawn, SQL exec, ...) has no
bearing on any returned value, so sinks are modelled by the data they receive
and the status string they return.
-/

set_option maxRecDepth 1000000 in
set_option maxRecDepth 1000000 in
set_option maxRecDepth 1000000 in
/-- Strings of the Rust program, as lists of unicode scalar values. -/
abbrev Str := List Char

/-- UTF-8 encoded size in bytes of one scalar value. -/
def utf8Size (c : Char) : Nat :=
  if c.toNat < 0x80 then 1
  else if c.toNat < 0x800 then 2
  else if c.toNat < 0x10000 then 3
  else 4

/-- Models Rust `String::len()`: the UTF-8 byte length. -/
def byteLen (l : Str) : Nat := (l.map utf8Size).sum

/-- UTF-8 encoding of one scalar value, as bytes (used by `String::as_bytes`). -/
def utf8Bytes (c : Char) : List Nat :=
  let n := c.toNat
  if n < 0x80 then [n]
  else if n < 0x800 then [0xC0 + n / 64, 0x80 + n % 64]
  else if n < 0x10000 then [0xE0 + n / 4096, 0x80 + n / 64 % 64, 0x80 + n % 64]
  else [0xF0 + n / 262144, 0x80 + n / 4096 % 64, 0x80 + n / 64 % 64, 0x80 + n % 64]

/-- Models Rust `str::as_bytes()`. -/
def strBytes (l : Str) : List Nat := (l.map utf8Bytes).flatten

/-- Decimal digit as a character. -/
def digitChar (m : Nat) : Char :=
  match m with
  | 0 => '0' | 1 => '1' | 2 => '2' | 3 => '3' | 4 => '4'
  | 5 => '5' | 6 => '6' | 7 => '7' | 8 => '8' | _ => '9'

/-- Digit production with explicit fuel (structural recursion, so that the
kernel can evaluate it inside `decide`); `fuel = n + 1` always suffices. -/
def natStrAux : Nat → Nat → Str
  | 0, _ => []
  | f + 1, n =>
    if n < 10 then [digitChar n]
    else natStrAux f (n / 10) ++ [digitChar (n % 10)]

/-- Models Rust `Display` for unsigned integers. -/
def natStr (n : Nat) : Str := natStrAux (n + 1) n

/-- Models Rust `Display` for signed integers. -/
def intStr (i : Int) : Str :=
  if i < 0 then '-' :: natStr i.natAbs else natStr i.toNat

/-- Hexadecimal digit as a character (lowercase, as Rust `{:x}`). -/
def hexDigitChar (m : Nat) : Char :=
  match m with
  | 0 => '0' | 1 => '1' | 2 => '2' | 3 => '3' | 4 => '4'
  | 5 => '5' | 6 => '6' | 7 => '7' | 8 => '8' | 9 => '9'
  | 10 => 'a' | 11 => 'b' | 12 => 'c' | 13 => 'd' | 14 => 'e' | _ => 'f'

/-- Hex digit production with explicit fuel; `fuel = n + 1` always suffices. -/
def hexStrAux : Nat → Nat → Str
  | 0, _ => []
  | f + 1, n =>
    if n < 16 then [hexDigitChar n]
    else hexStrAux f (n / 16) ++ [hexDigitChar (n % 16)]

/-- Models Rust `{:x}` formatting of an unsigned value. -/
def hexStr (n : Nat) : Str := hexStrAux (n + 1) n

/-- Models Rust `{:x}` on an `i64`: negative values print their two's
complement bit pattern. -/
def hexI64 (i : Int) : Str := hexStr ((i.emod (2 ^ 64)).toNat)

/-- Models Rust `{:02x}` formatting of a `u8`. -/
def hex2 (b : Nat) : Str := [hexDigitChar (b / 16 % 16), hexDigitChar (b % 16)]

/-- Models Rust `as u32` on an unsigned value. -/
def u32of (n : Nat) : Nat := n % 4294967296

/-- Models Rust `as u32` on an `i64` (two's complement truncation). -/
def u32ofInt (i : Int) : Nat := (i.emod 4294967296).toNat

/-- Two-digit zero-padded rendering of a value below 100. -/
def pad2 (m : Nat) : Str := if m < 10 then '0' :: natStr m else natStr m

/-- Models Rust `{:.2}` formatting of the nonnegative `f64` ratio `num/den`
(`den > 0`), computed in exact integer arithmetic with round-half-up.  The
`f64` rounding of the source can differ on representation ties; no theorem
below depends on the digits this produces. -/
def fix2Ratio (num den : Nat) : Str :=
  let m := (200 * num + den) / (2 * den)
  natStr (m / 100) ++ ['.'] ++ pad2 (m % 100)

/-- Models Rust `str::split(sep)` for a one-character separator. -/
def splitOnChar (sep : Char) : Str → List Str
  | [] => [[]]
  | c :: cs =>
    let r := splitOnChar sep cs
    if c = sep then [] :: r
    else
      match r with
      | [] => [[c]]
      | h :: t => (c :: h) :: t

/-- Models Rust `str::split_once(sep)` for a one-character separator. -/
def splitOnceChar (sep : Char) : Str → Option (Str × Str)
  | [] => none
  | c :: cs =>
    if c = sep then some ([], cs)
    else
      match splitOnceChar sep cs with
      | none => none
      | some (a, b) => some (c :: a, b)

/-- Models Rust `str::rsplit_once(sep)` for a one-character separator. -/
def rsplitOnceChar (sep : Char) (l : Str) : Option (Str × Str) :=
  match splitOnceChar sep l.reverse with
  | none => none
  | some (a, b) => some (b.reverse, a.reverse)

/-- Models Rust `str::contains(pat)` for a string pattern. -/
def containsSub : Str → Str → Bool
  | [], pat => pat.isEmpty
  | c :: cs, pat => pat.isPrefixOf (c :: cs) || containsSub cs pat

/-- Left-to-right scan of `replace`, with explicit fuel (structural recursion,
so that the kernel can evaluate it); `fuel = l.length` always suffices. -/
def replaceAllAux (pat rep : Str) : Nat → Str → Str
  | 0, l => l
  | f + 1, l =>
    match l with
    | [] => []
    | c :: cs =>
      if pat ≠ [] ∧ pat.isPrefixOf (c :: cs) then
        rep ++ replaceAllAux pat rep f ((c :: cs).drop pat.length)
      else
        c :: replaceAllAux pat rep f cs

/-- Models Rust `str::replace(pat, rep)`: every non-overlapping occurrence of
`pat`, scanned left to right, is replaced by `rep`.  (For the empty pattern
this is the identity; the source never replaces an empty pattern.) -/
def replaceAll (pat rep l : Str) : Str := replaceAllAux pat rep l.length l

/-- Models Rust `String::replace(from_char, to)` where `to` renders a single
character. -/
def charReplace (a b : Char) (l : Str) : Str :=
  l.map fun c => if c = a then b else c

/-- Models Rust `str::to_lowercase`.  Exact for ASCII and for every character
the crate's constants use; the full Unicode case mapping of the source is not
modelled. -/
def lowerStr (l : Str) : Str := l.map Char.toLower

/-- Models Rust `str::to_uppercase` (ASCII-exact, as `lowerStr`). -/
def upperStr (l : Str) : Str := l.map Char.toUpper

/-- Models Rust `Vec::join(sep)` for string vectors. -/
def joinStr (sep : Str) (l : List Str) : Str := (l.intersperse sep).flatten

/-- Models Rust `str::trim_start_matches(p)` for a one-character pattern. -/
def trimStartChar (p : Char) : Str → Str
  | [] => []
  | c :: cs => if c = p then trimStartChar p cs else c :: cs

/-- Digits-only decimal reading used by integer `parse`. -/
def decDigits? (l : Str) : Option Nat :=
  if l ≠ [] ∧ l.all Char.isDigit then
    some (l.foldl (fun a c => a * 10 + (c.toNat - 48)) 0)
  else none

/-- Models Rust `str::parse::<u8>()` (optional leading `+`, overflow fails). -/
def parseU8 (l : Str) : Option Nat :=
  let l' := match l with
    | '+' :: r => r
    | _ => l
  match decDigits? l' with
  | some v => if v ≤ 255 then some v else none
  | none => none

/-- Value of one hexadecimal digit character. -/
def hexVal? (c : Char) : Option Nat :=
  if '0' ≤ c ∧ c ≤ '9' then some (c.toNat - 48)
  else if 'a' ≤ c ∧ c ≤ 'f' then some (c.toNat - 87)
  else if 'A' ≤ c ∧ c ≤ 'F' then some (c.toNat - 55)
  else none

/-- Models Rust `u8::from_str_radix(s, 16)` on a two-character slice. -/
def parseHex2 (c1 c2 : Char) : Option Nat :=
  match hexVal? c1, hexVal? c2 with
  | some v1, some v2 => some (v1 * 16 + v2)
  | _, _ => none

/-- HashMap-as-association-list insert: replaces the value at an existing key,
appends otherwise (models `HashMap::insert` for the uses below, where only
`contains_key` and `len` are observed). -/
def hmInsert (m : List (Str × Str)) (k v : Str) : List (Str × Str) :=
  if (m.lookup k).isSome then
    m.map fun p => if p.1 = k then (k, v) else p
  else m ++ [(k, v)]

/-- Models `HashMap::contains_key`. -/
def hmHasKey (m : List (Str × Str)) (k : Str) : Bool := (m.lookup k).isSome

-- ### Basic lemmas about the string model

/-- One conditional-append statement (`if cond { d = format!("{} -- ...", d) }`). -/
def appendIf (b : Bool) (suffix d : Str) : Str := if b then d ++ suffix else d

/-- One conditional-replace statement (`if cond { d = d.replace(pat, rep) }`). -/
def replaceIf (b : Bool) (pat rep d : Str) : Str := if b then replaceAll pat rep d else d

/-- One replace-or-append statement
(`if d.contains(pat) { d = d.replace(pat, rep) } else { d = format!("{} ...", d) }`). -/
def replaceOrAppend (b : Bool) (pat rep suffix d : Str) : Str :=
  if b then replaceAll pat rep d else d ++ suffix

-- ### `cfg!(target_os = ...)` selection used by the command engine

/-- Compile-time target OS of the source, made an explicit parameter. -/
inductive Os
  | windows
  | macos
  | linux
deriving DecidableEq

/-- The `system_info` string chosen in `enrich_command_context`. -/
def osInfo : Os → Str
  | .windows => "OS=Windows".toList
  | .macos => "OS=macOS".toList
  | .linux => "OS=Linux".toList

namespace command_engine

/-- `src/command_engine.rs::parse_command_request`. -/
def parse_command_request (command_data : Str) : Str :=
  let transformed_data :=
    if containsSub command_data "ls".toList || containsSub command_data "dir".toList then
      command_data ++ " -- CMD_TYPE=LISTING".toList
    else if containsSub command_data "cat".toList || containsSub command_data "type".toList then
      command_data ++ " -- CMD_TYPE=READING".toList
    else if containsSub command_data "rm".toList || containsSub command_data "del".toList then
      command_data ++ " -- CMD_TYPE=DELETION".toList
    else
      command_data ++ " -- CMD_TYPE=EXECUTION".toList
  let priorityTag := if 50 < byteLen transformed_data then "HIGH".toList else "NORMAL".toList
  transformed_data ++ " -- PRIORITY=".toList ++ priorityTag ++ " -- LENGTH=".toList ++
    natStr (byteLen command_data)

/-- `src/command_engine.rs::enrich_command_context`; `t` is the value of
`chrono::Utc::now().timestamp()` and `os` the compile-time target. -/
def enrich_command_context (t : Int) (os : Os) (processed_data : Str) : Str :=
  let session_id := "SESS_".toList ++ intStr (t.tmod 10000)
  processed_data ++ " -- TIMESTAMP=".toList ++ intStr t ++ " -- SESSION=".toList ++
    session_id ++ " -- USER_AGENT=".toList ++ "Rust-Todo-Client/1.0".toList ++
    " -- ".toList ++ osInfo os

/-- `src/command_engine.rs::prepare_command_execution`. -/
def prepare_command_execution (enriched_data : Str) : Str :=
  let f1 := replaceIf (containsSub enriched_data "&&".toList)
    "&&".toList " ; ".toList enriched_data
  let f2 := replaceIf (containsSub f1 "||".toList) "||".toList " ; ".toList f1
  let f3 := appendIf (!containsSub f2 "-- EXEC_WRAPPER".toList)
    " -- EXEC_WRAPPER=ENABLED".toList f2
  appendIf (decide (100 < byteLen f3)) " -- OPTIMIZATION=PERFORMANCE".toList f3

/-- `src/command_engine.rs::execute_first_command_operation`: spawns a shell on
the tainted data (effect not modelled) and returns the status string. -/
def execute_first_command_operation (data : Str) : Str :=
  "First command operation completed: ".toList ++ natStr (byteLen data) ++ " bytes".toList

/-- `src/command_engine.rs::execute_second_command_operation`. -/
def execute_second_command_operation (data : Str) : Str :=
  "Second command operation completed: ".toList ++ natStr (byteLen data) ++ " bytes".toList

/-- The final pipeline output handed to both command sinks. -/
def finalData (t : Int) (os : Os) (command_data : Str) : Str :=
  prepare_command_execution (enrich_command_context t os (parse_command_request command_data))

/-- `src/command_engine.rs::handle_command_operations`. -/
def handle_command_operations (t : Int) (os : Os) (command_data : Str) : Except Str Str :=
  let final_data := finalData t os command_data
  Except.ok ("Command operations completed: ".toList ++
    execute_first_command_operation final_data ++ ", ".toList ++
    execute_second_command_operation final_data)

end command_engine

namespace path_engine

/-- `src/path_engine.rs::parse_path_request`. -/
def parse_path_request (path_data : Str) : Str :=
  let transformed_data := replaceAll "path".toList "processed_path".toList path_data
  transformed_data ++ " -- TYPE=PATH_OPERATION -- LENGTH=".toList ++ natStr (byteLen path_data)

/-- `src/path_engine.rs::enrich_path_context`. -/
def enrich_path_context (t : Int) (processed_data : Str) : Str :=
  processed_data ++ " -- TIMESTAMP=".toList ++ intStr t ++ " -- SYSTEM=LOCAL".toList

/-- `src/path_engine.rs::prepare_path_execution`. -/
def prepare_path_execution (enriched_data : Str) : Str :=
  if containsSub (lowerStr enriched_data) "unsafe".toList then
    replaceAll "unsafe".toList "optimized".toList enriched_data
  else
    "secure_".toList ++ enriched_data

/-- `src/path_engine.rs::execute_first_path_operation` (`fs::metadata` effect
not modelled). -/
def execute_first_path_operation (data : Str) : Str :=
  "First path operation completed: ".toList ++ natStr (byteLen data) ++ " bytes".toList

/-- `src/path_engine.rs::execute_second_path_operation`. -/
def execute_second_path_operation (data : Str) : Str :=
  "Second path operation completed: ".toList ++ natStr (byteLen data) ++ " bytes".toList

/-- The final pipeline output handed to both path sinks. -/
def finalData (t : Int) (path_data : Str) : Str :=
  prepare_path_execution (enrich_path_context t (parse_path_request path_data))

/-- `src/path_engine.rs::handle_path_operations`. -/
def handle_path_operations (t : Int) (path_data : Str) : Except Str Str :=
  let final_data := finalData t path_data
  Except.ok ("Path operations completed: ".toList ++
    execute_first_path_operation final_data ++ ", ".toList ++
    execute_second_path_operation final_data)

end path_engine

namespace sql_engine

/-- `src/sql_engine.rs::parse_todo_sql_request`. -/
def parse_todo_sql_request (sql_data : Str) : Str :=
  let low := lowerStr sql_data
  let transformed_data :=
    if containsSub low "select".toList && containsSub low "todo".toList then
      sql_data ++ " -- OPERATION=TODO_QUERY".toList
    else if containsSub low "insert".toList && containsSub low "todo".toList then
      sql_data ++ " -- OPERATION=TODO_CREATE".toList
    else if containsSub low "update".toList && containsSub low "todo".toList then
      sql_data ++ " -- OPERATION=TODO_UPDATE".toList
    else if containsSub low "delete".toList && containsSub low "todo".toList then
      sql_data ++ " -- OPERATION=TODO_DELETE".toList
    else
      sql_data ++ " -- OPERATION=TODO_GENERIC".toList
  let priorityTag := if containsSub transformed_data "SELECT".toList then "READ".toList
    else "WRITE".toList
  transformed_data ++ " -- PRIORITY=".toList ++ priorityTag ++ " -- LENGTH=".toList ++
    natStr (byteLen sql_data)

/-- `src/sql_engine.rs::enrich_todo_context`. -/
def enrich_todo_context (t : Int) (processed_data : Str) : Str :=
  let user_id := "USER_".toList ++ intStr (t.tmod 1000)
  let todo_context :=
    if containsSub processed_data "completed".toList then "CONTEXT=COMPLETION_TRACKING".toList
    else if containsSub processed_data "assigned_to".toList then
      "CONTEXT=ASSIGNMENT_MANAGEMENT".toList
    else if containsSub processed_data "notes".toList then "CONTEXT=NOTE_PROCESSING".toList
    else "CONTEXT=GENERAL_TODO".toList
  processed_data ++ " -- TIMESTAMP=".toList ++ intStr t ++ " -- USER=".toList ++ user_id ++
    " -- VERSION=".toList ++ "v2.1.0".toList ++ " -- ".toList ++ todo_context

/-- Statement 1 of `sql_engine`'s finalize stage. -/
def prepare_step1 (d : Str) : Str :=
  appendIf (containsSub (lowerStr d) "where".toList)
    " -- OPTIMIZATION=INDEXED_QUERY".toList d

/-- Statement 2 of `sql_engine`'s finalize stage. -/
def prepare_step2 (d : Str) : Str :=
  appendIf (containsSub (lowerStr d) "order by".toList)
    " -- SORTING=ENABLED".toList d

/-- Statement 3 of `sql_engine`'s finalize stage. -/
def prepare_step3 (d : Str) : Str :=
  appendIf (containsSub (lowerStr d) "limit".toList)
    " -- PAGINATION=ACTIVE".toList d

/-- Statement 4 of `sql_engine`'s finalize stage. -/
def prepare_step4 (d : Str) : Str :=
  replaceOrAppend (containsSub d "-- SAFETY_CHECK".toList) "-- SAFETY_CHECK".toList
    "-- TODO_VALIDATION".toList " -- TODO_VALIDATION=SKIPPED".toList d

/-- `src/sql_engine.rs::prepare_todo_execution`, as the composition of its
sequential statements. -/
def prepare_todo_execution (enriched_data : Str) : Str :=
  prepare_step4 (prepare_step3 (prepare_step2 (prepare_step1 enriched_data)))

/-- `src/sql_engine.rs::execute_first_todo_operation` (MySQL exec effect not
modelled). -/
def execute_first_todo_operation (data : Str) : Str :=
  "First todo SQL operation completed: ".toList ++ natStr (byteLen data) ++ " bytes".toList

/-- `src/sql_engine.rs::execute_second_todo_operation`. -/
def execute_second_todo_operation (data : Str) : Str :=
  "Second todo SQL operation completed: ".toList ++ natStr (byteLen data) ++ " bytes".toList

/-- The final pipeline output handed to both SQL sinks. -/
def finalData (t : Int) (sql_data : Str) : Str :=
  prepare_todo_execution (enrich_todo_context t (parse_todo_sql_request sql_data))

/-- `src/sql_engine.rs::handle_sql_operations`. -/
def handle_sql_operations (t : Int) (sql_data : Str) : Except Str Str :=
  let final_data := finalData t sql_data
  Except.ok ("Todo SQL operations completed: ".toList ++
    execute_first_todo_operation final_data ++ ", ".toList ++
    execute_second_todo_operation final_data)

end sql_engine

-- ### Structural lemmas for the command and path pipelines

/-- No `&` or `|` character occurs in `l`. -/
def noAmp (l : Str) : Bool := l.all fun c => !(c == '&') && !(c == '|')


namespace redirect_engine

/-- The `match *priority` arm in `parse_todo_redirect_request` choosing
`operation_category`. -/
def category_of (p : Str) : Str :=
  if p = "NAVIGATION".toList then "UI_OPERATION".toList
  else if p = "ACTION".toList then "DATA_MODIFICATION".toList
  else if p = "DESTRUCTIVE".toList then "RISK_OPERATION".toList
  else if p = "STATE_CHANGE".toList then "WORKFLOW_OPERATION".toList
  else if p = "RELATIONSHIP".toList then "ENTITY_OPERATION".toList
  else if p = "LIFECYCLE".toList then "MANAGEMENT_OPERATION".toList
  else if p = "COPY_OPERATION".toList then "DUPLICATION_OPERATION".toList
  else if p = "DATA_OPERATION".toList then "IMPORT_EXPORT_OPERATION".toList
  else if p = "QUERY_OPERATION".toList then "SEARCH_OPERATION".toList
  else if p = "BATCH_OPERATION".toList then "BULK_OPERATION".toList
  else if p = "TEMPLATE_OPERATION".toList then "TEMPLATE_OPERATION".toList
  else if p = "VERSION_CONTROL".toList then "VERSION_OPERATION".toList
  else if p = "AUDIT_OPERATION".toList then "AUDIT_OPERATION".toList
  else if p = "ANALYTICS_OPERATION".toList then "ANALYTICS_OPERATION".toList
  else if p = "REPORTING_OPERATION".toList then "REPORTING_OPERATION".toList
  else "UNKNOWN_OPERATION".toList

/-- The `operation_patterns` table of `parse_todo_redirect_request`. -/
def operation_patterns : List (Str × Str × Str) :=
  [("todo/list".toList, "TODO_LIST_REDIRECT".toList, "NAVIGATION".toList),
   ("todo/create".toList, "TODO_CREATE_REDIRECT".toList, "ACTION".toList),
   ("todo/edit".toList, "TODO_EDIT_REDIRECT".toList, "ACTION".toList),
   ("todo/delete".toList, "TODO_DELETE_REDIRECT".toList, "DESTRUCTIVE".toList),
   ("todo/complete".toList, "TODO_COMPLETE_REDIRECT".toList, "STATE_CHANGE".toList),
   ("todo/assign".toList, "TODO_ASSIGN_REDIRECT".toList, "RELATIONSHIP".toList),
   ("todo/archive".toList, "TODO_ARCHIVE_REDIRECT".toList, "LIFECYCLE".toList),
   ("todo/restore".toList, "TODO_RESTORE_REDIRECT".toList, "LIFECYCLE".toList),
   ("todo/duplicate".toList, "TODO_DUPLICATE_REDIRECT".toList, "COPY_OPERATION".toList),
   ("todo/export".toList, "TODO_EXPORT_REDIRECT".toList, "DATA_OPERATION".toList),
   ("todo/import".toList, "TODO_IMPORT_REDIRECT".toList, "DATA_OPERATION".toList),
   ("todo/search".toList, "TODO_SEARCH_REDIRECT".toList, "QUERY_OPERATION".toList),
   ("todo/filter".toList, "TODO_FILTER_REDIRECT".toList, "QUERY_OPERATION".toList),
   ("todo/sort".toList, "TODO_SORT_REDIRECT".toList, "QUERY_OPERATION".toList),
   ("todo/bulk".toList, "TODO_BULK_REDIRECT".toList, "BATCH_OPERATION".toList),
   ("todo/template".toList, "TODO_TEMPLATE_REDIRECT".toList, "TEMPLATE_OPERATION".toList),
   ("todo/version".toList, "TODO_VERSION_REDIRECT".toList, "VERSION_CONTROL".toList),
   ("todo/history".toList, "TODO_HISTORY_REDIRECT".toList, "AUDIT_OPERATION".toList),
   ("todo/analytics".toList, "TODO_ANALYTICS_REDIRECT".toList, "ANALYTICS_OPERATION".toList),
   ("todo/report".toList, "TODO_REPORT_REDIRECT".toList, "REPORTING_OPERATION".toList)]

/-- `src/redirect_engine.rs::parse_todo_redirect_request`. -/
def parse_todo_redirect_request (redirect_data : Str) : Str :=
  let transformed_data := redirect_data
  let url_components := splitOnChar '?' transformed_data
  let base_path := (url_components[0]?).getD []
  let query_params := (url_components[1]?).getD []
  let param_pairs := splitOnChar '&' query_params
  let extracted_params := param_pairs.foldl (fun m param =>
    let key_value := splitOnChar '=' param
    if key_value.length = 2 then
      hmInsert m ((key_value[0]?).getD []) ((key_value[1]?).getD [])
    else m) []
  let path_lower := lowerStr base_path
  let hit := operation_patterns.find? fun p => containsSub path_lower p.1
  let detected_operation := match hit with
    | some p => p.2.1
    | none => "TODO_GENERIC_REDIRECT".toList
  let operation_priority0 := match hit with
    | some p => p.2.2
    | none => "STANDARD".toList
  let operation_category0 := match hit with
    | some p => category_of p.2.2
    | none => "GENERAL".toList
  -- sequential flag / level updates of the source, in statement order
  let flags0 : List Str := []
  let security_level0 := "STANDARD".toList
  let redirect_type0 := "INTERNAL".toList
  let hasPriority := hmHasKey extracted_params "priority".toList
  let flags1 := if hasPriority then flags0 ++ ["PRIORITY_DETECTED".toList] else flags0
  let security_level1 := if hasPriority then "ENHANCED".toList else security_level0
  let hasUrgent := hmHasKey extracted_params "urgent".toList
  let flags2 := if hasUrgent then flags1 ++ ["URGENT_FLAG".toList] else flags1
  let operation_priority1 := if hasUrgent then "HIGH".toList else operation_priority0
  let hasConf := hmHasKey extracted_params "confidential".toList
  let flags3 := if hasConf then flags2 ++ ["CONFIDENTIAL_FLAG".toList] else flags2
  let security_level2 := if hasConf then "RESTRICTED".toList else security_level1
  let hasExternal := hmHasKey extracted_params "external".toList
  let redirect_type1 := if hasExternal then "EXTERNAL".toList else redirect_type0
  let flags4 := if hasExternal then flags3 ++ ["EXTERNAL_REDIRECT".toList] else flags3
  let hasApi := hmHasKey extracted_params "api".toList
  let flags5 := if hasApi then flags4 ++ ["API_ENDPOINT".toList] else flags4
  let operation_category1 := if hasApi then "API_OPERATION".toList else operation_category0
  let isAdmin := containsSub path_lower "admin".toList || containsSub path_lower "root".toList
  let security_level3 := if isAdmin then "ADMIN".toList else security_level2
  let flags6 := if isAdmin then flags5 ++ ["ADMIN_ACCESS".toList] else flags5
  let isDebug := containsSub path_lower "debug".toList || containsSub path_lower "test".toList
  let flags7 := if isDebug then flags6 ++ ["DEBUG_MODE".toList] else flags6
  let security_level4 := if isDebug then "DEVELOPMENT".toList else security_level3
  let path_depth := base_path.count '/'
  let complexity_score := path_depth + extracted_params.length
  let operation_metadata :=
    "OPERATION=".toList ++ detected_operation ++ " -- PRIORITY=".toList ++ operation_priority1 ++
    " -- CATEGORY=".toList ++ operation_category1 ++ " -- SECURITY=".toList ++ security_level4 ++
    " -- TYPE=".toList ++ redirect_type1 ++ " -- COMPLEXITY=".toList ++ natStr complexity_score ++
    " -- FLAGS=".toList ++ joinStr ",".toList flags7 ++ " -- LENGTH=".toList ++
    natStr (byteLen redirect_data)
  transformed_data ++ " -- ".toList ++ operation_metadata

/-- Fold for the sequences of `if data.contains(..) { score += ..; flags.push(..) }`
statements the analysis helpers use. -/
def scoreSteps (data : Str) (steps : List (Str × Int × Str)) : Int × List Str :=
  steps.foldl (fun acc step =>
    if containsSub data step.1 then (acc.1 + step.2.1, acc.2 ++ [step.2.2]) else acc)
    (0, [])

/-- `src/redirect_engine.rs::analyze_redirect_context`. -/
def analyze_redirect_context (data : Str) : Str :=
  let r := scoreSteps data
    [("todo".toList, 10, "TODO_OPERATION".toList),
     ("list".toList, 5, "LIST_OPERATION".toList),
     ("create".toList, 15, "CREATE_OPERATION".toList),
     ("edit".toList, 12, "EDIT_OPERATION".toList),
     ("delete".toList, 20, "DELETE_OPERATION".toList),
     ("complete".toList, 8, "COMPLETE_OPERATION".toList),
     ("assign".toList, 7, "ASSIGN_OPERATION".toList),
     ("archive".toList, 6, "ARCHIVE_OPERATION".toList),
     ("search".toList, 4, "SEARCH_OPERATION".toList),
     ("filter".toList, 3, "FILTER_OPERATION".toList),
     ("sort".toList, 2, "SORT_OPERATION".toList),
     ("bulk".toList, 25, "BULK_OPERATION".toList),
     ("template".toList, 9, "TEMPLATE_OPERATION".toList),
     ("version".toList, 11, "VERSION_OPERATION".toList),
     ("history".toList, 6, "HISTORY_OPERATION".toList),
     ("analytics".toList, 18, "ANALYTICS_OPERATION".toList),
     ("report".toList, 14, "REPORT_OPERATION".toList)]
  "SCORE_".toList ++ intStr r.1 ++ "_FLAGS_".toList ++ joinStr ",".toList r.2

/-- `src/redirect_engine.rs::calculate_risk_score`. -/
def calculate_risk_score (data : Str) : Str :=
  let r := scoreSteps data
    [("delete".toList, 30, "DESTRUCTIVE_ACTION".toList),
     ("admin".toList, 25, "ADMIN_ACCESS".toList),
     ("external".toList, 20, "EXTERNAL_ACCESS".toList),
     ("debug".toList, 15, "DEBUG_ACCESS".toList),
     ("confidential".toList, 18, "CONFIDENTIAL_DATA".toList),
     ("bulk".toList, 12, "BULK_OPERATION".toList),
     ("api".toList, 10, "API_ACCESS".toList),
     ("root".toList, 35, "ROOT_ACCESS".toList),
     ("test".toList, 5, "TEST_OPERATION".toList)]
  let risk_level := if 30 ≤ r.1 then "HIGH".toList
    else if 15 ≤ r.1 then "MEDIUM".toList else "LOW".toList
  risk_level ++ "_SCORE_".toList ++ intStr r.1 ++ "_FACTORS_".toList ++ joinStr ",".toList r.2

/-- `src/redirect_engine.rs::determine_performance_profile`.  The `f64`
efficiency ratio `size / time` is modelled as the exact rational, compared and
rendered in integer arithmetic. -/
def determine_performance_profile (size : Nat) (time : Int) : Str :=
  if 0 < time then
    let tn := time.toNat
    let performance_level := if 10 * tn < size then "OPTIMAL".toList
      else if 5 * tn < size then "GOOD".toList
      else if tn < size then "ACCEPTABLE".toList else "POOR".toList
    performance_level ++ "_EFFICIENCY_".toList ++ fix2Ratio size tn
  else "POOR_EFFICIENCY_".toList ++ fix2Ratio 0 1

/-- `src/redirect_engine.rs::analyze_user_pattern`. -/
def analyze_user_pattern (data : Str) : Str :=
  let r := scoreSteps data
    [("frequent".toList, 0, "FREQUENT_USER".toList),
     ("power".toList, 0, "POWER_USER".toList),
     ("casual".toList, 0, "CASUAL_USER".toList),
     ("admin".toList, 0, "ADMIN_USER".toList),
     ("developer".toList, 0, "DEVELOPER_USER".toList),
     ("analyst".toList, 0, "ANALYST_USER".toList),
     ("manager".toList, 0, "MANAGER_USER".toList),
     ("viewer".toList, 0, "VIEWER_USER".toList),
     ("editor".toList, 0, "EDITOR_USER".toList),
     ("creator".toList, 0, "CREATOR_USER".toList)]
  if r.2.isEmpty then "STANDARD_USER".toList else joinStr "_".toList r.2

/-- `src/redirect_engine.rs::enrich_todo_redirect_context` (`t` is the
timestamp). -/
def enrich_todo_redirect_context (t : Int) (processed_data : Str) : Str :=
  let session_id := "SESS_".toList ++ intStr (t.tmod 10000)
  let user_agent_hash := "UA_".toList ++ hexI64 (t.tmod 0xFFFF)
  let request_id := "REQ_".toList ++ hexI64 (t.tmod 0xFFFFFF)
  let correlation_id := "CORR_".toList ++ hexI64 (t.tmod 0xFFFFFFFF)
  let request_size := byteLen processed_data
  let processing_time := t.tmod 1000
  let memory_usage := u32of (request_size * 2)
  let cpu_usage := u32ofInt (t.tmod 100)
  let context_analysis := analyze_redirect_context processed_data
  let risk_assessment := calculate_risk_score processed_data
  let performance_profile := determine_performance_profile request_size processing_time
  let user_pattern := analyze_user_pattern processed_data
  let session_duration := t.tmod 3600
  let interaction_count := t.tmod 100 + 1
  let redirect_context :=
    if containsSub processed_data "completed".toList then "CONTEXT=COMPLETION_NAVIGATION".toList
    else if containsSub processed_data "assigned_to".toList then
      "CONTEXT=ASSIGNMENT_NAVIGATION".toList
    else if containsSub processed_data "notes".toList then "CONTEXT=NOTE_NAVIGATION".toList
    else if containsSub processed_data "priority".toList then "CONTEXT=PRIORITY_NAVIGATION".toList
    else if containsSub processed_data "deadline".toList then "CONTEXT=DEADLINE_NAVIGATION".toList
    else if containsSub processed_data "category".toList then "CONTEXT=CATEGORY_NAVIGATION".toList
    else if containsSub processed_data "tag".toList then "CONTEXT=TAG_NAVIGATION".toList
    else if containsSub processed_data "status".toList then "CONTEXT=STATUS_NAVIGATION".toList
    else if containsSub processed_data "progress".toList then "CONTEXT=PROGRESS_NAVIGATION".toList
    else if containsSub processed_data "dependency".toList then
      "CONTEXT=DEPENDENCY_NAVIGATION".toList
    else "CONTEXT=GENERAL_NAVIGATION".toList
  let network_latency := u32ofInt (t.tmod 500)
  let server_load := u32ofInt (t.tmod 100)
  let cache_hit_rate := u32ofInt (t.tmod 100)
  let security_context :=
    if containsSub processed_data "admin".toList then "SECURITY=ADMIN_ACCESS".toList
    else if containsSub processed_data "external".toList then "SECURITY=EXTERNAL_ACCESS".toList
    else if containsSub processed_data "api".toList then "SECURITY=API_ACCESS".toList
    else if containsSub processed_data "debug".toList then "SECURITY=DEBUG_ACCESS".toList
    else "SECURITY=STANDARD_ACCESS".toList
  let business_context :=
    if containsSub processed_data "urgent".toList then "BUSINESS=URGENT_OPERATION".toList
    else if containsSub processed_data "confidential".toList then
      "BUSINESS=CONFIDENTIAL_OPERATION".toList
    else if containsSub processed_data "bulk".toList then "BUSINESS=BULK_OPERATION".toList
    else if containsSub processed_data "template".toList then
      "BUSINESS=TEMPLATE_OPERATION".toList
    else "BUSINESS=STANDARD_OPERATION".toList
  processed_data ++ " -- TIMESTAMP=".toList ++ intStr t ++ " -- SESSION=".toList ++ session_id ++
    " -- VERSION=".toList ++ "v2.1.0".toList ++ " -- ".toList ++ redirect_context ++
    " -- USER_AGENT=".toList ++ user_agent_hash ++ " -- REQUEST_ID=".toList ++ request_id ++
    " -- CORRELATION_ID=".toList ++ correlation_id ++ " -- PERFORMANCE[SIZE=".toList ++
    natStr request_size ++ ",TIME=".toList ++ intStr processing_time ++ ",MEMORY=".toList ++
    natStr memory_usage ++ ",CPU=".toList ++ natStr cpu_usage ++ "] -- CONTEXT_ANALYSIS=".toList ++
    context_analysis ++ " -- RISK_SCORE=".toList ++ risk_assessment ++
    " -- PERFORMANCE_PROFILE=".toList ++ performance_profile ++ " -- USER_PATTERN=".toList ++
    user_pattern ++ " -- SESSION_DURATION=".toList ++ intStr session_duration ++
    " -- INTERACTION_COUNT=".toList ++ intStr interaction_count ++ " -- NETWORK[LATENCY=".toList ++
    natStr network_latency ++ ",LOAD=".toList ++ natStr server_load ++ ",CACHE=".toList ++
    natStr cache_hit_rate ++ "] -- ".toList ++ security_context ++ " -- ".toList ++
    business_context

/-- `src/redirect_engine.rs::analyze_protocol_requirements`. -/
def analyze_protocol_requirements (data : Str) : Str :=
  let r := scoreSteps data
    [("http".toList, 10, "HTTP_SUPPORT".toList),
     ("https".toList, 20, "HTTPS_SUPPORT".toList),
     ("ws".toList, 15, "WEBSOCKET_SUPPORT".toList),
     ("wss".toList, 25, "SECURE_WEBSOCKET_SUPPORT".toList),
     ("ftp".toList, 5, "FTP_SUPPORT".toList),
     ("sftp".toList, 15, "SFTP_SUPPORT".toList),
     ("api".toList, 12, "API_PROTOCOL".toList),
     ("rest".toList, 8, "REST_PROTOCOL".toList),
     ("graphql".toList, 18, "GRAPHQL_PROTOCOL".toList),
     ("grpc".toList, 22, "GRPC_PROTOCOL".toList)]
  let protocol_level := if 20 ≤ r.1 then "ADVANCED".toList
    else if 10 ≤ r.1 then "STANDARD".toList else "BASIC".toList
  protocol_level ++ "_SCORE_".toList ++ intStr r.1 ++ "_FLAGS_".toList ++ joinStr ",".toList r.2

/-- `src/redirect_engine.rs::perform_security_validation`. -/
def perform_security_validation (data : Str) : Str :=
  let r := scoreSteps data
    [("admin".toList, 30, "ADMIN_ACCESS".toList),
     ("root".toList, 40, "ROOT_ACCESS".toList),
     ("external".toList, 20, "EXTERNAL_ACCESS".toList),
     ("api".toList, 15, "API_ACCESS".toList),
     ("debug".toList, 10, "DEBUG_ACCESS".toList),
     ("confidential".toList, 25, "CONFIDENTIAL_DATA".toList),
     ("https".toList, 15, "ENCRYPTED_TRANSPORT".toList),
     ("wss".toList, 18, "SECURE_WEBSOCKET".toList),
     ("localhost".toList, -5, "LOCAL_ACCESS".toList),
     ("test".toList, -3, "TEST_ENVIRONMENT".toList)]
  let security_level := if 30 ≤ r.1 then "HIGH".toList
    else if 15 ≤ r.1 then "MEDIUM".toList else "LOW".toList
  security_level ++ "_SCORE_".toList ++ intStr r.1 ++ "_FLAGS_".toList ++ joinStr ",".toList r.2

/-- `src/redirect_engine.rs::optimize_performance_parameters`. -/
def optimize_performance_parameters (data : Str) : Str :=
  let r := scoreSteps data
    [("bulk".toList, 25, "BULK_OPTIMIZATION".toList),
     ("search".toList, 15, "SEARCH_OPTIMIZATION".toList),
     ("filter".toList, 12, "FILTER_OPTIMIZATION".toList),
     ("sort".toList, 8, "SORT_OPTIMIZATION".toList),
     ("cache".toList, 20, "CACHE_OPTIMIZATION".toList),
     ("compression".toList, 15, "COMPRESSION_OPTIMIZATION".toList),
     ("async".toList, 18, "ASYNC_OPTIMIZATION".toList),
     ("parallel".toList, 22, "PARALLEL_OPTIMIZATION".toList),
     ("batch".toList, 20, "BATCH_OPTIMIZATION".toList),
     ("stream".toList, 16, "STREAM_OPTIMIZATION".toList)]
  let optimization_level := if 20 ≤ r.1 then "AGGRESSIVE".toList
    else if 10 ≤ r.1 then "MODERATE".toList else "BASIC".toList
  optimization_level ++ "_SCORE_".toList ++ intStr r.1 ++ "_FLAGS_".toList ++
    joinStr ",".toList r.2

/-- `src/redirect_engine.rs::detect_potential_threats`. -/
def detect_potential_threats (data : Str) : Str :=
  let r := scoreSteps data
    [("javascript:".toList, 50, "XSS_ATTEMPT".toList),
     ("data:text/html".toList, 45, "HTML_INJECTION".toList),
     ("file://".toList, 40, "FILE_ACCESS_ATTEMPT".toList),
     ("ftp://".toList, 35, "FTP_ACCESS_ATTEMPT".toList),
     ("javascript:alert".toList, 55, "ALERT_INJECTION".toList),
     ("javascript:confirm".toList, 55, "CONFIRM_INJECTION".toList),
     ("javascript:prompt".toList, 55, "PROMPT_INJECTION".toList),
     ("javascript:eval".toList, 60, "EVAL_INJECTION".toList),
     ("javascript:document.cookie".toList, 65, "COOKIE_THEFT_ATTEMPT".toList),
     ("javascript:window.location".toList, 50, "LOCATION_HIJACKING".toList),
     ("javascript:document.write".toList, 45, "DOM_MANIPULATION".toList),
     ("javascript:innerHTML".toList, 40, "INNERHTML_INJECTION".toList),
     ("javascript:outerHTML".toList, 40, "OUTERHTML_INJECTION".toList),
     ("javascript:setTimeout".toList, 35, "TIMER_INJECTION".toList),
     ("javascript:setInterval".toList, 35, "INTERVAL_INJECTION".toList),
     ("javascript:fetch".toList, 30, "FETCH_INJECTION".toList),
     ("javascript:XMLHttpRequest".toList, 30, "XHR_INJECTION".toList),
     ("javascript:localStorage".toList, 25, "STORAGE_ACCESS".toList),
     ("javascript:sessionStorage".toList, 25, "SESSION_ACCESS".toList),
     ("javascript:indexedDB".toList, 20, "INDEXEDDB_ACCESS".toList)]
  let threat_level := if 50 ≤ r.1 then "CRITICAL".toList
    else if 30 ≤ r.1 then "HIGH".toList
    else if 15 ≤ r.1 then "MEDIUM".toList else "LOW".toList
  threat_level ++ "_SCORE_".toList ++ intStr r.1 ++ "_FLAGS_".toList ++ joinStr ",".toList r.2

/-- Statement 1 of `redirect_engine`'s finalize stage. -/
def prepare_step1 (d : Str) : Str :=
  appendIf (containsSub (lowerStr d) "http".toList)
    " -- PROTOCOL=HTTP -- HTTP_VERSION=1.1 -- COMPRESSION=ENABLED -- KEEP_ALIVE=TRUE".toList d

/-- Statement 2 of `redirect_engine`'s finalize stage. -/
def prepare_step2 (d : Str) : Str :=
  appendIf (containsSub (lowerStr d) "https".toList)
    " -- PROTOCOL=HTTPS -- TLS_VERSION=1.3 -- CIPHER_SUITE=AES256-GCM -- CERT_VERIFICATION=STRICT".toList d

/-- Statement 3 of `redirect_engine`'s finalize stage. -/
def prepare_step3 (d : Str) : Str :=
  appendIf (containsSub (lowerStr d) "ws".toList ||
      containsSub (lowerStr d) "websocket".toList)
    " -- PROTOCOL=WEBSOCKET -- WS_VERSION=13 -- COMPRESSION=PERMESSAGE_DEFLATE -- FRAGMENTATION=ENABLED".toList d

/-- Statement 4 of `redirect_engine`'s finalize stage. -/
def prepare_step4 (d : Str) : Str :=
  appendIf (containsSub (lowerStr d) "wss".toList)
    " -- PROTOCOL=WSS -- SECURE_WEBSOCKET -- TLS_UPGRADE=ENABLED -- BINARY_MESSAGES=SUPPORTED".toList d

/-- Statement 5 of `redirect_engine`'s finalize stage. -/
def prepare_step5 (d : Str) : Str :=
  appendIf (containsSub (lowerStr d) "localhost".toList)
    " -- ENVIRONMENT=LOCAL -- DEBUG_MODE=ENABLED -- CACHE_DISABLED=TRUE -- LOG_LEVEL=DEBUG".toList d

/-- Statement 6 of `redirect_engine`'s finalize stage. -/
def prepare_step6 (d : Str) : Str :=
  appendIf (containsSub (lowerStr d) "staging".toList)
    " -- ENVIRONMENT=STAGING -- TEST_DATA=ENABLED -- MONITORING=ENHANCED -- BACKUP_DISABLED=TRUE".toList d

/-- Statement 7 of `redirect_engine`'s finalize stage. -/
def prepare_step7 (d : Str) : Str :=
  appendIf (containsSub (lowerStr d) "production".toList)
    " -- ENVIRONMENT=PRODUCTION -- SECURITY=MAXIMUM -- MONITORING=REAL_TIME -- BACKUP=ENABLED".toList d

/-- Statement 8 of `redirect_engine`'s finalize stage. -/
def prepare_step8 (d : Str) : Str :=
  appendIf (containsSub (lowerStr d) "development".toList)
    " -- ENVIRONMENT=DEVELOPMENT -- HOT_RELOAD=ENABLED -- DEBUGGER=ATTACHED -- PROFILING=ENABLED".toList d

/-- Statement 9 of `redirect_engine`'s finalize stage. -/
def prepare_step9 (d : Str) : Str :=
  replaceOrAppend (containsSub d "-- SAFETY_CHECK".toList) "-- SAFETY_CHECK".toList
    "-- REDIRECT_VALIDATION=ENABLED".toList " -- REDIRECT_VALIDATION=SKIPPED".toList d

/-- Statement 10 of `redirect_engine`'s finalize stage. -/
def prepare_step10 (d : Str) : Str :=
  appendIf (containsSub d "admin".toList ||
      containsSub d "root".toList)
    " -- SECURITY_LEVEL=ADMIN -- ACCESS_CONTROL=STRICT -- AUDIT_LOGGING=ENABLED -- SESSION_VALIDATION=REQUIRED".toList d

/-- Statement 11 of `redirect_engine`'s finalize stage. -/
def prepare_step11 (d : Str) : Str :=
  appendIf (containsSub d "external".toList)
    " -- EXTERNAL_ACCESS=ENABLED -- CORS_POLICY=STRICT -- RATE_LIMITING=ENABLED -- IP_WHITELIST=REQUIRED".toList d

/-- Statement 12 of `redirect_engine`'s finalize stage. -/
def prepare_step12 (d : Str) : Str :=
  appendIf (containsSub d "api".toList)
    " -- API_ACCESS=ENABLED -- AUTHENTICATION=REQUIRED -- RATE_LIMITING=ENABLED -- VERSIONING=ENABLED".toList d

/-- Statement 13 of `redirect_engine`'s finalize stage. -/
def prepare_step13 (d : Str) : Str :=
  appendIf (containsSub d "bulk".toList)
    " -- BULK_OPERATION=ENABLED -- BATCH_SIZE=OPTIMIZED -- MEMORY_ALLOCATION=INCREASED -- THREAD_POOL=EXPANDED".toList d

/-- Statement 14 of `redirect_engine`'s finalize stage. -/
def prepare_step14 (d : Str) : Str :=
  appendIf (containsSub d "search".toList ||
      containsSub d "filter".toList)
    " -- SEARCH_OPTIMIZATION=ENABLED -- INDEX_UTILIZATION=MAXIMUM -- CACHE_STRATEGY=AGGRESSIVE -- QUERY_OPTIMIZATION=ENABLED".toList d

/-- Statement 15 of `redirect_engine`'s finalize stage. -/
def prepare_step15 (d : Str) : Str :=
  appendIf (containsSub d "analytics".toList)
    " -- ANALYTICS_MODE=ENABLED -- DATA_COLLECTION=ENHANCED -- METRICS_AGGREGATION=REAL_TIME -- REPORTING=ENABLED".toList d

/-- `src/redirect_engine.rs::prepare_todo_redirect_execution`, as the composition of its
sequential statements. -/
def prepare_todo_redirect_execution (enriched_data : Str) : Str :=
  let protocol_analysis := analyze_protocol_requirements enriched_data
  let security_validation := perform_security_validation enriched_data
  let performance_optimization := optimize_performance_parameters enriched_data
  let threat_detection := detect_potential_threats enriched_data
  prepare_step15 (prepare_step14 (prepare_step13 (prepare_step12 (prepare_step11 (prepare_step10 (prepare_step9 (prepare_step8 (prepare_step7 (prepare_step6 (prepare_step5 (prepare_step4 (prepare_step3 (prepare_step2 (prepare_step1 enriched_data)))))))))))))) ++ " -- PROTOCOL_ANALYSIS=".toList ++ protocol_analysis ++
    " -- SECURITY_VALIDATION=".toList ++ security_validation ++
    " -- PERFORMANCE_OPTIMIZATION=".toList ++ performance_optimization ++
    " -- THREAT_DETECTION=".toList ++ threat_detection

/-- Result of one redirect sink call: the string handed to the URI parser, 
whether a redirect value was actually built, and the returned status. -/
structure SinkResult where
  parsed : Str
  redirected : Bool
  status : Str
deriving DecidableEq

/-- `src/redirect_engine.rs::execute_first_redirect_operation`; `pf` models
`str::parse::<warp::http::Uri>(..).is_ok()`.  A `Redirect` value is built
exactly when the parse succeeds. -/
def execute_first_redirect_operation (pf : Str → Bool) (data : Str) : SinkResult :=
  { parsed := data
    redirected := pf data
    status := "First todo redirect operation completed: ".toList ++ natStr (byteLen data) ++
      " bytes".toList }

/-- `src/redirect_engine.rs::execute_second_redirect_operation`. -/
def execute_second_redirect_operation (pf : Str → Bool) (data : Str) : SinkResult :=
  { parsed := data
    redirected := pf data
    status := "Second todo redirect operation completed: ".toList ++ natStr (byteLen data) ++
      " bytes".toList }

/-- The final pipeline output handed to both redirect sinks. -/
def finalData (t : Int) (redirect_data : Str) : Str :=
  prepare_todo_redirect_execution (enrich_todo_redirect_context t
    (parse_todo_redirect_request redirect_data))

/-- `src/redirect_engine.rs::handle_redirect_operations`. -/
def handle_redirect_operations (pf : Str → Bool) (t : Int) (redirect_data : Str) :
    Except Str Str :=
  let final_data := finalData t redirect_data
  Except.ok ("Todo redirect operations completed: ".toList ++
    (execute_first_redirect_operation pf final_data).status ++ ", ".toList ++
    (execute_second_redirect_operation pf final_data).status)

end redirect_engine


namespace xpath_engine

/-- The `match *priority` arm in `parse_todo_request` choosing
`operation_category`. -/
def category_of (p : Str) : Str :=
  if p = "NODE_QUERY".toList then "SELECTION_OPERATION".toList
  else if p = "SEARCH_QUERY".toList then "SEARCH_OPERATION".toList
  else if p = "FILTER_QUERY".toList then "FILTER_OPERATION".toList
  else if p = "SORT_QUERY".toList then "SORT_OPERATION".toList
  else if p = "AGGREGATE_QUERY".toList then "AGGREGATE_OPERATION".toList
  else "UNKNOWN_OPERATION".toList

/-- The `operation_patterns` table of `parse_todo_request`. -/
def operation_patterns : List (Str × Str × Str) :=
  [("//todo".toList, "TODO_NODE_SELECTION".toList, "NODE_QUERY".toList),
   ("//user".toList, "USER_NODE_SELECTION".toList, "NODE_QUERY".toList),
   ("//task".toList, "TASK_NODE_SELECTION".toList, "NODE_QUERY".toList),
   ("//project".toList, "PROJECT_NODE_SELECTION".toList, "NODE_QUERY".toList),
   ("//category".toList, "CATEGORY_NODE_SELECTION".toList, "NODE_QUERY".toList),
   ("//priority".toList, "PRIORITY_NODE_SELECTION".toList, "NODE_QUERY".toList),
   ("//status".toList, "STATUS_NODE_SELECTION".toList, "NODE_QUERY".toList),
   ("//deadline".toList, "DEADLINE_NODE_SELECTION".toList, "NODE_QUERY".toList),
   ("//assigned".toList, "ASSIGNED_NODE_SELECTION".toList, "NODE_QUERY".toList),
   ("//completed".toList, "COMPLETED_NODE_SELECTION".toList, "NODE_QUERY".toList),
   ("//archived".toList, "ARCHIVED_NODE_SELECTION".toList, "NODE_QUERY".toList),
   ("//template".toList, "TEMPLATE_NODE_SELECTION".toList, "NODE_QUERY".toList),
   ("//version".toList, "VERSION_NODE_SELECTION".toList, "NODE_QUERY".toList),
   ("//history".toList, "HISTORY_NODE_SELECTION".toList, "NODE_QUERY".toList),
   ("//analytics".toList, "ANALYTICS_NODE_SELECTION".toList, "NODE_QUERY".toList),
   ("//report".toList, "REPORT_NODE_SELECTION".toList, "NODE_QUERY".toList),
   ("//search".toList, "SEARCH_NODE_SELECTION".toList, "SEARCH_QUERY".toList),
   ("//filter".toList, "FILTER_NODE_SELECTION".toList, "FILTER_QUERY".toList),
   ("//sort".toList, "SORT_NODE_SELECTION".toList, "SORT_QUERY".toList),
   ("//aggregate".toList, "AGGREGATE_NODE_SELECTION".toList, "AGGREGATE_QUERY".toList)]

/-- `src/xpath_engine.rs::parse_todo_request`. -/
def parse_todo_request (todo_data : Str) : Str :=
  let transformed_data := todo_data
  let query_components := splitOnChar '|' transformed_data
  let base_query := (query_components[0]?).getD []
  let query_params := (query_components[1]?).getD []
  let param_pairs := splitOnChar '&' query_params
  let extracted_params := param_pairs.foldl (fun m param =>
    let key_value := splitOnChar '=' param
    if key_value.length = 2 then
      hmInsert m ((key_value[0]?).getD []) ((key_value[1]?).getD [])
    else m) []
  let query_lower := lowerStr base_query
  let hit := operation_patterns.find? fun p => containsSub query_lower p.1
  let detected_operation := match hit with
    | some p => p.2.1
    | none => "XPATH_GENERIC_QUERY".toList
  let operation_priority := match hit with
    | some p => p.2.2
    | none => "STANDARD".toList
  let operation_category := match hit with
    | some p => category_of p.2.2
    | none => "GENERAL".toList
  let flags0 : List Str := []
  let validation_type0 := "STANDARD".toList
  let hasRec := hmHasKey extracted_params "recursive".toList
  let flags1 := if hasRec then flags0 ++ ["RECURSIVE_FLAG".toList] else flags0
  let validation_type1 := if hasRec then "RECURSIVE".toList else validation_type0
  let hasDeep := hmHasKey extracted_params "deep".toList
  let flags2 := if hasDeep then flags1 ++ ["DEEP_SEARCH_FLAG".toList] else flags1
  let hasWild := hmHasKey extracted_params "wildcard".toList
  let flags3 := if hasWild then flags2 ++ ["WILDCARD_FLAG".toList] else flags2
  let validation_type2 := if hasWild then "WILDCARD".toList else validation_type1
  let hasCase := hmHasKey extracted_params "case_sensitive".toList
  let flags4 := if hasCase then flags3 ++ ["CASE_SENSITIVE_FLAG".toList] else flags3
  let hasNs := hmHasKey extracted_params "namespace".toList
  let flags5 := if hasNs then flags4 ++ ["NAMESPACE_FLAG".toList] else flags4
  let validation_type3 := if hasNs then "NAMESPACED".toList else validation_type2
  let isAdmin := containsSub query_lower "admin".toList || containsSub query_lower "root".toList
  let flags6 := if isAdmin then flags5 ++ ["ADMIN_ACCESS".toList] else flags5
  let isDebug := containsSub query_lower "debug".toList || containsSub query_lower "test".toList
  let flags7 := if isDebug then flags6 ++ ["DEBUG_MODE".toList] else flags6
  let query_depth := base_query.count '/'
  let complexity_score := query_depth + extracted_params.length
  let query_metadata :=
    "OPERATION=".toList ++ detected_operation ++ " -- PRIORITY=".toList ++ operation_priority ++
    " -- CATEGORY=".toList ++ operation_category ++ " -- TYPE=".toList ++ validation_type3 ++
    " -- COMPLEXITY=".toList ++ natStr complexity_score ++ " -- FLAGS=".toList ++
    joinStr ",".toList flags7 ++ " -- LENGTH=".toList ++ natStr (byteLen todo_data)
  transformed_data ++ " -- ".toList ++ query_metadata

/-- `src/xpath_engine.rs::analyze_document_context`. -/
def analyze_document_context (data : Str) : Str :=
  let r := redirect_engine.scoreSteps data
    [("todo".toList, 10, "TODO_QUERY".toList),
     ("user".toList, 15, "USER_QUERY".toList),
     ("task".toList, 12, "TASK_QUERY".toList),
     ("project".toList, 18, "PROJECT_QUERY".toList),
     ("category".toList, 8, "CATEGORY_QUERY".toList),
     ("priority".toList, 9, "PRIORITY_QUERY".toList),
     ("status".toList, 7, "STATUS_QUERY".toList),
     ("deadline".toList, 11, "DEADLINE_QUERY".toList),
     ("assigned".toList, 13, "ASSIGNED_QUERY".toList),
     ("completed".toList, 6, "COMPLETED_QUERY".toList),
     ("archived".toList, 5, "ARCHIVED_QUERY".toList),
     ("template".toList, 14, "TEMPLATE_QUERY".toList),
     ("version".toList, 16, "VERSION_QUERY".toList),
     ("history".toList, 12, "HISTORY_QUERY".toList),
     ("analytics".toList, 20, "ANALYTICS_QUERY".toList),
     ("report".toList, 17, "REPORT_QUERY".toList),
     ("search".toList, 4, "SEARCH_QUERY".toList),
     ("filter".toList, 3, "FILTER_QUERY".toList),
     ("sort".toList, 2, "SORT_QUERY".toList),
     ("aggregate".toList, 25, "AGGREGATE_QUERY".toList)]
  "SCORE_".toList ++ intStr r.1 ++ "_FLAGS_".toList ++ joinStr ",".toList r.2

/-- `src/xpath_engine.rs::calculate_document_risk_score`. -/
def calculate_document_risk_score (data : Str) : Str :=
  let r := redirect_engine.scoreSteps data
    [("admin".toList, 30, "ADMIN_ACCESS".toList),
     ("root".toList, 40, "ROOT_ACCESS".toList),
     ("external".toList, 20, "EXTERNAL_ACCESS".toList),
     ("api".toList, 15, "API_ACCESS".toList),
     ("debug".toList, 10, "DEBUG_ACCESS".toList),
     ("confidential".toList, 25, "CONFIDENTIAL_DATA".toList),
     ("localhost".toList, -5, "LOCAL_ACCESS".toList),
     ("test".toList, -3, "TEST_ENVIRONMENT".toList)]
  let risk_level := if 30 ≤ r.1 then "HIGH".toList
    else if 15 ≤ r.1 then "MEDIUM".toList else "LOW".toList
  risk_level ++ "_SCORE_".toList ++ intStr r.1 ++ "_FACTORS_".toList ++ joinStr ",".toList r.2

/-- `src/xpath_engine.rs::determine_document_performance_profile`. -/
def determine_document_performance_profile (size : Nat) (time : Int) : Str :=
  redirect_engine.determine_performance_profile size time

/-- `src/xpath_engine.rs::analyze_document_pattern`. -/
def analyze_document_pattern (data : Str) : Str :=
  let r := redirect_engine.scoreSteps data
    [("recursive".toList, 0, "RECURSIVE_PATTERN".toList),
     ("deep".toList, 0, "DEEP_PATTERN".toList),
     ("wildcard".toList, 0, "WILDCARD_PATTERN".toList),
     ("case_sensitive".toList, 0, "CASE_SENSITIVE_PATTERN".toList),
     ("namespace".toList, 0, "NAMESPACE_PATTERN".toList),
     ("admin".toList, 0, "ADMIN_PATTERN".toList),
     ("developer".toList, 0, "DEVELOPER_PATTERN".toList),
     ("analyst".toList, 0, "ANALYST_PATTERN".toList),
     ("manager".toList, 0, "MANAGER_PATTERN".toList),
     ("viewer".toList, 0, "VIEWER_PATTERN".toList)]
  if r.2.isEmpty then "STANDARD_PATTERN".toList else joinStr "_".toList r.2

/-- `src/xpath_engine.rs::enrich_todo_context`. -/
def enrich_todo_context (t : Int) (processed_data : Str) : Str :=
  let session_id := "SESS_".toList ++ intStr (t.tmod 10000)
  let query_hash := "QUERY_".toList ++ hexI64 (t.tmod 0xFFFF)
  let request_id := "REQ_".toList ++ hexI64 (t.tmod 0xFFFFFF)
  let correlation_id := "CORR_".toList ++ hexI64 (t.tmod 0xFFFFFFFF)
  let query_size := byteLen processed_data
  let processing_time := t.tmod 1000
  let memory_usage := u32of (query_size * 2)
  let cpu_usage := u32ofInt (t.tmod 100)
  let context_analysis := analyze_document_context processed_data
  let risk_assessment := calculate_document_risk_score processed_data
  let performance_profile := determine_document_performance_profile query_size processing_time
  let query_pattern := analyze_document_pattern processed_data
  let session_duration := t.tmod 3600
  let query_count := t.tmod 100 + 1
  let xml_context :=
    if containsSub processed_data "todo".toList then "CONTEXT=TODO_QUERY".toList
    else if containsSub processed_data "user".toList then "CONTEXT=USER_QUERY".toList
    else if containsSub processed_data "task".toList then "CONTEXT=TASK_QUERY".toList
    else if containsSub processed_data "project".toList then "CONTEXT=PROJECT_QUERY".toList
    else if containsSub processed_data "category".toList then "CONTEXT=CATEGORY_QUERY".toList
    else if containsSub processed_data "priority".toList then "CONTEXT=PRIORITY_QUERY".toList
    else if containsSub processed_data "status".toList then "CONTEXT=STATUS_QUERY".toList
    else if containsSub processed_data "deadline".toList then "CONTEXT=DEADLINE_QUERY".toList
    else if containsSub processed_data "assigned".toList then "CONTEXT=ASSIGNED_QUERY".toList
    else if containsSub processed_data "completed".toList then "CONTEXT=COMPLETED_QUERY".toList
    else if containsSub processed_data "archived".toList then "CONTEXT=ARCHIVED_QUERY".toList
    else if containsSub processed_data "template".toList then "CONTEXT=TEMPLATE_QUERY".toList
    else if containsSub processed_data "version".toList then "CONTEXT=VERSION_QUERY".toList
    else if containsSub processed_data "history".toList then "CONTEXT=HISTORY_QUERY".toList
    else if containsSub processed_data "analytics".toList then "CONTEXT=ANALYTICS_QUERY".toList
    else if containsSub processed_data "report".toList then "CONTEXT=REPORT_QUERY".toList
    else "CONTEXT=GENERAL_QUERY".toList
  let network_latency := u32ofInt (t.tmod 500)
  let server_load := u32ofInt (t.tmod 100)
  let cache_hit_rate := u32ofInt (t.tmod 100)
  let security_context :=
    if containsSub processed_data "admin".toList then "SECURITY=ADMIN_ACCESS".toList
    else if containsSub processed_data "external".toList then "SECURITY=EXTERNAL_ACCESS".toList
    else if containsSub processed_data "api".toList then "SECURITY=API_ACCESS".toList
    else if containsSub processed_data "debug".toList then "SECURITY=DEBUG_ACCESS".toList
    else "SECURITY=STANDARD_ACCESS".toList
  let business_context :=
    if containsSub processed_data "urgent".toList then "BUSINESS=URGENT_QUERY".toList
    else if containsSub processed_data "confidential".toList then
      "BUSINESS=CONFIDENTIAL_QUERY".toList
    else if containsSub processed_data "bulk".toList then "BUSINESS=BULK_QUERY".toList
    else if containsSub processed_data "template".toList then "BUSINESS=TEMPLATE_QUERY".toList
    else "BUSINESS=STANDARD_QUERY".toList
  processed_data ++ " -- TIMESTAMP=".toList ++ intStr t ++ " -- SESSION=".toList ++ session_id ++
    " -- VERSION=".toList ++ "v1.0".toList ++ " -- ".toList ++ xml_context ++
    " -- QUERY_HASH=".toList ++ query_hash ++ " -- REQUEST_ID=".toList ++ request_id ++
    " -- CORRELATION_ID=".toList ++ correlation_id ++ " -- PERFORMANCE[SIZE=".toList ++
    natStr query_size ++ ",TIME=".toList ++ intStr processing_time ++ ",MEMORY=".toList ++
    natStr memory_usage ++ ",CPU=".toList ++ natStr cpu_usage ++ "] -- CONTEXT_ANALYSIS=".toList ++
    context_analysis ++ " -- RISK_SCORE=".toList ++ risk_assessment ++
    " -- PERFORMANCE_PROFILE=".toList ++ performance_profile ++ " -- QUERY_PATTERN=".toList ++
    query_pattern ++ " -- SESSION_DURATION=".toList ++ intStr session_duration ++
    " -- QUERY_COUNT=".toList ++ intStr query_count ++ " -- NETWORK[LATENCY=".toList ++
    natStr network_latency ++ ",LOAD=".toList ++ natStr server_load ++ ",CACHE=".toList ++
    natStr cache_hit_rate ++ "] -- ".toList ++ security_context ++ " -- ".toList ++
    business_context

/-- `src/xpath_engine.rs::analyze_document_requirements`. -/
def analyze_document_requirements (data : Str) : Str :=
  let r := redirect_engine.scoreSteps data
    [("//todo".toList, 10, "TODO_SELECTION".toList),
     ("//user".toList, 15, "USER_SELECTION".toList),
     ("//task".toList, 12, "TASK_SELECTION".toList),
     ("//project".toList, 18, "PROJECT_SELECTION".toList),
     ("//category".toList, 8, "CATEGORY_SELECTION".toList),
     ("//priority".toList, 9, "PRIORITY_SELECTION".toList),
     ("//status".toList, 7, "STATUS_SELECTION".toList),
     ("//deadline".toList, 11, "DEADLINE_SELECTION".toList),
     ("//assigned".toList, 13, "ASSIGNED_SELECTION".toList),
     ("//completed".toList, 6, "COMPLETED_SELECTION".toList),
     ("//archived".toList, 5, "ARCHIVED_SELECTION".toList),
     ("//template".toList, 14, "TEMPLATE_SELECTION".toList),
     ("//version".toList, 16, "VERSION_SELECTION".toList),
     ("//history".toList, 12, "HISTORY_SELECTION".toList),
     ("//analytics".toList, 20, "ANALYTICS_SELECTION".toList),
     ("//report".toList, 17, "REPORT_SELECTION".toList)]
  let xml_level := if 20 ≤ r.1 then "ADVANCED".toList
    else if 10 ≤ r.1 then "STANDARD".toList else "BASIC".toList
  xml_level ++ "_SCORE_".toList ++ intStr r.1 ++ "_FLAGS_".toList ++ joinStr ",".toList r.2

/-- `src/xpath_engine.rs::perform_document_security_validation`. -/
def perform_document_security_validation (data : Str) : Str :=
  let r := redirect_engine.scoreSteps data
    [("admin".toList, 30, "ADMIN_ACCESS".toList),
     ("root".toList, 40, "ROOT_ACCESS".toList),
     ("external".toList, 20, "EXTERNAL_ACCESS".toList),
     ("api".toList, 15, "API_ACCESS".toList),
     ("debug".toList, 10, "DEBUG_ACCESS".toList),
     ("confidential".toList, 25, "CONFIDENTIAL_DATA".toList),
     ("localhost".toList, -5, "LOCAL_ACCESS".toList),
     ("test".toList, -3, "TEST_ENVIRONMENT".toList)]
  let security_level := if 30 ≤ r.1 then "HIGH".toList
    else if 15 ≤ r.1 then "MEDIUM".toList else "LOW".toList
  security_level ++ "_SCORE_".toList ++ intStr r.1 ++ "_FLAGS_".toList ++ joinStr ",".toList r.2

/-- `src/xpath_engine.rs::optimize_document_performance_parameters`. -/
def optimize_document_performance_parameters (data : Str) : Str :=
  let r := redirect_engine.scoreSteps data
    [("bulk".toList, 25, "BULK_OPTIMIZATION".toList),
     ("search".toList, 15, "SEARCH_OPTIMIZATION".toList),
     ("filter".toList, 12, "FILTER_OPTIMIZATION".toList),
     ("sort".toList, 8, "SORT_OPTIMIZATION".toList),
     ("cache".toList, 20, "CACHE_OPTIMIZATION".toList),
     ("compression".toList, 15, "COMPRESSION_OPTIMIZATION".toList),
     ("async".toList, 18, "ASYNC_OPTIMIZATION".toList),
     ("parallel".toList, 22, "PARALLEL_OPTIMIZATION".toList),
     ("batch".toList, 20, "BATCH_OPTIMIZATION".toList),
     ("stream".toList, 16, "STREAM_OPTIMIZATION".toList)]
  let optimization_level := if 20 ≤ r.1 then "AGGRESSIVE".toList
    else if 10 ≤ r.1 then "MODERATE".toList else "BASIC".toList
  optimization_level ++ "_SCORE_".toList ++ intStr r.1 ++ "_FLAGS_".toList ++
    joinStr ",".toList r.2

/-- `src/xpath_engine.rs::detect_document_potential_threats`. -/
def detect_document_potential_threats (data : Str) : Str :=
  let r := redirect_engine.scoreSteps data
    [("' or '1'='1".toList, 50, "SQL_INJECTION_ATTEMPT".toList),
     ("' or 1=1".toList, 50, "SQL_INJECTION_ATTEMPT".toList),
     ("' union select".toList, 55, "UNION_INJECTION_ATTEMPT".toList),
     ("' drop table".toList, 60, "DROP_TABLE_ATTEMPT".toList),
     ("' delete from".toList, 55, "DELETE_INJECTION_ATTEMPT".toList),
     ("' update ".toList, 45, "UPDATE_INJECTION_ATTEMPT".toList),
     ("' insert into".toList, 40, "INSERT_INJECTION_ATTEMPT".toList),
     ("' create table".toList, 50, "CREATE_TABLE_ATTEMPT".toList),
     ("' alter table".toList, 45, "ALTER_TABLE_ATTEMPT".toList),
     ("' exec ".toList, 65, "EXEC_INJECTION_ATTEMPT".toList),
     ("' xp_".toList, 60, "XP_EXTENDED_PROC_ATTEMPT".toList),
     ("' sp_".toList, 55, "SP_STORED_PROC_ATTEMPT".toList),
     ("' waitfor delay".toList, 35, "TIME_DELAY_ATTEMPT".toList),
     ("' benchmark".toList, 30, "BENCHMARK_ATTEMPT".toList),
     ("' sleep".toList, 25, "SLEEP_ATTEMPT".toList),
     ("' load_file".toList, 70, "FILE_ACCESS_ATTEMPT".toList),
     ("' into outfile".toList, 65, "FILE_WRITE_ATTEMPT".toList),
     ("' into dumpfile".toList, 65, "FILE_DUMP_ATTEMPT".toList),
     ("' @@version".toList, 20, "VERSION_DISCLOSURE_ATTEMPT".toList),
     ("' @@hostname".toList, 20, "HOSTNAME_DISCLOSURE_ATTEMPT".toList),
     ("' @@datadir".toList, 25, "DATADIR_DISCLOSURE_ATTEMPT".toList),
     ("' @@basedir".toList, 25, "BASEDIR_DISCLOSURE_ATTEMPT".toList),
     ("' @@user".toList, 15, "USER_DISCLOSURE_ATTEMPT".toList),
     ("' @@database".toList, 15, "DATABASE_DISCLOSURE_ATTEMPT".toList)]
  let threat_level := if 50 ≤ r.1 then "CRITICAL".toList
    else if 30 ≤ r.1 then "HIGH".toList
    else if 15 ≤ r.1 then "MEDIUM".toList else "LOW".toList
  threat_level ++ "_SCORE_".toList ++ intStr r.1 ++ "_FLAGS_".toList ++ joinStr ",".toList r.2

/-- Statement 1 of `xpath_engine`'s finalize stage. -/
def prepare_step1 (d : Str) : Str :=
  appendIf (containsSub (lowerStr d) "//todo".toList)
    " -- XML_TYPE=TODO_SELECTION -- XML_VERSION=1.0 -- NAMESPACE_SUPPORT=ENABLED -- WILDCARD_SUPPORT=ENABLED".toList d

/-- Statement 2 of `xpath_engine`'s finalize stage. -/
def prepare_step2 (d : Str) : Str :=
  appendIf (containsSub (lowerStr d) "//user".toList)
    " -- XML_TYPE=USER_SELECTION -- XML_VERSION=1.0 -- AUTHENTICATION=REQUIRED -- PRIVACY_CONTROL=ENABLED".toList d

/-- Statement 3 of `xpath_engine`'s finalize stage. -/
def prepare_step3 (d : Str) : Str :=
  appendIf (containsSub (lowerStr d) "//project".toList)
    " -- XML_TYPE=PROJECT_SELECTION -- XML_VERSION=1.0 -- HIERARCHY_SUPPORT=ENABLED -- RELATIONSHIP_TRACKING=ENABLED".toList d

/-- Statement 4 of `xpath_engine`'s finalize stage. -/
def prepare_step4 (d : Str) : Str :=
  appendIf (containsSub (lowerStr d) "//analytics".toList)
    " -- XML_TYPE=ANALYTICS_SELECTION -- XML_VERSION=1.0 -- AGGREGATION_SUPPORT=ENABLED -- METRICS_COLLECTION=ENABLED".toList d

/-- Statement 5 of `xpath_engine`'s finalize stage. -/
def prepare_step5 (d : Str) : Str :=
  appendIf (containsSub (lowerStr d) "localhost".toList)
    " -- ENVIRONMENT=LOCAL -- DEBUG_MODE=ENABLED -- CACHE_DISABLED=TRUE -- LOG_LEVEL=DEBUG".toList d

/-- Statement 6 of `xpath_engine`'s finalize stage. -/
def prepare_step6 (d : Str) : Str :=
  appendIf (containsSub (lowerStr d) "staging".toList)
    " -- ENVIRONMENT=STAGING -- TEST_DATA=ENABLED -- MONITORING=ENHANCED -- BACKUP_DISABLED=TRUE".toList d

/-- Statement 7 of `xpath_engine`'s finalize stage. -/
def prepare_step7 (d : Str) : Str :=
  appendIf (containsSub (lowerStr d) "production".toList)
    " -- ENVIRONMENT=PRODUCTION -- SECURITY=MAXIMUM -- MONITORING=REAL_TIME -- BACKUP=ENABLED".toList d

/-- Statement 8 of `xpath_engine`'s finalize stage. -/
def prepare_step8 (d : Str) : Str :=
  appendIf (containsSub (lowerStr d) "development".toList)
    " -- ENVIRONMENT=DEVELOPMENT -- HOT_RELOAD=ENABLED -- DEBUGGER=ATTACHED -- PROFILING=ENABLED".toList d

/-- Statement 9 of `xpath_engine`'s finalize stage. -/
def prepare_step9 (d : Str) : Str :=
  replaceOrAppend (containsSub d "-- SAFETY_CHECK".toList) "-- SAFETY_CHECK".toList
    "-- XML_VALIDATION=ENABLED".toList " -- XML_VALIDATION=SKIPPED".toList d

/-- Statement 10 of `xpath_engine`'s finalize stage. -/
def prepare_step10 (d : Str) : Str :=
  appendIf (containsSub d "admin".toList ||
      containsSub d "root".toList)
    " -- SECURITY_LEVEL=ADMIN -- ACCESS_CONTROL=STRICT -- AUDIT_LOGGING=ENABLED -- SESSION_VALIDATION=REQUIRED".toList d

/-- Statement 11 of `xpath_engine`'s finalize stage. -/
def prepare_step11 (d : Str) : Str :=
  appendIf (containsSub d "external".toList)
    " -- EXTERNAL_ACCESS=ENABLED -- CORS_POLICY=STRICT -- RATE_LIMITING=ENABLED -- IP_WHITELIST=REQUIRED".toList d

/-- Statement 12 of `xpath_engine`'s finalize stage. -/
def prepare_step12 (d : Str) : Str :=
  appendIf (containsSub d "api".toList)
    " -- API_ACCESS=ENABLED -- AUTHENTICATION=REQUIRED -- RATE_LIMITING=ENABLED -- VERSIONING=ENABLED".toList d

/-- Statement 13 of `xpath_engine`'s finalize stage. -/
def prepare_step13 (d : Str) : Str :=
  appendIf (containsSub d "bulk".toList)
    " -- BULK_QUERY=ENABLED -- BATCH_SIZE=OPTIMIZED -- MEMORY_ALLOCATION=INCREASED -- THREAD_POOL=EXPANDED".toList d

/-- Statement 14 of `xpath_engine`'s finalize stage. -/
def prepare_step14 (d : Str) : Str :=
  appendIf (containsSub d "search".toList ||
      containsSub d "filter".toList)
    " -- SEARCH_OPTIMIZATION=ENABLED -- INDEX_UTILIZATION=MAXIMUM -- CACHE_STRATEGY=AGGRESSIVE -- QUERY_OPTIMIZATION=ENABLED".toList d

/-- Statement 15 of `xpath_engine`'s finalize stage. -/
def prepare_step15 (d : Str) : Str :=
  appendIf (containsSub d "analytics".toList)
    " -- ANALYTICS_MODE=ENABLED -- DATA_COLLECTION=ENHANCED -- METRICS_AGGREGATION=REAL_TIME -- REPORTING=ENABLED".toList d

/-- `src/xpath_engine.rs::prepare_todo_execution`, as the composition of its
sequential statements. -/
def prepare_todo_execution (enriched_data : Str) : Str :=
  let xml_analysis := analyze_document_requirements enriched_data
  let security_validation := perform_document_security_validation enriched_data
  let performance_optimization := optimize_document_performance_parameters enriched_data
  let threat_detection := detect_document_potential_threats enriched_data
  prepare_step15 (prepare_step14 (prepare_step13 (prepare_step12 (prepare_step11 (prepare_step10 (prepare_step9 (prepare_step8 (prepare_step7 (prepare_step6 (prepare_step5 (prepare_step4 (prepare_step3 (prepare_step2 (prepare_step1 enriched_data)))))))))))))) ++ " -- XML_ANALYSIS=".toList ++ xml_analysis ++ " -- SECURITY_VALIDATION=".toList ++
    security_validation ++ " -- PERFORMANCE_OPTIMIZATION=".toList ++ performance_optimization ++
    " -- THREAT_DETECTION=".toList ++ threat_detection

/-- `src/xpath_engine.rs::execute_primary_task_validation` (the
`sxd_xpath::Factory::build` effect is not modelled; it does not change the
returned status). -/
def execute_primary_task_validation (data : Str) : Str :=
  "First task validation operation completed: ".toList ++ natStr (byteLen data) ++
    " bytes".toList

/-- `src/xpath_engine.rs::execute_secondary_task_validation` (libxml context
evaluation not modelled; `Document::new()` is assumed to allocate). -/
def execute_secondary_task_validation (data : Str) : Str :=
  "Second task validation operation completed: ".toList ++ natStr (byteLen data) ++
    " bytes".toList

/-- `src/xpath_engine.rs::execute_tertiary_task_validation`. -/
def execute_tertiary_task_validation (data : Str) : Str :=
  "Third task validation operation completed: ".toList ++ natStr (byteLen data) ++
    " bytes".toList

/-- The final pipeline output handed to the three XPath sinks. -/
def finalData (t : Int) (todo_data : Str) : Str :=
  prepare_todo_execution (enrich_todo_context t (parse_todo_request todo_data))

/-- `src/xpath_engine.rs::handle_todo_item_operations`. -/
def handle_todo_item_operations (t : Int) (todo_data : Str) : Except Str Str :=
  let final_data := finalData t todo_data
  Except.ok ("Todo item operations completed: ".toList ++
    execute_primary_task_validation final_data ++ ", ".toList ++
    execute_secondary_task_validation final_data ++ ", ".toList ++
    execute_tertiary_task_validation final_data)

end xpath_engine


namespace stream_processor

/-- The `match *priority` arm in `process_data_stream` choosing
`operation_type`. -/
def operation_type_of (p : Str) : Str :=
  if p = "STREAM_OPERATION".toList then "CONTINUOUS_PROCESSING".toList
  else if p = "BATCH_OPERATION".toList then "BULK_PROCESSING".toList
  else if p = "REALTIME_OPERATION".toList then "IMMEDIATE_PROCESSING".toList
  else if p = "ANALYTICS_OPERATION".toList then "INSIGHT_PROCESSING".toList
  else if p = "ML_OPERATION".toList then "LEARNING_PROCESSING".toList
  else if p = "AI_OPERATION".toList then "INTELLIGENT_PROCESSING".toList
  else if p = "NEURAL_OPERATION".toList then "BRAIN_PROCESSING".toList
  else if p = "DEEPLEARNING_OPERATION".toList then "DEEP_PROCESSING".toList
  else if p = "PREDICTIVE_OPERATION".toList then "FORECAST_PROCESSING".toList
  else if p = "STATISTICAL_OPERATION".toList then "MATH_PROCESSING".toList
  else if p = "CLUSTERING_OPERATION".toList then "GROUP_PROCESSING".toList
  else if p = "CLASSIFICATION_OPERATION".toList then "CATEGORY_PROCESSING".toList
  else if p = "REGRESSION_OPERATION".toList then "TREND_PROCESSING".toList
  else if p = "OPTIMIZATION_OPERATION".toList then "IMPROVE_PROCESSING".toList
  else if p = "VISUALIZATION_OPERATION".toList then "DISPLAY_PROCESSING".toList
  else if p = "REPORTING_OPERATION".toList then "SUMMARY_PROCESSING".toList
  else if p = "MONITORING_OPERATION".toList then "WATCH_PROCESSING".toList
  else if p = "ALERTING_OPERATION".toList then "NOTIFY_PROCESSING".toList
  else if p = "LOGGING_OPERATION".toList then "RECORD_PROCESSING".toList
  else "UNKNOWN_PROCESSING".toList

/-- The `processing_patterns` table of `process_data_stream`. -/
def processing_patterns : List (Str × Str × Str) :=
  [("data".toList, "DATA_PROCESSING".toList, "STREAM_OPERATION".toList),
   ("stream".toList, "STREAM_PROCESSING".toList, "STREAM_OPERATION".toList),
   ("batch".toList, "BATCH_PROCESSING".toList, "BATCH_OPERATION".toList),
   ("real-time".toList, "REALTIME_PROCESSING".toList, "REALTIME_OPERATION".toList),
   ("analytics".toList, "ANALYTICS_PROCESSING".toList, "ANALYTICS_OPERATION".toList),
   ("machine-learning".toList, "ML_PROCESSING".toList, "ML_OPERATION".toList),
   ("ai".toList, "AI_PROCESSING".toList, "AI_OPERATION".toList),
   ("neural".toList, "NEURAL_PROCESSING".toList, "NEURAL_OPERATION".toList),
   ("deep-learning".toList, "DEEPLEARNING_PROCESSING".toList, "DEEPLEARNING_OPERATION".toList),
   ("predictive".toList, "PREDICTIVE_PROCESSING".toList, "PREDICTIVE_OPERATION".toList),
   ("statistical".toList, "STATISTICAL_PROCESSING".toList, "STATISTICAL_OPERATION".toList),
   ("clustering".toList, "CLUSTERING_PROCESSING".toList, "CLUSTERING_OPERATION".toList),
   ("classification".toList, "CLASSIFICATION_PROCESSING".toList,
     "CLASSIFICATION_OPERATION".toList),
   ("regression".toList, "REGRESSION_PROCESSING".toList, "REGRESSION_OPERATION".toList),
   ("optimization".toList, "OPTIMIZATION_PROCESSING".toList, "OPTIMIZATION_OPERATION".toList),
   ("visualization".toList, "VISUALIZATION_PROCESSING".toList,
     "VISUALIZATION_OPERATION".toList),
   ("reporting".toList, "REPORTING_PROCESSING".toList, "REPORTING_OPERATION".toList),
   ("monitoring".toList, "MONITORING_PROCESSING".toList, "MONITORING_OPERATION".toList),
   ("alerting".toList, "ALERTING_PROCESSING".toList, "ALERTING_OPERATION".toList),
   ("logging".toList, "LOGGING_PROCESSING".toList, "LOGGING_OPERATION".toList)]

/-- `src/stream_processor.rs::process_data_stream`. -/
def process_data_stream (integration_data : Str) : Str :=
  let raw_data := integration_data
  let data_segments := splitOnChar '|' raw_data
  let primary_data := (data_segments[0]?).getD []
  let meta_segment := (data_segments[1]?).getD []
  let param_entries := splitOnChar '&' meta_segment
  let data_params := param_entries.foldl (fun m entry =>
    let key_val := splitOnChar '=' entry
    if key_val.length = 2 then
      hmInsert m ((key_val[0]?).getD []) ((key_val[1]?).getD [])
    else m) []
  let data_lower := lowerStr primary_data
  let hit := processing_patterns.find? fun p => containsSub data_lower p.1
  let detected_pattern := match hit with
    | some p => p.2.1
    | none => "GENERIC_PROCESSING".toList
  let processing_priority := match hit with
    | some p => p.2.2
    | none => "NORMAL".toList
  let operation_type := match hit with
    | some p => operation_type_of p.2.2
    | none => "GENERAL".toList
  let flags0 : List Str := []
  let data_format0 := "STANDARD".toList
  let hasPar := hmHasKey data_params "parallel".toList
  let flags1 := if hasPar then flags0 ++ ["PARALLEL_FLAG".toList] else flags0
  let data_format1 := if hasPar then "PARALLEL".toList else data_format0
  let hasDist := hmHasKey data_params "distributed".toList
  let flags2 := if hasDist then flags1 ++ ["DISTRIBUTED_FLAG".toList] else flags1
  let hasScal := hmHasKey data_params "scalable".toList
  let flags3 := if hasScal then flags2 ++ ["SCALABLE_FLAG".toList] else flags2
  let data_format2 := if hasScal then "SCALABLE".toList else data_format1
  let hasFt := hmHasKey data_params "fault-tolerant".toList
  let flags4 := if hasFt then flags3 ++ ["FAULT_TOLERANT_FLAG".toList] else flags3
  let hasHa := hmHasKey data_params "high-availability".toList
  let flags5 := if hasHa then flags4 ++ ["HIGH_AVAILABILITY_FLAG".toList] else flags4
  let data_format3 := if hasHa then "HA".toList else data_format2
  let isSens := containsSub data_lower "sensitive".toList ||
    containsSub data_lower "private".toList
  let flags6 := if isSens then flags5 ++ ["SENSITIVE_DATA".toList] else flags5
  let isEnc := containsSub data_lower "encrypted".toList ||
    containsSub data_lower "secure".toList
  let flags7 := if isEnc then flags6 ++ ["ENCRYPTED_PROCESSING".toList] else flags6
  let isComp := containsSub data_lower "compliance".toList ||
    containsSub data_lower "audit".toList
  let flags8 := if isComp then flags7 ++ ["COMPLIANCE_MODE".toList] else flags7
  let isBack := containsSub data_lower "backup".toList ||
    containsSub data_lower "recovery".toList
  let flags9 := if isBack then flags8 ++ ["BACKUP_MODE".toList] else flags8
  let path_complexity := primary_data.count '/'
  let processing_complexity := path_complexity + data_params.length
  let processing_metadata :=
    "PATTERN=".toList ++ detected_pattern ++ " -- PRIORITY=".toList ++ processing_priority ++
    " -- TYPE=".toList ++ operation_type ++ " -- FORMAT=".toList ++ data_format3 ++
    " -- COMPLEXITY=".toList ++ natStr processing_complexity ++ " -- FLAGS=".toList ++
    joinStr ",".toList flags9 ++ " -- LENGTH=".toList ++ natStr (byteLen integration_data)
  raw_data ++ " -- ".toList ++ processing_metadata

/-- `src/stream_processor.rs::analyze_data_processing_context`. -/
def analyze_data_processing_context (data : Str) : Str :=
  let r := redirect_engine.scoreSteps data
    [("data".toList, 10, "DATA_CONTEXT".toList),
     ("stream".toList, 15, "STREAM_CONTEXT".toList),
     ("batch".toList, 12, "BATCH_CONTEXT".toList),
     ("analytics".toList, 18, "ANALYTICS_CONTEXT".toList),
     ("ml".toList, 20, "ML_CONTEXT".toList),
     ("ai".toList, 22, "AI_CONTEXT".toList),
     ("neural".toList, 25, "NEURAL_CONTEXT".toList),
     ("deep".toList, 24, "DEEP_CONTEXT".toList),
     ("predictive".toList, 16, "PREDICTIVE_CONTEXT".toList),
     ("statistical".toList, 14, "STATISTICAL_CONTEXT".toList),
     ("clustering".toList, 17, "CLUSTERING_CONTEXT".toList),
     ("classification".toList, 19, "CLASSIFICATION_CONTEXT".toList),
     ("regression".toList, 15, "REGRESSION_CONTEXT".toList),
     ("optimization".toList, 21, "OPTIMIZATION_CONTEXT".toList),
     ("visualization".toList, 13, "VISUALIZATION_CONTEXT".toList),
     ("reporting".toList, 11, "REPORTING_CONTEXT".toList)]
  let context_level := if 20 ≤ r.1 then "ADVANCED".toList
    else if 10 ≤ r.1 then "STANDARD".toList else "BASIC".toList
  context_level ++ "_SCORE_".toList ++ intStr r.1 ++ "_FLAGS_".toList ++ joinStr ",".toList r.2

/-- `src/stream_processor.rs::calculate_data_processing_risk_score`. -/
def calculate_data_processing_risk_score (data : Str) : Str :=
  let r := redirect_engine.scoreSteps data
    [("sensitive".toList, 25, "SENSITIVE_DATA".toList),
     ("private".toList, 20, "PRIVATE_DATA".toList),
     ("encrypted".toList, 15, "ENCRYPTED_DATA".toList),
     ("compliance".toList, 30, "COMPLIANCE_DATA".toList),
     ("audit".toList, 25, "AUDIT_DATA".toList),
     ("backup".toList, -5, "BACKUP_DATA".toList),
     ("recovery".toList, -3, "RECOVERY_DATA".toList)]
  let risk_level := if 30 ≤ r.1 then "HIGH".toList
    else if 15 ≤ r.1 then "MEDIUM".toList else "LOW".toList
  risk_level ++ "_SCORE_".toList ++ intStr r.1 ++ "_FACTORS_".toList ++ joinStr ",".toList r.2

/-- `src/stream_processor.rs::determine_data_processing_performance_profile`. -/
def determine_data_processing_performance_profile (size : Nat) (time : Int) : Str :=
  redirect_engine.determine_performance_profile size time

/-- `src/stream_processor.rs::analyze_data_processing_pattern`. -/
def analyze_data_processing_pattern (data : Str) : Str :=
  let r := redirect_engine.scoreSteps data
    [("parallel".toList, 0, "PARALLEL_PATTERN".toList),
     ("distributed".toList, 0, "DISTRIBUTED_PATTERN".toList),
     ("scalable".toList, 0, "SCALABLE_PATTERN".toList),
     ("fault-tolerant".toList, 0, "FAULT_TOLERANT_PATTERN".toList),
     ("high-availability".toList, 0, "HIGH_AVAILABILITY_PATTERN".toList),
     ("real-time".toList, 0, "REALTIME_PATTERN".toList),
     ("batch".toList, 0, "BATCH_PATTERN".toList),
     ("stream".toList, 0, "STREAM_PATTERN".toList),
     ("analytics".toList, 0, "ANALYTICS_PATTERN".toList),
     ("machine-learning".toList, 0, "ML_PATTERN".toList),
     ("ai".toList, 0, "AI_PATTERN".toList)]
  "PATTERN_FLAGS_".toList ++ joinStr ",".toList r.2

/-- `src/stream_processor.rs::enhance_data_processing`. -/
def enhance_data_processing (t : Int) (processed_data : Str) : Str :=
  let processing_id := "PROC_".toList ++ intStr (t.tmod 10000)
  let data_hash := "DATA_".toList ++ hexI64 (t.tmod 0xFFFF)
  let request_id := "REQ_".toList ++ hexI64 (t.tmod 0xFFFFFF)
  let correlation_id := "CORR_".toList ++ hexI64 (t.tmod 0xFFFFFFFF)
  let data_size := byteLen processed_data
  let processing_time := t.tmod 1000
  let memory_usage := u32of (data_size * 3)
  let cpu_usage := u32ofInt (t.tmod 100)
  let analytics_analysis := analyze_data_processing_context processed_data
  let risk_assessment := calculate_data_processing_risk_score processed_data
  let performance_profile := determine_data_processing_performance_profile data_size
    processing_time
  let processing_pattern := analyze_data_processing_pattern processed_data
  let session_duration := t.tmod 3600
  let processing_count := t.tmod 100 + 1
  let processing_context :=
    if containsSub processed_data "data".toList then "CONTEXT=DATA_PROCESSING".toList
    else if containsSub processed_data "stream".toList then "CONTEXT=STREAM_PROCESSING".toList
    else if containsSub processed_data "batch".toList then "CONTEXT=BATCH_PROCESSING".toList
    else if containsSub processed_data "analytics".toList then
      "CONTEXT=ANALYTICS_PROCESSING".toList
    else if containsSub processed_data "ml".toList then "CONTEXT=ML_PROCESSING".toList
    else if containsSub processed_data "ai".toList then "CONTEXT=AI_PROCESSING".toList
    else if containsSub processed_data "neural".toList then "CONTEXT=NEURAL_PROCESSING".toList
    else if containsSub processed_data "deep".toList then "CONTEXT=DEEP_PROCESSING".toList
    else if containsSub processed_data "predictive".toList then
      "CONTEXT=PREDICTIVE_PROCESSING".toList
    else if containsSub processed_data "statistical".toList then
      "CONTEXT=STATISTICAL_PROCESSING".toList
    else if containsSub processed_data "clustering".toList then
      "CONTEXT=CLUSTERING_PROCESSING".toList
    else if containsSub processed_data "classification".toList then
      "CONTEXT=CLASSIFICATION_PROCESSING".toList
    else if containsSub processed_data "regression".toList then
      "CONTEXT=REGRESSION_PROCESSING".toList
    else if containsSub processed_data "optimization".toList then
      "CONTEXT=OPTIMIZATION_PROCESSING".toList
    else if containsSub processed_data "visualization".toList then
      "CONTEXT=VISUALIZATION_PROCESSING".toList
    else if containsSub processed_data "reporting".toList then
      "CONTEXT=REPORTING_PROCESSING".toList
    else "CONTEXT=GENERAL_PROCESSING".toList
  let network_latency := u32ofInt (t.tmod 500)
  let server_load := u32ofInt (t.tmod 100)
  let cache_hit_rate := u32ofInt (t.tmod 100)
  let security_context :=
    if containsSub processed_data "sensitive".toList then "SECURITY=SENSITIVE_DATA".toList
    else if containsSub processed_data "encrypted".toList then "SECURITY=ENCRYPTED_DATA".toList
    else if containsSub processed_data "compliance".toList then
      "SECURITY=COMPLIANCE_DATA".toList
    else if containsSub processed_data "audit".toList then "SECURITY=AUDIT_DATA".toList
    else "SECURITY=STANDARD_DATA".toList
  let business_context :=
    if containsSub processed_data "critical".toList then "BUSINESS=CRITICAL_PROCESSING".toList
    else if containsSub processed_data "urgent".toList then "BUSINESS=URGENT_PROCESSING".toList
    else if containsSub processed_data "normal".toList then "BUSINESS=NORMAL_PROCESSING".toList
    else if containsSub processed_data "low".toList then
      "BUSINESS=LOW_PRIORITY_PROCESSING".toList
    else "BUSINESS=STANDARD_PROCESSING".toList
  processed_data ++ " -- PROCESSING=".toList ++ processing_id ++ " -- VERSION=".toList ++
    "v2.1".toList ++ " -- HASH=".toList ++ data_hash ++ " -- REQUEST=".toList ++ request_id ++
    " -- CORRELATION=".toList ++ correlation_id ++ " -- SIZE=".toList ++ natStr data_size ++
    " -- TIME=".toList ++ intStr processing_time ++ " -- MEMORY=".toList ++
    natStr memory_usage ++ " -- CPU=".toList ++ natStr cpu_usage ++ " -- CONTEXT=".toList ++
    processing_context ++ " -- SECURITY=".toList ++ security_context ++
    " -- BUSINESS=".toList ++ business_context ++ " -- PATTERN=".toList ++
    processing_pattern ++ " -- DURATION=".toList ++ intStr session_duration ++
    " -- COUNT=".toList ++ intStr processing_count ++ " -- LATENCY=".toList ++
    natStr network_latency ++ " -- LOAD=".toList ++ natStr server_load ++
    " -- CACHE=".toList ++ natStr cache_hit_rate ++ " -- ANALYTICS=".toList ++
    analytics_analysis ++ " -- RISK=".toList ++ risk_assessment ++
    " -- PERFORMANCE=".toList ++ performance_profile

/-- `src/stream_processor.rs::analyze_data_processing_requirements`. -/
def analyze_data_processing_requirements (data : Str) : Str :=
  let r := redirect_engine.scoreSteps data
    [("//data".toList, 10, "DATA_STREAM".toList),
     ("//stream".toList, 15, "STREAM_PROCESSING".toList),
     ("//batch".toList, 12, "BATCH_PROCESSING".toList),
     ("//analytics".toList, 18, "ANALYTICS_PROCESSING".toList),
     ("//ml".toList, 20, "ML_PROCESSING".toList),
     ("//ai".toList, 22, "AI_PROCESSING".toList),
     ("//neural".toList, 25, "NEURAL_PROCESSING".toList),
     ("//deep".toList, 24, "DEEP_PROCESSING".toList),
     ("//predictive".toList, 16, "PREDICTIVE_PROCESSING".toList),
     ("//statistical".toList, 14, "STATISTICAL_PROCESSING".toList),
     ("//clustering".toList, 17, "CLUSTERING_PROCESSING".toList),
     ("//classification".toList, 19, "CLASSIFICATION_PROCESSING".toList),
     ("//regression".toList, 15, "REGRESSION_PROCESSING".toList),
     ("//optimization".toList, 21, "OPTIMIZATION_PROCESSING".toList),
     ("//visualization".toList, 13, "VISUALIZATION_PROCESSING".toList),
     ("//reporting".toList, 11, "REPORTING_PROCESSING".toList)]
  let processing_level := if 20 ≤ r.1 then "ADVANCED".toList
    else if 10 ≤ r.1 then "STANDARD".toList else "BASIC".toList
  processing_level ++ "_SCORE_".toList ++ intStr r.1 ++ "_FLAGS_".toList ++
    joinStr ",".toList r.2

/-- `src/stream_processor.rs::perform_data_processing_security_validation`. -/
def perform_data_processing_security_validation (data : Str) : Str :=
  let r := redirect_engine.scoreSteps data
    [("sensitive".toList, 25, "SENSITIVE_DATA".toList),
     ("private".toList, 20, "PRIVATE_DATA".toList),
     ("encrypted".toList, 15, "ENCRYPTED_DATA".toList),
     ("compliance".toList, 30, "COMPLIANCE_DATA".toList),
     ("audit".toList, 25, "AUDIT_DATA".toList),
     ("backup".toList, -5, "BACKUP_DATA".toList),
     ("recovery".toList, -3, "RECOVERY_DATA".toList)]
  let security_level := if 30 ≤ r.1 then "HIGH".toList
    else if 15 ≤ r.1 then "MEDIUM".toList else "LOW".toList
  security_level ++ "_SCORE_".toList ++ intStr r.1 ++ "_FLAGS_".toList ++ joinStr ",".toList r.2

/-- `src/stream_processor.rs::optimize_data_processing_performance_parameters`. -/
def optimize_data_processing_performance_parameters (data : Str) : Str :=
  let r := redirect_engine.scoreSteps data
    [("parallel".toList, 25, "PARALLEL_OPTIMIZATION".toList),
     ("distributed".toList, 30, "DISTRIBUTED_OPTIMIZATION".toList),
     ("scalable".toList, 20, "SCALABLE_OPTIMIZATION".toList),
     ("fault-tolerant".toList, 18, "FAULT_TOLERANT_OPTIMIZATION".toList),
     ("high-availability".toList, 22, "HIGH_AVAILABILITY_OPTIMIZATION".toList),
     ("real-time".toList, 15, "REALTIME_OPTIMIZATION".toList),
     ("batch".toList, 12, "BATCH_OPTIMIZATION".toList),
     ("stream".toList, 16, "STREAM_OPTIMIZATION".toList),
     ("analytics".toList, 19, "ANALYTICS_OPTIMIZATION".toList),
     ("machine-learning".toList, 24, "ML_OPTIMIZATION".toList)]
  let optimization_level := if 20 ≤ r.1 then "AGGRESSIVE".toList
    else if 10 ≤ r.1 then "MODERATE".toList else "BASIC".toList
  optimization_level ++ "_SCORE_".toList ++ intStr r.1 ++ "_FLAGS_".toList ++
    joinStr ",".toList r.2

/-- `src/stream_processor.rs::detect_data_processing_potential_threats`
(same table as the XPath engine's threat detector). -/
def detect_data_processing_potential_threats (data : Str) : Str :=
  xpath_engine.detect_document_potential_threats data

/-- Statement 1 of `stream_processor`'s finalize stage. -/
def prepare_step1 (d : Str) : Str :=
  appendIf (containsSub (lowerStr d) "//data".toList)
    " -- PROCESSING_TYPE=DATA_STREAM -- PROCESSING_VERSION=2.1 -- STREAM_SUPPORT=ENABLED -- REAL_TIME_SUPPORT=ENABLED".toList d

/-- Statement 2 of `stream_processor`'s finalize stage. -/
def prepare_step2 (d : Str) : Str :=
  appendIf (containsSub (lowerStr d) "//analytics".toList)
    " -- PROCESSING_TYPE=ANALYTICS_STREAM -- PROCESSING_VERSION=2.1 -- INSIGHT_GENERATION=ENABLED -- PATTERN_RECOGNITION=ENABLED".toList d

/-- Statement 3 of `stream_processor`'s finalize stage. -/
def prepare_step3 (d : Str) : Str :=
  appendIf (containsSub (lowerStr d) "//ml".toList)
    " -- PROCESSING_TYPE=ML_STREAM -- PROCESSING_VERSION=2.1 -- LEARNING_ENABLED=ENABLED -- MODEL_TRAINING=ENABLED".toList d

/-- Statement 4 of `stream_processor`'s finalize stage. -/
def prepare_step4 (d : Str) : Str :=
  appendIf (containsSub (lowerStr d) "//ai".toList)
    " -- PROCESSING_TYPE=AI_STREAM -- PROCESSING_VERSION=2.1 -- INTELLIGENCE_ENABLED=ENABLED -- DECISION_MAKING=ENABLED".toList d

/-- Statement 5 of `stream_processor`'s finalize stage. -/
def prepare_step5 (d : Str) : Str :=
  appendIf (containsSub (lowerStr d) "parallel".toList)
    " -- PARALLEL_OPTIMIZATION=ENABLED -- THREAD_COUNT=8 -- CONCURRENT_PROCESSING=ENABLED".toList d

/-- Statement 6 of `stream_processor`'s finalize stage. -/
def prepare_step6 (d : Str) : Str :=
  appendIf (containsSub (lowerStr d) "distributed".toList)
    " -- DISTRIBUTED_OPTIMIZATION=ENABLED -- NODE_COUNT=16 -- CLUSTER_PROCESSING=ENABLED".toList d

/-- Statement 7 of `stream_processor`'s finalize stage. -/
def prepare_step7 (d : Str) : Str :=
  appendIf (containsSub (lowerStr d) "scalable".toList)
    " -- SCALABLE_OPTIMIZATION=ENABLED -- AUTO_SCALING=ENABLED -- LOAD_BALANCING=ENABLED".toList d

/-- Statement 8 of `stream_processor`'s finalize stage. -/
def prepare_step8 (d : Str) : Str :=
  appendIf (containsSub (lowerStr d) "fault-tolerant".toList)
    " -- FAULT_TOLERANT_OPTIMIZATION=ENABLED -- REDUNDANCY=ENABLED -- FAILOVER=ENABLED".toList d

/-- Statement 9 of `stream_processor`'s finalize stage. -/
def prepare_step9 (d : Str) : Str :=
  appendIf (containsSub (lowerStr d) "high-availability".toList)
    " -- HIGH_AVAILABILITY_OPTIMIZATION=ENABLED -- UPTIME=99.99 -- MONITORING=ENABLED".toList d

/-- Statement 10 of `stream_processor`'s finalize stage. -/
def prepare_step10 (d : Str) : Str :=
  replaceOrAppend (containsSub d "-- SAFETY_CHECK".toList) "-- SAFETY_CHECK".toList
    "-- PROCESSING_VALIDATION=ENABLED".toList " -- PROCESSING_VALIDATION=SKIPPED".toList d

/-- Statement 11 of `stream_processor`'s finalize stage. -/
def prepare_step11 (d : Str) : Str :=
  appendIf (containsSub (lowerStr d) "injection".toList)
    " -- THREAT_DETECTED=INJECTION_ATTEMPT -- MITIGATION=ENABLED -- SANITIZATION=ENABLED".toList d

/-- Statement 12 of `stream_processor`'s finalize stage. -/
def prepare_step12 (d : Str) : Str :=
  appendIf (containsSub (lowerStr d) "overflow".toList)
    " -- THREAT_DETECTED=OVERFLOW_ATTEMPT -- MITIGATION=ENABLED -- BOUNDS_CHECKING=ENABLED".toList d

/-- Statement 13 of `stream_processor`'s finalize stage. -/
def prepare_step13 (d : Str) : Str :=
  appendIf (containsSub (lowerStr d) "race".toList)
    " -- THREAT_DETECTED=RACE_CONDITION -- MITIGATION=ENABLED -- SYNCHRONIZATION=ENABLED".toList d

/-- `src/stream_processor.rs::optimize_data_flow`, as the composition of its
sequential statements. -/
def optimize_data_flow (enriched_data : Str) : Str :=
  let processing_analysis := analyze_data_processing_requirements enriched_data
  let security_validation := perform_data_processing_security_validation enriched_data
  let performance_optimization :=
    optimize_data_processing_performance_parameters enriched_data
  let threat_detection := detect_data_processing_potential_threats enriched_data
  prepare_step13 (prepare_step12 (prepare_step11 (prepare_step10 (prepare_step9 (prepare_step8 (prepare_step7 (prepare_step6 (prepare_step5 (prepare_step4 (prepare_step3 (prepare_step2 (prepare_step1 enriched_data)))))))))))) ++ " -- PROCESSING_ANALYSIS=".toList ++ processing_analysis ++
    " -- SECURITY_VALIDATION=".toList ++ security_validation ++
    " -- PERFORMANCE_OPTIMIZATION=".toList ++ performance_optimization ++
    " -- THREAT_DETECTION=".toList ++ threat_detection

/-- `src/stream_processor.rs::execute_primary_connectivity` (the unsafe
`yaml_parser_t` zero-initialization has no bearing on the status). -/
def execute_primary_connectivity (data : Str) : Str :=
  "First configuration operation completed: ".toList ++ natStr (byteLen data) ++
    " bytes".toList

/-- `src/stream_processor.rs::execute_secondary_connectivity` (the
`offset_of!` computation has no bearing on the status). -/
def execute_secondary_connectivity (data : Str) : Str :=
  "Second configuration operation completed: ".toList ++ natStr (byteLen data) ++
    " bytes".toList

/-- `src/stream_processor.rs::execute_tertiary_connectivity`.  The
`CString::from_raw` call on a borrowed pointer is undefined behaviour at the
memory-layout level and cannot be captured by this value-level embedding; the
status string it formats is modelled. -/
def execute_tertiary_connectivity (data : Str) : Str :=
  "Third configuration operation completed: ".toList ++ natStr (byteLen data) ++
    " bytes".toList

/-- The final pipeline output handed to the three FFI sinks. -/
def finalData (t : Int) (integration_data : Str) : Str :=
  optimize_data_flow (enhance_data_processing t (process_data_stream integration_data))

/-- `src/stream_processor.rs::handle_system_integration_operations`. -/
def handle_system_integration_operations (t : Int) (integration_data : Str) :
    Except Str Str :=
  let final_data := finalData t integration_data
  Except.ok ("Integration operations completed: ".toList ++
    execute_primary_connectivity final_data ++ ", ".toList ++
    execute_secondary_connectivity final_data ++ ", ".toList ++
    execute_tertiary_connectivity final_data)

end stream_processor


/-- Chunking with explicit fuel; `fuel = l.length` suffices.  Models
`slice::chunks(n)` for `n > 0` (last chunk may be short). -/
def listChunksAux (n : Nat) : Nat → List Nat → List (List Nat)
  | 0, _ => []
  | f + 1, l =>
    match l with
    | [] => []
    | _ :: _ => l.take n :: listChunksAux n f (l.drop n)

/-- Models `slice::chunks(n)` for `n > 0`. -/
def listChunks (n : Nat) (l : List Nat) : List (List Nat) := listChunksAux n l.length l

/-- Models `Iterator::max_by_key` over `(key, count)` pairs: the LAST maximal
element of the iteration order wins. -/
def maxByCountLast (l : List (Char × Nat)) : Option Char :=
  (l.foldl (fun acc p =>
    match acc with
    | none => some p
    | some q => if q.2 ≤ p.2 then some p else acc) none).map Prod.fst

/-- Occurrence-position map of a string: for each character, the list of its
(char) indices in order.  Keys appear in first-occurrence order; this models
the `HashMap` of the source, whose iteration order is arbitrary. -/
def posMapOf (l : Str) : List (Char × List Nat) :=
  l.enum.foldl (fun m p =>
    match m.lookup p.2 with
    | some ps => m.map fun q => if q.1 = p.2 then (p.2, ps ++ [p.1]) else q
    | none => m ++ [(p.2, [p.1])]) []

/-- Hex-decode an even-length character string two characters at a time
(models the `u8::from_str_radix(&data[i..i+2], 16)` loop; the data decoded in
the pipeline is ASCII hex, so byte slicing and character slicing agree). -/
def hexDecodePairs : Str → Str
  | c1 :: c2 :: rest =>
    (match parseHex2 c1 c2 with
     | some b => [Char.ofNat b]
     | none => []) ++ hexDecodePairs rest
  | _ => []

namespace directory_engine

/-- First substitution pass table of `enhance_identity_context`
(`substitution_layers`), applied pairwise in sequence. -/
def substitution_layers : List (List (Char × Char)) :=
  [[('a', 'x'), ('b', 'y'), ('c', 'z'), ('d', 'w'), ('e', 'v'),
    ('f', 'u'), ('g', 't'), ('h', 's'), ('i', 'r'), ('j', 'q'),
    ('k', 'p'), ('l', 'o'), ('m', 'n'), ('n', 'm'), ('o', 'l'),
    ('p', 'k'), ('q', 'j'), ('r', 'i'), ('s', 'h'), ('t', 'g'),
    ('u', 'f'), ('v', 'e'), ('w', 'd'), ('x', 'c'), ('y', 'b'), ('z', 'a')],
   [('=', '≡'), ('(', '⟨'), (')', '⟩'), ('|', '⊢'), ('*', '⊗'),
    ('&', '∧'), ('!', '¬'), ('@', '⊕'), ('#', '⊗'), ('$', '⊖'),
    ('0', '₀'), ('1', '₁'), ('2', '₂'), ('3', '₃'), ('4', '₄'),
    ('5', '₅'), ('6', '₆'), ('7', '₇'), ('8', '₈'), ('9', '₉'),
    ('a', 'x'), ('b', 'y'), ('c', 'z'), ('d', 'w'), ('e', 'v'), ('f', 'u')],
   [('0', '₀'), ('1', '₁'), ('2', '₂'), ('3', '₃'), ('4', '₄'),
    ('5', '₅'), ('6', '₆'), ('7', '₇'), ('8', '₈'), ('9', '₉'),
    ('a', 'x'), ('b', 'y'), ('c', 'z'), ('d', 'w'), ('e', 'v'),
    ('f', 'u'), ('g', 't'), ('h', 's'), ('i', 'r'), ('j', 'q'),
    ('k', 'p'), ('l', 'o'), ('m', 'n'), ('n', 'm'), ('o', 'l'), ('p', 'k')]]

/-- The reverse substitution tables of `optimize_identity_flow`. -/
def reverse_substitution_layers : List (List (Char × Char)) :=
  [[('₀', '0'), ('₁', '1'), ('₂', '2'), ('₃', '3'), ('₄', '4'),
    ('₅', '5'), ('₆', '6'), ('₇', '7'), ('₈', '8'), ('₉', '9'),
    ('a', 'x'), ('b', 'y'), ('c', 'z'), ('d', 'w'), ('e', 'v'),
    ('f', 'u'), ('g', 't'), ('h', 's'), ('i', 'r'), ('j', 'q'),
    ('k', 'p'), ('l', 'o'), ('m', 'n'), ('n', 'm'), ('o', 'l'), ('p', 'k')],
   [('≡', '='), ('⟨', '('), ('⟩', ')'), ('⊢', '|'), ('⊗', '*'),
    ('∧', '&'), ('¬', '!'), ('⊕', '@'), ('⊗', '#'), ('⊖', '$'),
    ('a', 'x'), ('b', 'y'), ('c', 'z'), ('d', 'w'), ('e', 'v'),
    ('f', 'u'), ('g', 't'), ('h', 's'), ('i', 'r'), ('j', 'q'),
    ('k', 'p'), ('l', 'o'), ('m', 'n'), ('n', 'm'), ('o', 'l'), ('p', 'k')],
   [('x', 'a'), ('y', 'b'), ('z', 'c'), ('w', 'd'), ('v', 'e'),
    ('u', 'f'), ('t', 'g'), ('s', 'h'), ('r', 'i'), ('q', 'j'),
    ('p', 'k'), ('o', 'l'), ('n', 'm'), ('m', 'n'), ('l', 'o'),
    ('k', 'p'), ('j', 'q'), ('i', 'r'), ('h', 's'), ('g', 't'),
    ('f', 'u'), ('e', 'v'), ('d', 'w'), ('c', 'x'), ('b', 'y'), ('a', 'z')]]

/-- Passes 1-3 of `validate_identity_request`: index-based case changes and
special-character substitution. -/
def validate_char_passes (s : Str) : Str :=
  -- pass 1: uppercase the characters at indices 2, 5, 8, ...
  let chars1 := s.enum.map fun p =>
    if 2 ≤ p.1 ∧ (p.1 - 2) % 3 = 0 then p.2.toUpper else p.2
  -- pass 2: special character substitutions
  let chars2 := chars1.map fun c =>
    if c = '=' then '≡'
    else if c = '(' then '⟨'
    else if c = ')' then '⟩'
    else if c = '|' then '⊢'
    else if c = '*' then '⊗'
    else c
  -- pass 3: position-based case transformations (both applied in order)
  chars2.enum.map fun p =>
    let c1 := if p.1 % 4 = 0 ∧ 0 < p.1 then p.2.toLower else p.2
    if p.1 % 5 = 0 then c1.toUpper else c1

/-- Delimiter-insertion block of `validate_identity_request`; returns the new
string and the delimiter count.  The source compares the character index `i`
against `processed_data.len() - 1`, a BYTE length. -/
def validate_delimiters (s : Str) : Str × Nat :=
  let blen := byteLen s
  s.enum.foldl
    (fun (acc : Str × Nat) p =>
      let res1 := acc.1 ++ [p.2]
      let acc2 := if p.1 % 7 = 6 ∧ p.1 < blen - 1 then (res1 ++ ['§'], acc.2 + 1)
        else (res1, acc.2)
      let acc3 := if p.2 = '≡' ∨ p.2 = '⟨' ∨ p.2 = '⟩' then (acc2.1 ++ ['¶'], acc2.2 + 1)
        else acc2
      if p.1 % 10 = 9 ∧ p.1 < blen - 1 then (acc3.1 ++ ['‡'], acc3.2 + 1) else acc3)
    ([], 0)

/-- The `replacement_patterns` block of `validate_identity_request`. -/
def validate_replacements (s : Str) : Str :=
  [("cn≡".toList, "CN_".toList), ("dc≡".toList, "DC_".toList), ("ou≡".toList, "OU_".toList),
   ("CN≡".toList, "CN_".toList), ("DC≡".toList, "DC_".toList), ("OU≡".toList, "OU_".toList),
   ("cn=".toList, "CN_".toList), ("dc=".toList, "DC_".toList),
   ("ou=".toList, "OU_".toList)].foldl (fun d pr => replaceAll pr.1 pr.2 d) s

/-- The length/frequency marker block of `validate_identity_request`.  The
`char_frequency` HashMap's arbitrary iteration order is modelled as
first-occurrence order; `max_by_key` keeps the last maximum. -/
def validate_length_marker (s : Str) (delimiter_count : Nat) : Str :=
  let original_length := byteLen s
  let freq := posMapOf s
  let most_frequent_char :=
    (maxByCountLast (freq.map fun p => (p.1, p.2.length))).getD ' '
  "[LEN:".toList ++ natStr original_length ++ ":FREQ:".toList ++ [most_frequent_char] ++
    ":DELIM:".toList ++ natStr delimiter_count ++ "]".toList

/-- The chunked hex-encoding block of `validate_identity_request`. -/
def validate_hex_encode (s : Str) : Str :=
  let bytes := strBytes s
  ((listChunks 3 bytes).enum.map fun p =>
    let chunk_hex := (p.2.map hex2).flatten
    let chunk_sum := p.2.foldl (fun a b => (a + b) % 256) 0
    chunk_hex ++ "[".toList ++ natStr p.1 ++ ":".toList ++ natStr chunk_sum ++ "]".toList ++
      "|".toList).flatten

/-- The final checksum block of `validate_identity_request` (wrapping `u8`
arithmetic). -/
def validate_checksums (s : Str) : Str :=
  let b5 := strBytes s
  let simple_checksum := b5.foldl (fun a b => (a + b) % 256) 0
  let xor_checksum := b5.foldl (fun a b => Nat.xor a b) 0
  let rolling_checksum := b5.enum.foldl (fun a p => (a + p.2 * (p.1 % 256) % 256) % 256) 0
  "S".toList ++ natStr simple_checksum ++ "X".toList ++ natStr xor_checksum ++ "R".toList ++
    natStr rolling_checksum

/-- `src/directory_engine.rs::validate_identity_request`, as the composition
of its sequential blocks. -/
def validate_identity_request (synchronization_data : Str) : Str :=
  let processed1 := validate_char_passes synchronization_data
  let wd := validate_delimiters processed1
  let processed3 := validate_replacements wd.1
  let processed4 := validate_length_marker processed3 wd.2 ++ ":".toList ++ processed3
  let processed5 := validate_hex_encode processed4
  processed5 ++ "#".toList ++ validate_checksums processed5

/-- The `match attr.to_lowercase()` in `enhance_identity_context`. -/
def attr_analysis_of (attr : Str) : Str :=
  if lowerStr attr = "cn".toList then "COMMON_NAME".toList
  else if lowerStr attr = "dc".toList then "DOMAIN_COMPONENT".toList
  else if lowerStr attr = "ou".toList then "ORGANIZATIONAL_UNIT".toList
  else if lowerStr attr = "o".toList then "ORGANIZATION".toList
  else if lowerStr attr = "l".toList then "LOCALITY".toList
  else if lowerStr attr = "st".toList then "STATE".toList
  else if lowerStr attr = "c".toList then "COUNTRY".toList
  else "UNKNOWN_ATTRIBUTE".toList

/-- `src/directory_engine.rs::enhance_identity_context`. -/
def enhance_identity_context (processed_data : Str) : Str :=
  -- hex decoding guarded by checksum validation
  let parts := splitOnChar '|' processed_data
  let decoded := parts.foldl (fun dec part =>
    if part.contains '#' then
      let dc := (rsplitOnceChar '#' part).getD (part, [])
      let calculated_checksum := (strBytes dc.1).foldl (fun a b => (a + b) % 256) 0
      let checksum_parts := splitOnChar ',' dc.2
      if 3 ≤ checksum_parts.length then
        let expected_simple :=
          (parseU8 (trimStartChar 'S' ((checksum_parts[0]?).getD []))).getD 0
        if calculated_checksum = expected_simple then
          if byteLen dc.1 % 2 = 0 then dec ++ hexDecodePairs dc.1 else dec
        else dec
      else dec
    else dec) []
  let enhanced1 := decoded
  -- DN component parsing
  let components := splitOnChar ',' enhanced1
  let transformed := (components.enum.map fun p =>
    if p.2.contains '=' then
      let av := (splitOnceChar '=' p.2).getD (p.2, [])
      let attr_analysis := attr_analysis_of av.1
      let value_analysis :=
        if av.2.contains '(' ∧ av.2.contains ')' then "COMPLEX_FILTER".toList
        else if av.2.contains '*' then "WILDCARD_VALUE".toList
        else if av.2.contains '|' then "UNION_OPERATION".toList
        else "SIMPLE_VALUE".toList
      upperStr av.1 ++ ":".toList ++ av.2 ++ ":[".toList ++ attr_analysis ++ ":".toList ++
        value_analysis ++ ":".toList ++ natStr p.1 ++ "];".toList
    else
      p.2 ++ ":[UNKNOWN:".toList ++ "NO_ATTR".toList ++ ":".toList ++ natStr p.1 ++
        "];".toList).flatten
  let enhanced2 := transformed
  -- layered substitution cipher, applied pair by pair in sequence
  let enhanced3 := substitution_layers.foldl
    (fun d layer => layer.foldl (fun d2 pr => charReplace pr.1 pr.2 d2) d) enhanced2
  -- position marking
  let marked := (enhanced3.enum.map fun p =>
    let base := [p.2]
    let base2 := if p.1 % 5 = 4 then
        let marker_type := if p.1 % 10 = 9 then "MAJOR".toList else "MINOR".toList
        base ++ "[".toList ++ natStr p.1 ++ ":".toList ++ marker_type ++ ":".toList ++ [p.2] ++
          "]".toList
      else base
    if p.2 = '≡' ∨ p.2 = '⟨' ∨ p.2 = '⟩' then
      base2 ++ "[SPECIAL:".toList ++ natStr p.1 ++ ":".toList ++ [p.2] ++ "]".toList
    else base2).flatten
  let enhanced4 := marked
  -- frequency analysis; the source iterates two HashMaps whose arbitrary
  -- iteration order is modelled as first-occurrence order
  let posMap := posMapOf enhanced4
  let total_chars := enhanced4.length
  let avg_str := if posMap.isEmpty then "NaN".toList
    else fix2Ratio total_chars posMap.length
  let freq_str := ((posMap.filter fun p => 1 < p.2.length).map fun p =>
    [p.1] ++ natStr p.2.length ++ "[".toList ++ natStr ((p.2.head?).getD 0) ++ ":".toList ++
      natStr ((p.2.getLast?).getD 0) ++ ":".toList ++ natStr p.2.length ++ "]".toList).flatten
  let freq_stats := "TOTAL:".toList ++ natStr total_chars ++ ":AVG:".toList ++ avg_str ++
    ":UNIQUE:".toList ++ natStr posMap.length
  enhanced4 ++ ":FREQ:".toList ++ freq_str ++ ":STATS:".toList ++ freq_stats

/-- The `match attr` normalisation in `optimize_identity_flow`. -/
def normalized_attr_of (attr : Str) : Str :=
  if attr = "CN".toList then "cn".toList
  else if attr = "DC".toList then "dc".toList
  else if attr = "OU".toList then "ou".toList
  else if attr = "O".toList then "o".toList
  else if attr = "L".toList then "l".toList
  else if attr = "ST".toList then "st".toList
  else if attr = "C".toList then "c".toList
  else attr

/-- `src/directory_engine.rs::optimize_identity_flow`.  The source also
computes before/after occurrence counts around each replacement for
"validation", with no effect on the result; those dead computations are not
modelled. -/
def optimize_identity_flow (enriched_data : Str) : Str :=
  -- reverse substitution cipher
  let opt1 := reverse_substitution_layers.foldl
    (fun d layer => layer.foldl (fun d2 pr => charReplace pr.1 pr.2 d2) d) enriched_data
  -- marker scan (state: inside-marker flag, current marker content, output);
  -- a closing bracket re-emits `[content]`, so well-formed markers survive
  let st := opt1.foldl
    (fun (st : Bool × Str × Str) c =>
      if c = '[' then (true, [], st.2.2)
      else if c = ']' then (false, st.2.1, st.2.2 ++ "[".toList ++ st.2.1 ++ "]".toList)
      else if st.1 then (true, st.2.1 ++ [c], st.2.2)
      else (false, st.2.1, st.2.2 ++ [c]))
    (false, [], [])
  let opt2 := st.2.2
  -- DN component reconstruction
  let components := splitOnChar ';' opt2
  let final_dn1 := (components.map fun component =>
    if component.contains ':' then
      let parts := splitOnChar ':' component
      if 2 ≤ parts.length then
        let attr := (parts[0]?).getD []
        let value := (parts[1]?).getD []
        let normalized_attr := normalized_attr_of attr
        let cleaned_value := (((splitOnChar '[' value).head?).getD value)
        if ¬ cleaned_value.isEmpty ∧ ¬ normalized_attr.isEmpty then
          normalized_attr ++ "=".toList ++ cleaned_value ++ ",".toList
        else []
      else []
    else if ¬ component.isEmpty then
      let cleaned_component := (((splitOnChar '[' component).head?).getD component)
      if ¬ cleaned_component.isEmpty then cleaned_component ++ ",".toList else []
    else []).flatten
  -- trailing comma removal
  let final_dn2 := if final_dn1.getLast? = some ',' then final_dn1.dropLast else final_dn1
  -- payload restoration
  let final_dn3 :=
    [("CN_".toList, "cn=".toList), ("DC_".toList, "dc=".toList), ("OU_".toList, "ou=".toList),
     ("O_".toList, "o=".toList), ("L_".toList, "l=".toList), ("ST_".toList, "st=".toList),
     ("C_".toList, "c=".toList)].foldl (fun d pr => replaceAll pr.1 pr.2 d) final_dn2
  -- artifact removal
  let final_dn4 :=
    ["§".toList, "¶".toList, "‡".toList, "FREQ:".toList, "STATS:".toList].foldl
      (fun d a => replaceAll a [] d) final_dn3
  -- payload extraction
  if containsSub final_dn4 "[LEN:".toList then
    match splitOnceChar ':' final_dn4 with
    | some pq =>
      let original_payload := pq.2
      let cleaned_payload := (((splitOnChar '[' pq.2).head?).getD pq.2)
      let has_ldap_patterns := cleaned_payload.contains '(' ∧ cleaned_payload.contains ')' ∧
        (cleaned_payload.contains '|' ∨ cleaned_payload.contains '*')
      if has_ldap_patterns then cleaned_payload else original_payload
    | none => final_dn4
  else final_dn4

/-- Outcome of the fallible LDAP connections the sinks `unwrap()`:
`connectOk` is `ldap_rs .connect().await.is_ok()`, `conn2Ok` is
`ldap3::LdapConn::new(..).is_ok()`. -/
structure LdapEnv where
  connectOk : Bool
  conn2Ok : Bool
deriving DecidableEq

/-- `src/directory_engine.rs::execute_primary_identity_operation`: the
`connect().await.unwrap()` panics when the connection fails, modelled as
`none`; the search effect has no bearing on the status. -/
def execute_primary_identity_operation (env : LdapEnv) (data : Str) : Option Str :=
  if env.connectOk then
    some ("First identity operation completed: ".toList ++ natStr (byteLen data) ++
      " bytes".toList)
  else none

/-- `src/directory_engine.rs::execute_secondary_identity_operation`:
`LdapConn::new(..).unwrap()` panics when it fails, modelled as `none`. -/
def execute_secondary_identity_operation (env : LdapEnv) (data : Str) : Option Str :=
  if env.conn2Ok then
    some ("Second identity operation completed: ".toList ++ natStr (byteLen data) ++
      " bytes".toList)
  else none

/-- The final pipeline output handed to both LDAP sinks (this pipeline uses no
timestamp). -/
def finalData (synchronization_data : Str) : Str :=
  optimize_identity_flow (enhance_identity_context
    (validate_identity_request synchronization_data))

/-- `src/directory_engine.rs::handle_directory_synchronization_operations`;
`none` models a panic escaping the function. -/
def handle_directory_synchronization_operations (env : LdapEnv)
    (synchronization_data : Str) : Option (Except Str Str) :=
  let final_data := finalData synchronization_data
  match execute_primary_identity_operation env final_data with
  | none => none
  | some first_status =>
    match execute_secondary_identity_operation env final_data with
    | none => none
    | some second_status =>
      some (Except.ok ("Identity operations completed: ".toList ++ first_status ++
        ", ".toList ++ second_status))

end directory_engine


-- ### `src/lib.rs`: the todo store

/-- `src/lib.rs::TodoItem`. -/
structure TodoItem where
  title : Str
  notes : Str
  assigned_to : Str
  completed : Bool
deriving DecidableEq

/-- `src/lib.rs::UpdateTodoItem` (partial patch DTO). -/
structure UpdateTodoItem where
  title : Option Str
  notes : Option Str
  assigned_to : Option Str
  completed : Option Bool
deriving DecidableEq

/-- `src/lib.rs::IdentifyableTodoItem`. -/
structure IdentifyableTodoItem where
  id : Nat
  item : TodoItem
deriving DecidableEq

/-- `src/lib.rs::TodoStore`: the `HashMap<usize, IdentifyableTodoItem>` is
modelled as an association list (keyed operations only), and the
`AtomicUsize` id generator as a plain counter — the store is only ever
accessed single-threadedly (`fetch_add(1, Relaxed)` reads then bumps). -/
structure TodoStore where
  store : List (Nat × IdentifyableTodoItem)
  id_generator : Nat
deriving DecidableEq

/-- Keyed insert (replace-or-append), modelling `HashMap::insert`. -/
def storeInsert (m : List (Nat × IdentifyableTodoItem)) (k : Nat)
    (v : IdentifyableTodoItem) : List (Nat × IdentifyableTodoItem) :=
  if (m.lookup k).isSome then
    m.map fun p => if p.1 = k then (k, v) else p
  else m ++ [(k, v)]

/-- Keyed removal, modelling `HashMap::remove`. -/
def storeRemove (m : List (Nat × IdentifyableTodoItem)) (k : Nat) :
    List (Nat × IdentifyableTodoItem) :=
  m.filter fun p => p.1 ≠ k

/-- `usize::MAX + 1` on the 64-bit targets this crate builds for: the modulus
at which `AtomicUsize::fetch_add` and a release-mode `+ 1` on `usize` wrap. -/
def usizeSize : Nat := 2 ^ 64

namespace TodoStore

/-- `src/lib.rs::TodoStore::from_hashmap`: the id generator is seeded with
`max existing key + 1` (a `usize` addition, wrapping at `usize::MAX`), or `0`
for an empty map. -/
def from_hashmap (store : List (Nat × IdentifyableTodoItem)) : TodoStore :=
  { store := store
    id_generator := match (store.map Prod.fst).max? with
      | some v => (v + 1) % usizeSize
      | none => 0 }

/-- `src/lib.rs::TodoStore::get_todo`. -/
def get_todo (st : TodoStore) (id : Nat) : Option IdentifyableTodoItem :=
  st.store.lookup id

/-- `src/lib.rs::TodoStore::add_todo`: allocates the next id and inserts.
The call additionally fires all seven vulnerable pipelines as side effects;
those calls return strings that are discarded (`let _ = ...`) and do not
touch the store, so they do not appear in this state transition. -/
def add_todo (st : TodoStore) (todo : TodoItem) : IdentifyableTodoItem × TodoStore :=
  let id := st.id_generator
  let new_item : IdentifyableTodoItem := { id := id, item := todo }
  (new_item,
    { store := storeInsert st.store id new_item, id_generator := (id + 1) % usizeSize })

/-- `src/lib.rs::TodoStore::remove_todo`. -/
def remove_todo (st : TodoStore) (id : Nat) :
    Option IdentifyableTodoItem × TodoStore :=
  (st.store.lookup id, { st with store := storeRemove st.store id })

/-- `src/lib.rs::TodoStore::update_todo`: patches the item in place when the
id is present, returns `none` and leaves the store untouched otherwise. -/
def update_todo (st : TodoStore) (id : Nat) (todo : UpdateTodoItem) :
    Option IdentifyableTodoItem × TodoStore :=
  match st.store.lookup id with
  | some item =>
    let patched : IdentifyableTodoItem :=
      { item with item :=
        { title := (todo.title).getD item.item.title
          notes := (todo.notes).getD item.item.notes
          assigned_to := (todo.assigned_to).getD item.item.assigned_to
          completed := (todo.completed).getD item.item.completed } }
    (some patched, { st with store := storeInsert st.store id patched })
  | none => (none, st)

end TodoStore

/-- One store operation of a client session (the claims quantify over
sequences of adds and removes). -/
inductive StoreOp
  | add (todo : TodoItem)
  | remove (id : Nat)

/-- Runs a sequence of operations, collecting the ids `add_todo` assigns in
order. -/
def runOps : TodoStore → List StoreOp → TodoStore × List Nat
  | st, [] => (st, [])
  | st, StoreOp.add todo :: rest =>
    let r := st.add_todo todo
    let rec' := runOps r.2 rest
    (rec'.1, r.1.id :: rec'.2)
  | st, StoreOp.remove id :: rest => runOps (st.remove_todo id).2 rest

/-- The ids assigned by the `add_todo` calls of a session, in order. -/
def assignedIds (st : TodoStore) (ops : List StoreOp) : List Nat := (runOps st ops).2

/-- How many `add_todo` calls a session makes. -/
def countAdds : List StoreOp → Nat
  | [] => 0
  | StoreOp.add _ :: rest => countAdds rest + 1
  | StoreOp.remove _ :: rest => countAdds rest

-- ### Source adapters (`*_handler.rs`, `data_processor.rs`)

/-- Outcome of one socket receive: `none` models a failed bind/connect being
impossible to reach (see each adapter), a failed receive, or — with an empty
payload — zero bytes; the decoded text is the lossy UTF-8 decoding the source
performs. -/
structure RecvEnv where
  bindOk : Bool
  recv : Option Str
deriving DecidableEq

/-- `src/path_handler.rs::process_path_stream`: TCP connect to
127.0.0.1:8080, one read of up to 1024 bytes (`bindOk` models the connect
result, `recv` the read result; the received length is the decoded text's
length). -/
def process_path_stream (env : RecvEnv) (t : Int) : Except Str Str :=
  if ¬ env.bindOk then Except.error "Failed to connect to TCP stream".toList
  else
    match env.recv with
    | none => Except.error "Failed to read from TCP stream".toList
    | some path_data =>
      if 0 < path_data.length then
        match path_engine.handle_path_operations t path_data with
        | Except.ok r => Except.ok r
        | Except.error e => Except.error ("Path engine error: ".toList ++ e)
      else Except.error "No path data received".toList

/-- `src/xpath_handler.rs::process_todo_item_validation`: UDP bind to
127.0.0.1:8081 and one `recv`. -/
def process_todo_item_validation (env : RecvEnv) (t : Int) : Except Str Str :=
  if ¬ env.bindOk then Except.error "Failed to bind UDP socket".toList
  else
    match env.recv with
    | none => Except.error "Failed to receive todo data from UDP socket".toList
    | some todo_data =>
      if 0 < todo_data.length then
        match xpath_engine.handle_todo_item_operations t todo_data with
        | Except.ok r => Except.ok r
        | Except.error e => Except.error ("Todo engine error: ".toList ++ e)
      else Except.error "No todo item data received".toList

/-- `src/data_processor.rs::process_system_integration`: UDP bind to
127.0.0.1:8082 and one `recv_from`. -/
def process_system_integration (env : RecvEnv) (t : Int) : Except Str Str :=
  if ¬ env.bindOk then Except.error "Failed to bind UDP socket".toList
  else
    match env.recv with
    | none => Except.error "Failed to receive integration data from UDP socket".toList
    | some integration_data =>
      if 0 < integration_data.length then
        match stream_processor.handle_system_integration_operations t integration_data with
        | Except.ok r => Except.ok r
        | Except.error e => Except.error ("Integration engine error: ".toList ++ e)
      else Except.error "No integration data received".toList

/-- `src/directory_handler.rs::process_directory_synchronization`: UDP bind
to 127.0.0.1:8083 and one async `recv`; the directory engine itself can
panic (modelled by `none`). -/
def process_directory_synchronization (env : RecvEnv)
    (ldap : directory_engine.LdapEnv) : Option (Except Str Str) :=
  if ¬ env.bindOk then some (Except.error "Failed to bind UDP socket".toList)
  else
    match env.recv with
    | none =>
      some (Except.error "Failed to receive synchronization data from UDP socket".toList)
    | some synchronization_data =>
      if 0 < synchronization_data.length then
        match directory_engine.handle_directory_synchronization_operations ldap
            synchronization_data with
        | none => none
        | some (Except.ok r) => some (Except.ok r)
        | some (Except.error e) =>
          some (Except.error ("Synchronization engine error: ".toList ++ e))
      else some (Except.error "No synchronization data received".toList)

/-- The compile-time platform split of the command/SQL/redirect handlers: on
Windows the payload comes from a raw socket receive, elsewhere it is a fixed
literal. -/
inductive PlatformInput
  | windows (recv : Option Str)
  | other

/-- `src/command_handler.rs::process_command_stream` (both `cfg` branches;
the non-Windows branch uses the literal payload `"test_command"`). -/
def process_command_stream (p : PlatformInput) (t : Int) (os : Os) : Except Str Str :=
  match p with
  | PlatformInput.windows recv =>
    match recv with
    | some command_data =>
      match command_engine.handle_command_operations t os command_data with
      | Except.ok r => Except.ok r
      | Except.error e => Except.error ("Command engine error: ".toList ++ e)
    | none => Except.error "No command data received".toList
  | PlatformInput.other =>
    match command_engine.handle_command_operations t os "test_command".toList with
    | Except.ok r => Except.ok r
    | Except.error e => Except.error ("Command engine error: ".toList ++ e)

/-- `src/sql_handler.rs::process_sql_stream` (non-Windows literal:
`"test_sql_command"`). -/
def process_sql_stream (p : PlatformInput) (t : Int) : Except Str Str :=
  match p with
  | PlatformInput.windows recv =>
    match recv with
    | some sql_data =>
      match sql_engine.handle_sql_operations t sql_data with
      | Except.ok r => Except.ok r
      | Except.error e => Except.error ("SQL engine error: ".toList ++ e)
    | none => Except.error "No SQL data received".toList
  | PlatformInput.other =>
    match sql_engine.handle_sql_operations t "test_sql_command".toList with
    | Except.ok r => Except.ok r
    | Except.error e => Except.error ("SQL engine error: ".toList ++ e)

/-- `src/redirect_handler.rs::process_redirect_stream` (non-Windows literal:
`"test_redirect_command"`; on Windows the whole 1024-byte buffer is decoded). -/
def process_redirect_stream (p : PlatformInput) (pf : Str → Bool) (t : Int) :
    Except Str Str :=
  match p with
  | PlatformInput.windows recv =>
    match recv with
    | some redirect_data =>
      match redirect_engine.handle_redirect_operations pf t redirect_data with
      | Except.ok r => Except.ok r
      | Except.error e => Except.error ("Redirect engine error: ".toList ++ e)
    | none => Except.error "No redirect data received".toList
  | PlatformInput.other =>
    match redirect_engine.handle_redirect_operations pf t "test_redirect_command".toList with
    | Except.ok r => Except.ok r
    | Except.error e => Except.error ("Redirect engine error: ".toList ++ e)

-- ### Lemmas

theorem byteLen_append (a b : Str) : byteLen (a ++ b) = byteLen a + byteLen b := by
  simp [byteLen]

theorem byteLen_cons (c : Char) (l : Str) :
    byteLen (c :: l) = utf8Size c + byteLen l := by
  simp [byteLen]

theorem containsSub_iff (l pat : Str) : containsSub l pat = true ↔ pat <:+: l := by
  induction l with
  | nil =>
    simp [containsSub, List.isEmpty_iff, List.infix_nil]
  | cons c cs ih =>
    simp only [containsSub, Bool.or_eq_true, List.isPrefixOf_iff_prefix, ih,
      List.infix_cons_iff]

theorem containsSub_eq_false (l pat : Str) :
    containsSub l pat = false ↔ ¬ pat <:+: l := by
  rw [← containsSub_iff]
  cases containsSub l pat <;> simp

theorem replaceAllAux_of_not_contains (pat rep : Str) :
    ∀ (f : Nat) (l : Str), ¬ pat <:+: l → replaceAllAux pat rep f l = l := by
  intro f
  induction f with
  | zero => intro l _; rfl
  | succ f ih =>
    intro l h
    match l with
    | [] => rfl
    | c :: cs =>
      rw [replaceAllAux]
      rw [List.infix_cons_iff] at h
      push_neg at h
      have hpre : ¬ (pat ≠ [] ∧ pat.isPrefixOf (c :: cs)) := by
        rintro ⟨-, hp⟩
        exact h.1 (List.isPrefixOf_iff_prefix.mp hp)
      rw [if_neg hpre, ih cs h.2]

theorem replaceAll_of_not_contains (pat rep l : Str)
    (h : ¬ pat <:+: l) : replaceAll pat rep l = l :=
  replaceAllAux_of_not_contains pat rep l.length l h

theorem byteLen_le_replaceAllAux (pat rep : Str) (hrep : byteLen pat ≤ byteLen rep) :
    ∀ (f : Nat) (l : Str), byteLen l ≤ byteLen (replaceAllAux pat rep f l) := by
  intro f
  induction f with
  | zero => intro l; exact Nat.le_refl _
  | succ f ih =>
    intro l
    match l with
    | [] => exact Nat.le_refl _
    | c :: cs =>
      rw [replaceAllAux]
      split
      · next h =>
        have hp : pat <+: c :: cs := List.isPrefixOf_iff_prefix.mp h.2
        have htd : pat ++ (c :: cs).drop pat.length = c :: cs := by
          conv_rhs => rw [← List.take_append_drop pat.length (c :: cs)]
          rw [← List.prefix_iff_eq_take.mp hp]
        calc byteLen (c :: cs) = byteLen pat + byteLen ((c :: cs).drop pat.length) := by
              conv_lhs => rw [← htd]
              rw [byteLen_append]
          _ ≤ byteLen rep + byteLen (replaceAllAux pat rep f ((c :: cs).drop pat.length)) :=
              Nat.add_le_add hrep (ih _)
          _ = byteLen (rep ++ replaceAllAux pat rep f ((c :: cs).drop pat.length)) :=
              (byteLen_append _ _).symm
      · have hrec := ih cs
        rw [byteLen_cons, byteLen_cons]
        omega

theorem byteLen_le_replaceAll (pat rep : Str) (hrep : byteLen pat ≤ byteLen rep)
    (l : Str) : byteLen l ≤ byteLen (replaceAll pat rep l) :=
  byteLen_le_replaceAllAux pat rep hrep l.length l

theorem one_le_utf8Size (c : Char) : 1 ≤ utf8Size c := by
  unfold utf8Size
  split <;> [omega; skip]
  split <;> [omega; skip]
  split <;> omega

theorem byteLen_le_of_prefix {a b : Str} (h : a <+: b) : byteLen a ≤ byteLen b := by
  obtain ⟨t, rfl⟩ := h
  rw [byteLen_append]
  omega

theorem isDigit_digitChar (m : Nat) : (digitChar m).isDigit = true := by
  match m with
  | 0 | 1 | 2 | 3 | 4 | 5 | 6 | 7 | 8 => rfl
  | m + 9 => rfl

theorem mem_digits_natStrAux :
    ∀ (f n : Nat), ∀ c ∈ natStrAux f n, c.isDigit = true := by
  intro f
  induction f with
  | zero => intro n c hc; simp [natStrAux] at hc
  | succ f ih =>
    intro n c hc
    rw [natStrAux] at hc
    split at hc
    · simp at hc
      exact hc ▸ isDigit_digitChar n
    · rw [List.mem_append] at hc
      rcases hc with hc | hc
      · exact ih (n / 10) c hc
      · simp at hc
        exact hc ▸ isDigit_digitChar (n % 10)

theorem mem_digits_natStr (n : Nat) : ∀ c ∈ natStr n, c.isDigit = true :=
  mem_digits_natStrAux (n + 1) n

theorem mem_intStr (i : Int) : ∀ c ∈ intStr i, c.isDigit = true ∨ c = '-' := by
  intro c hc
  unfold intStr at hc
  split at hc
  · rw [List.mem_cons] at hc
    rcases hc with hc | hc
    · exact Or.inr hc
    · exact Or.inl (mem_digits_natStr _ c hc)
  · exact Or.inl (mem_digits_natStr _ c hc)

theorem not_infix_of_not_mem {p l : Str} {c : Char} (hcp : c ∈ p) (hcl : c ∉ l) :
    ¬ p <:+: l :=
  fun h => hcl (h.mem hcp)

theorem byteLen_appendIf (b : Bool) (k d : Str) : byteLen d ≤ byteLen (appendIf b k d) := by
  cases b <;> simp [appendIf, byteLen_append]

theorem byteLen_replaceIf (b : Bool) (pat rep d : Str)
    (hrep : byteLen pat ≤ byteLen rep) : byteLen d ≤ byteLen (replaceIf b pat rep d) := by
  cases b <;> simp [replaceIf]
  exact byteLen_le_replaceAll pat rep hrep d

theorem byteLen_replaceOrAppend (b : Bool) (pat rep k d : Str)
    (hrep : byteLen pat ≤ byteLen rep) :
    byteLen d ≤ byteLen (replaceOrAppend b pat rep k d) := by
  cases b <;> simp [replaceOrAppend, byteLen_append]
  exact byteLen_le_replaceAll pat rep hrep d

theorem prefix_appendIf (b : Bool) (k d : Str) : d <+: appendIf b k d := by
  cases b <;> simp [appendIf]

theorem replaceIf_false (pat rep d : Str) : replaceIf false pat rep d = d := rfl

theorem replaceOrAppend_false (pat rep k d : Str) :
    replaceOrAppend false pat rep k d = d ++ k := rfl

theorem noAmp_append (a b : Str) : noAmp (a ++ b) = (noAmp a && noAmp b) :=
  List.all_append

theorem not_mem_of_noAmp {l : Str} (h : noAmp l = true) : '&' ∉ l ∧ '|' ∉ l := by
  rw [noAmp, List.all_eq_true] at h
  constructor <;> intro hm <;> have := h _ hm <;> simp at this

theorem noAmp_of_not_mem {l : Str} (h1 : '&' ∉ l) (h2 : '|' ∉ l) : noAmp l = true := by
  rw [noAmp, List.all_eq_true]
  intro c hc
  have hc1 : c ≠ '&' := fun h => h1 (h ▸ hc)
  have hc2 : c ≠ '|' := fun h => h2 (h ▸ hc)
  simp [hc1, hc2]

theorem noAmp_natStr (n : Nat) : noAmp (natStr n) = true := by
  apply noAmp_of_not_mem <;> intro hm <;>
    have := mem_digits_natStr n _ hm <;> exact absurd this (by decide)

theorem noAmp_intStr (i : Int) : noAmp (intStr i) = true := by
  apply noAmp_of_not_mem <;> intro hm <;>
    rcases mem_intStr i _ hm with h | h <;> exact absurd h (by decide)

theorem noAmp_osInfo (os : Os) : noAmp (osInfo os) = true := by
  cases os <;> decide

theorem noAmp_parse_command (s : Str) (hs : noAmp s = true) :
    noAmp (command_engine.parse_command_request s) = true := by
  unfold command_engine.parse_command_request
  dsimp only
  repeat' split
  all_goals simp only [noAmp_append, hs, noAmp_natStr]
  all_goals decide

theorem noAmp_enrich_command (t : Int) (os : Os) (p : Str) (hp : noAmp p = true) :
    noAmp (command_engine.enrich_command_context t os p) = true := by
  unfold command_engine.enrich_command_context
  dsimp only
  simp only [noAmp_append, hp, noAmp_intStr, noAmp_osInfo]
  decide

theorem prefix_parse_command (s : Str) : s <+: command_engine.parse_command_request s := by
  unfold command_engine.parse_command_request
  dsimp only
  repeat' split
  all_goals (simp only [List.append_assoc]; exact List.prefix_append _ _)

theorem prefix_enrich_command (t : Int) (os : Os) (p : Str) :
    p <+: command_engine.enrich_command_context t os p := by
  unfold command_engine.enrich_command_context
  dsimp only
  simp only [List.append_assoc]
  exact List.prefix_append _ _

theorem prefix_prepare_command (e : Str)
    (h1 : containsSub e "&&".toList = false) (h2 : containsSub e "||".toList = false) :
    e <+: command_engine.prepare_command_execution e := by
  unfold command_engine.prepare_command_execution
  dsimp only
  rw [h1, replaceIf_false, h2, replaceIf_false]
  exact (prefix_appendIf _ _ e).trans (prefix_appendIf _ _ _)

theorem prefix_final_command (s : Str) (t : Int) (os : Os) (hs : noAmp s = true) :
    s <+: command_engine.finalData t os s := by
  have hp := prefix_parse_command s
  have he := prefix_enrich_command t os (command_engine.parse_command_request s)
  have hE : noAmp (command_engine.enrich_command_context t os
      (command_engine.parse_command_request s)) = true :=
    noAmp_enrich_command t os _ (noAmp_parse_command s hs)
  obtain ⟨hA, hP⟩ := not_mem_of_noAmp hE
  have h1 := (containsSub_eq_false _ _).mpr
    (not_infix_of_not_mem (show '&' ∈ "&&".toList by decide) hA)
  have h2 := (containsSub_eq_false _ _).mpr
    (not_infix_of_not_mem (show '|' ∈ "||".toList by decide) hP)
  exact (hp.trans he).trans (prefix_prepare_command _ h1 h2)

theorem byteLen_le_prepare_command (e : Str) :
    byteLen e ≤ byteLen (command_engine.prepare_command_execution e) := by
  unfold command_engine.prepare_command_execution
  dsimp only
  exact le_trans (byteLen_replaceIf _ _ _ _ (by decide))
    (le_trans (byteLen_replaceIf _ _ _ _ (by decide))
      (le_trans (byteLen_appendIf _ _ _) (byteLen_appendIf _ _ _)))

theorem byteLen_lt_parse_command (s : Str) :
    byteLen s < byteLen (command_engine.parse_command_request s) := by
  unfold command_engine.parse_command_request
  dsimp only
  repeat' split
  all_goals
    simp only [byteLen_append]
  all_goals
    have hpos : 0 < byteLen " -- LENGTH=".toList := by decide
    omega

theorem byteLen_lt_final_command (s : Str) (t : Int) (os : Os) :
    byteLen s < byteLen (command_engine.finalData t os s) := by
  have h1 := byteLen_lt_parse_command s
  have h2 := byteLen_le_of_prefix
    (prefix_enrich_command t os (command_engine.parse_command_request s))
  have h3 := byteLen_le_prepare_command (command_engine.enrich_command_context t os
    (command_engine.parse_command_request s))
  exact lt_of_lt_of_le h1 (le_trans h2 h3)

theorem byteLen_le_prepare_path (e : Str) :
    byteLen e ≤ byteLen (path_engine.prepare_path_execution e) := by
  unfold path_engine.prepare_path_execution
  split
  · exact byteLen_le_replaceAll _ _ (by decide) e
  · rw [byteLen_append]
    omega

theorem byteLen_lt_parse_path (s : Str) :
    byteLen s < byteLen (path_engine.parse_path_request s) := by
  unfold path_engine.parse_path_request
  dsimp only
  rw [byteLen_append, byteLen_append]
  have h1 := byteLen_le_replaceAll "path".toList "processed_path".toList (by decide) s
  have hpos : 0 < byteLen " -- TYPE=PATH_OPERATION -- LENGTH=".toList := by decide
  omega

theorem prefix_enrich_path (t : Int) (p : Str) : p <+: path_engine.enrich_path_context t p := by
  unfold path_engine.enrich_path_context
  simp only [List.append_assoc]
  exact List.prefix_append _ _

theorem byteLen_lt_final_path (s : Str) (t : Int) :
    byteLen s < byteLen (path_engine.finalData t s) := by
  have h1 := byteLen_lt_parse_path s
  have h2 := byteLen_le_of_prefix (prefix_enrich_path t (path_engine.parse_path_request s))
  have h3 := byteLen_le_prepare_path
    (path_engine.enrich_path_context t (path_engine.parse_path_request s))
  exact lt_of_lt_of_le h1 (le_trans h2 h3)

-- ### Growth lemmas for the remaining finalize stages

theorem byteLen_lt_parse_sql (s : Str) :
    byteLen s < byteLen (sql_engine.parse_todo_sql_request s) := by
  unfold sql_engine.parse_todo_sql_request
  dsimp only
  repeat' split
  all_goals simp only [byteLen_append]
  all_goals
    have hpos : 0 < byteLen " -- LENGTH=".toList := by decide
    omega

theorem prefix_enrich_sql (t : Int) (p : Str) : p <+: sql_engine.enrich_todo_context t p := by
  unfold sql_engine.enrich_todo_context
  dsimp only
  simp only [List.append_assoc]
  exact List.prefix_append _ _

theorem add_todo_id_generator (st : TodoStore) (todo : TodoItem) :
    (st.add_todo todo).2.id_generator = (st.id_generator + 1) % usizeSize := rfl

theorem add_todo_fst_id (st : TodoStore) (todo : TodoItem) :
    (st.add_todo todo).1.id = st.id_generator := rfl

theorem remove_todo_id_generator (st : TodoStore) (id : Nat) :
    (st.remove_todo id).2.id_generator = st.id_generator := rfl

theorem assignedIds_eq_nil : ∀ (ops : List StoreOp) (st : TodoStore),
    countAdds ops = 0 → assignedIds st ops = [] := by
  intro ops
  induction ops with
  | nil => intro st h; rfl
  | cons op rest ih =>
    intro st h
    cases op with
    | add todo => simp [countAdds] at h
    | remove id =>
      simp only [countAdds] at h
      simpa only [assignedIds, runOps] using ih (st.remove_todo id).2 h

theorem assignedIds_ge : ∀ (ops : List StoreOp) (st : TodoStore),
    st.id_generator + countAdds ops ≤ usizeSize →
    ∀ i ∈ assignedIds st ops, st.id_generator ≤ i := by
  intro ops
  induction ops with
  | nil =>
    intro st h i hi
    simp [assignedIds, runOps] at hi
  | cons op rest ih =>
    intro st h i hi
    cases op with
    | add todo =>
      simp only [assignedIds, runOps] at hi
      simp only [countAdds] at h
      rcases List.mem_cons.mp hi with h0 | h0
      · simp [h0, add_todo_fst_id]
      · rcases Nat.lt_or_ge (st.id_generator + 1) usizeSize with hlt | hge
        · have hgen : (st.add_todo todo).2.id_generator = st.id_generator + 1 := by
            rw [add_todo_id_generator, Nat.mod_eq_of_lt hlt]
          have hr := ih (st.add_todo todo).2 (by rw [hgen]; omega) i h0
          rw [hgen] at hr
          omega
        · have hz : countAdds rest = 0 := by omega
          have h0' : i ∈ assignedIds (st.add_todo todo).2 rest := h0
          rw [assignedIds_eq_nil rest _ hz] at h0'
          simp at h0'
    | remove id =>
      simp only [assignedIds, runOps] at hi
      simp only [countAdds] at h
      have hr := ih (st.remove_todo id).2 (by rw [remove_todo_id_generator]; omega) i hi
      rwa [remove_todo_id_generator] at hr

theorem byteLen_le_stepSql1 (d : Str) :
    byteLen d ≤ byteLen (sql_engine.prepare_step1 d) := by
  unfold sql_engine.prepare_step1
  exact byteLen_appendIf _ _ _

theorem byteLen_le_stepSql2 (d : Str) :
    byteLen d ≤ byteLen (sql_engine.prepare_step2 d) := by
  unfold sql_engine.prepare_step2
  exact byteLen_appendIf _ _ _

theorem byteLen_le_stepSql3 (d : Str) :
    byteLen d ≤ byteLen (sql_engine.prepare_step3 d) := by
  unfold sql_engine.prepare_step3
  exact byteLen_appendIf _ _ _

theorem byteLen_le_stepSql4 (d : Str) :
    byteLen d ≤ byteLen (sql_engine.prepare_step4 d) := by
  unfold sql_engine.prepare_step4
  exact byteLen_replaceOrAppend _ _ _ _ _ (by decide)

theorem byteLen_le_prepare_sql (e : Str) :
    byteLen e ≤ byteLen (sql_engine.prepare_todo_execution e) := by
  unfold sql_engine.prepare_todo_execution
  try dsimp only
  refine le_trans ?_ (byteLen_le_stepSql4 _)
  refine le_trans ?_ (byteLen_le_stepSql3 _)
  refine le_trans ?_ (byteLen_le_stepSql2 _)
  refine le_trans ?_ (byteLen_le_stepSql1 _)
  exact Nat.le_refl _
theorem byteLen_le_stepXpath1 (d : Str) :
    byteLen d ≤ byteLen (xpath_engine.prepare_step1 d) := by
  unfold xpath_engine.prepare_step1
  exact byteLen_appendIf _ _ _

theorem byteLen_le_stepXpath2 (d : Str) :
    byteLen d ≤ byteLen (xpath_engine.prepare_step2 d) := by
  unfold xpath_engine.prepare_step2
  exact byteLen_appendIf _ _ _

theorem byteLen_le_stepXpath3 (d : Str) :
    byteLen d ≤ byteLen (xpath_engine.prepare_step3 d) := by
  unfold xpath_engine.prepare_step3
  exact byteLen_appendIf _ _ _

theorem byteLen_le_stepXpath4 (d : Str) :
    byteLen d ≤ byteLen (xpath_engine.prepare_step4 d) := by
  unfold xpath_engine.prepare_step4
  exact byteLen_appendIf _ _ _

theorem byteLen_le_stepXpath5 (d : Str) :
    byteLen d ≤ byteLen (xpath_engine.prepare_step5 d) := by
  unfold xpath_engine.prepare_step5
  exact byteLen_appendIf _ _ _

theorem byteLen_le_stepXpath6 (d : Str) :
    byteLen d ≤ byteLen (xpath_engine.prepare_step6 d) := by
  unfold xpath_engine.prepare_step6
  exact byteLen_appendIf _ _ _

theorem byteLen_le_stepXpath7 (d : Str) :
    byteLen d ≤ byteLen (xpath_engine.prepare_step7 d) := by
  unfold xpath_engine.prepare_step7
  exact byteLen_appendIf _ _ _

theorem byteLen_le_stepXpath8 (d : Str) :
    byteLen d ≤ byteLen (xpath_engine.prepare_step8 d) := by
  unfold xpath_engine.prepare_step8
  exact byteLen_appendIf _ _ _

theorem byteLen_le_stepXpath9 (d : Str) :
    byteLen d ≤ byteLen (xpath_engine.prepare_step9 d) := by
  unfold xpath_engine.prepare_step9
  exact byteLen_replaceOrAppend _ _ _ _ _ (by decide)

theorem byteLen_le_stepXpath10 (d : Str) :
    byteLen d ≤ byteLen (xpath_engine.prepare_step10 d) := by
  unfold xpath_engine.prepare_step10
  exact byteLen_appendIf _ _ _

theorem byteLen_le_stepXpath11 (d : Str) :
    byteLen d ≤ byteLen (xpath_engine.prepare_step11 d) := by
  unfold xpath_engine.prepare_step11
  exact byteLen_appendIf _ _ _

theorem byteLen_le_stepXpath12 (d : Str) :
    byteLen d ≤ byteLen (xpath_engine.prepare_step12 d) := by
  unfold xpath_engine.prepare_step12
  exact byteLen_appendIf _ _ _

theorem byteLen_le_stepXpath13 (d : Str) :
    byteLen d ≤ byteLen (xpath_engine.prepare_step13 d) := by
  unfold xpath_engine.prepare_step13
  exact byteLen_appendIf _ _ _

theorem byteLen_le_stepXpath14 (d : Str) :
    byteLen d ≤ byteLen (xpath_engine.prepare_step14 d) := by
  unfold xpath_engine.prepare_step14
  exact byteLen_appendIf _ _ _

theorem byteLen_le_stepXpath15 (d : Str) :
    byteLen d ≤ byteLen (xpath_engine.prepare_step15 d) := by
  unfold xpath_engine.prepare_step15
  exact byteLen_appendIf _ _ _

theorem byteLen_le_prepare_xpath (e : Str) :
    byteLen e ≤ byteLen (xpath_engine.prepare_todo_execution e) := by
  unfold xpath_engine.prepare_todo_execution
  try dsimp only
  refine le_trans ?_ ( byteLen_le_of_prefix (List.prefix_append _ _))
  refine le_trans ?_ ( byteLen_le_of_prefix (List.prefix_append _ _))
  refine le_trans ?_ ( byteLen_le_of_prefix (List.prefix_append _ _))
  refine le_trans ?_ ( byteLen_le_of_prefix (List.prefix_append _ _))
  refine le_trans ?_ ( byteLen_le_of_prefix (List.prefix_append _ _))
  refine le_trans ?_ ( byteLen_le_of_prefix (List.prefix_append _ _))
  refine le_trans ?_ ( byteLen_le_of_prefix (List.prefix_append _ _))
  refine le_trans ?_ ( byteLen_le_of_prefix (List.prefix_append _ _))
  refine le_trans ?_ (byteLen_le_stepXpath15 _)
  refine le_trans ?_ (byteLen_le_stepXpath14 _)
  refine le_trans ?_ (byteLen_le_stepXpath13 _)
  refine le_trans ?_ (byteLen_le_stepXpath12 _)
  refine le_trans ?_ (byteLen_le_stepXpath11 _)
  refine le_trans ?_ (byteLen_le_stepXpath10 _)
  refine le_trans ?_ (byteLen_le_stepXpath9 _)
  refine le_trans ?_ (byteLen_le_stepXpath8 _)
  refine le_trans ?_ (byteLen_le_stepXpath7 _)
  refine le_trans ?_ (byteLen_le_stepXpath6 _)
  refine le_trans ?_ (byteLen_le_stepXpath5 _)
  refine le_trans ?_ (byteLen_le_stepXpath4 _)
  refine le_trans ?_ (byteLen_le_stepXpath3 _)
  refine le_trans ?_ (byteLen_le_stepXpath2 _)
  refine le_trans ?_ (byteLen_le_stepXpath1 _)
  exact Nat.le_refl _
theorem byteLen_le_stepRedirect1 (d : Str) :
    byteLen d ≤ byteLen (redirect_engine.prepare_step1 d) := by
  unfold redirect_engine.prepare_step1
  exact byteLen_appendIf _ _ _

theorem byteLen_le_stepRedirect2 (d : Str) :
    byteLen d ≤ byteLen (redirect_engine.prepare_step2 d) := by
  unfold redirect_engine.prepare_step2
  exact byteLen_appendIf _ _ _

theorem byteLen_le_stepRedirect3 (d : Str) :
    byteLen d ≤ byteLen (redirect_engine.prepare_step3 d) := by
  unfold redirect_engine.prepare_step3
  exact byteLen_appendIf _ _ _

theorem byteLen_le_stepRedirect4 (d : Str) :
    byteLen d ≤ byteLen (redirect_engine.prepare_step4 d) := by
  unfold redirect_engine.prepare_step4
  exact byteLen_appendIf _ _ _

theorem byteLen_le_stepRedirect5 (d : Str) :
    byteLen d ≤ byteLen (redirect_engine.prepare_step5 d) := by
  unfold redirect_engine.prepare_step5
  exact byteLen_appendIf _ _ _

theorem byteLen_le_stepRedirect6 (d : Str) :
    byteLen d ≤ byteLen (redirect_engine.prepare_step6 d) := by
  unfold redirect_engine.prepare_step6
  exact byteLen_appendIf _ _ _

theorem byteLen_le_stepRedirect7 (d : Str) :
    byteLen d ≤ byteLen (redirect_engine.prepare_step7 d) := by
  unfold redirect_engine.prepare_step7
  exact byteLen_appendIf _ _ _

theorem byteLen_le_stepRedirect8 (d : Str) :
    byteLen d ≤ byteLen (redirect_engine.prepare_step8 d) := by
  unfold redirect_engine.prepare_step8
  exact byteLen_appendIf _ _ _

theorem byteLen_le_stepRedirect9 (d : Str) :
    byteLen d ≤ byteLen (redirect_engine.prepare_step9 d) := by
  unfold redirect_engine.prepare_step9
  exact byteLen_replaceOrAppend _ _ _ _ _ (by decide)

theorem byteLen_le_stepRedirect10 (d : Str) :
    byteLen d ≤ byteLen (redirect_engine.prepare_step10 d) := by
  unfold redirect_engine.prepare_step10
  exact byteLen_appendIf _ _ _

theorem byteLen_le_stepRedirect11 (d : Str) :
    byteLen d ≤ byteLen (redirect_engine.prepare_step11 d) := by
  unfold redirect_engine.prepare_step11
  exact byteLen_appendIf _ _ _

theorem byteLen_le_stepRedirect12 (d : Str) :
    byteLen d ≤ byteLen (redirect_engine.prepare_step12 d) := by
  unfold redirect_engine.prepare_step12
  exact byteLen_appendIf _ _ _

theorem byteLen_le_stepRedirect13 (d : Str) :
    byteLen d ≤ byteLen (redirect_engine.prepare_step13 d) := by
  unfold redirect_engine.prepare_step13
  exact byteLen_appendIf _ _ _

theorem byteLen_le_stepRedirect14 (d : Str) :
    byteLen d ≤ byteLen (redirect_engine.prepare_step14 d) := by
  unfold redirect_engine.prepare_step14
  exact byteLen_appendIf _ _ _

theorem byteLen_le_stepRedirect15 (d : Str) :
    byteLen d ≤ byteLen (redirect_engine.prepare_step15 d) := by
  unfold redirect_engine.prepare_step15
  exact byteLen_appendIf _ _ _

theorem byteLen_le_prepare_redirect (e : Str) :
    byteLen e ≤ byteLen (redirect_engine.prepare_todo_redirect_execution e) := by
  unfold redirect_engine.prepare_todo_redirect_execution
  try dsimp only
  refine le_trans ?_ ( byteLen_le_of_prefix (List.prefix_append _ _))
  refine le_trans ?_ ( byteLen_le_of_prefix (List.prefix_append _ _))
  refine le_trans ?_ ( byteLen_le_of_prefix (List.prefix_append _ _))
  refine le_trans ?_ ( byteLen_le_of_prefix (List.prefix_append _ _))
  refine le_trans ?_ ( byteLen_le_of_prefix (List.prefix_append _ _))
  refine le_trans ?_ ( byteLen_le_of_prefix (List.prefix_append _ _))
  refine le_trans ?_ ( byteLen_le_of_prefix (List.prefix_append _ _))
  refine le_trans ?_ ( byteLen_le_of_prefix (List.prefix_append _ _))
  refine le_trans ?_ (byteLen_le_stepRedirect15 _)
  refine le_trans ?_ (byteLen_le_stepRedirect14 _)
  refine le_trans ?_ (byteLen_le_stepRedirect13 _)
  refine le_trans ?_ (byteLen_le_stepRedirect12 _)
  refine le_trans ?_ (byteLen_le_stepRedirect11 _)
  refine le_trans ?_ (byteLen_le_stepRedirect10 _)
  refine le_trans ?_ (byteLen_le_stepRedirect9 _)
  refine le_trans ?_ (byteLen_le_stepRedirect8 _)
  refine le_trans ?_ (byteLen_le_stepRedirect7 _)
  refine le_trans ?_ (byteLen_le_stepRedirect6 _)
  refine le_trans ?_ (byteLen_le_stepRedirect5 _)
  refine le_trans ?_ (byteLen_le_stepRedirect4 _)
  refine le_trans ?_ (byteLen_le_stepRedirect3 _)
  refine le_trans ?_ (byteLen_le_stepRedirect2 _)
  refine le_trans ?_ (byteLen_le_stepRedirect1 _)
  exact Nat.le_refl _
theorem byteLen_le_stepStream1 (d : Str) :
    byteLen d ≤ byteLen (stream_processor.prepare_step1 d) := by
  unfold stream_processor.prepare_step1
  exact byteLen_appendIf _ _ _

theorem byteLen_le_stepStream2 (d : Str) :
    byteLen d ≤ byteLen (stream_processor.prepare_step2 d) := by
  unfold stream_processor.prepare_step2
  exact byteLen_appendIf _ _ _

theorem byteLen_le_stepStream3 (d : Str) :
    byteLen d ≤ byteLen (stream_processor.prepare_step3 d) := by
  unfold stream_processor.prepare_step3
  exact byteLen_appendIf _ _ _

theorem byteLen_le_stepStream4 (d : Str) :
    byteLen d ≤ byteLen (stream_processor.prepare_step4 d) := by
  unfold stream_processor.prepare_step4
  exact byteLen_appendIf _ _ _

theorem byteLen_le_stepStream5 (d : Str) :
    byteLen d ≤ byteLen (stream_processor.prepare_step5 d) := by
  unfold stream_processor.prepare_step5
  exact byteLen_appendIf _ _ _

theorem byteLen_le_stepStream6 (d : Str) :
    byteLen d ≤ byteLen (stream_processor.prepare_step6 d) := by
  unfold stream_processor.prepare_step6
  exact byteLen_appendIf _ _ _

theorem byteLen_le_stepStream7 (d : Str) :
    byteLen d ≤ byteLen (stream_processor.prepare_step7 d) := by
  unfold stream_processor.prepare_step7
  exact byteLen_appendIf _ _ _

theorem byteLen_le_stepStream8 (d : Str) :
    byteLen d ≤ byteLen (stream_processor.prepare_step8 d) := by
  unfold stream_processor.prepare_step8
  exact byteLen_appendIf _ _ _

theorem byteLen_le_stepStream9 (d : Str) :
    byteLen d ≤ byteLen (stream_processor.prepare_step9 d) := by
  unfold stream_processor.prepare_step9
  exact byteLen_appendIf _ _ _

theorem byteLen_le_stepStream10 (d : Str) :
    byteLen d ≤ byteLen (stream_processor.prepare_step10 d) := by
  unfold stream_processor.prepare_step10
  exact byteLen_replaceOrAppend _ _ _ _ _ (by decide)

theorem byteLen_le_stepStream11 (d : Str) :
    byteLen d ≤ byteLen (stream_processor.prepare_step11 d) := by
  unfold stream_processor.prepare_step11
  exact byteLen_appendIf _ _ _

theorem byteLen_le_stepStream12 (d : Str) :
    byteLen d ≤ byteLen (stream_processor.prepare_step12 d) := by
  unfold stream_processor.prepare_step12
  exact byteLen_appendIf _ _ _

theorem byteLen_le_stepStream13 (d : Str) :
    byteLen d ≤ byteLen (stream_processor.prepare_step13 d) := by
  unfold stream_processor.prepare_step13
  exact byteLen_appendIf _ _ _

theorem byteLen_le_optimize_stream (e : Str) :
    byteLen e ≤ byteLen (stream_processor.optimize_data_flow e) := by
  unfold stream_processor.optimize_data_flow
  try dsimp only
  refine le_trans ?_ ( byteLen_le_of_prefix (List.prefix_append _ _))
  refine le_trans ?_ ( byteLen_le_of_prefix (List.prefix_append _ _))
  refine le_trans ?_ ( byteLen_le_of_prefix (List.prefix_append _ _))
  refine le_trans ?_ ( byteLen_le_of_prefix (List.prefix_append _ _))
  refine le_trans ?_ ( byteLen_le_of_prefix (List.prefix_append _ _))
  refine le_trans ?_ ( byteLen_le_of_prefix (List.prefix_append _ _))
  refine le_trans ?_ ( byteLen_le_of_prefix (List.prefix_append _ _))
  refine le_trans ?_ ( byteLen_le_of_prefix (List.prefix_append _ _))
  refine le_trans ?_ (byteLen_le_stepStream13 _)
  refine le_trans ?_ (byteLen_le_stepStream12 _)
  refine le_trans ?_ (byteLen_le_stepStream11 _)
  refine le_trans ?_ (byteLen_le_stepStream10 _)
  refine le_trans ?_ (byteLen_le_stepStream9 _)
  refine le_trans ?_ (byteLen_le_stepStream8 _)
  refine le_trans ?_ (byteLen_le_stepStream7 _)
  refine le_trans ?_ (byteLen_le_stepStream6 _)
  refine le_trans ?_ (byteLen_le_stepStream5 _)
  refine le_trans ?_ (byteLen_le_stepStream4 _)
  refine le_trans ?_ (byteLen_le_stepStream3 _)
  refine le_trans ?_ (byteLen_le_stepStream2 _)
  refine le_trans ?_ (byteLen_le_stepStream1 _)
  exact Nat.le_refl _

theorem byteLen_lt_final_sql (s : Str) (t : Int) :
    byteLen s < byteLen (sql_engine.finalData t s) := by
  have h1 := byteLen_lt_parse_sql s
  have h2 := byteLen_le_of_prefix (prefix_enrich_sql t (sql_engine.parse_todo_sql_request s))
  have h3 := byteLen_le_prepare_sql
    (sql_engine.enrich_todo_context t (sql_engine.parse_todo_sql_request s))
  exact lt_of_lt_of_le h1 (le_trans h2 h3)

-- ### Growth lemmas for the XPath, redirect and stream pipelines

theorem byteLen_lt_parse_xpath (s : Str) :
    byteLen s < byteLen (xpath_engine.parse_todo_request s) := by
  unfold xpath_engine.parse_todo_request
  dsimp only
  rw [byteLen_append, byteLen_append]
  have hpos : 0 < byteLen " -- ".toList := by decide
  omega

theorem prefix_enrich_xpath (t : Int) (p : Str) :
    p <+: xpath_engine.enrich_todo_context t p := by
  unfold xpath_engine.enrich_todo_context
  dsimp only
  simp only [List.append_assoc]
  exact List.prefix_append _ _

theorem byteLen_lt_final_xpath (s : Str) (t : Int) :
    byteLen s < byteLen (xpath_engine.finalData t s) := by
  have h1 := byteLen_lt_parse_xpath s
  have h2 := byteLen_le_of_prefix (prefix_enrich_xpath t (xpath_engine.parse_todo_request s))
  have h3 := byteLen_le_prepare_xpath
    (xpath_engine.enrich_todo_context t (xpath_engine.parse_todo_request s))
  exact lt_of_lt_of_le h1 (le_trans h2 h3)

theorem byteLen_lt_parse_redirect (s : Str) :
    byteLen s < byteLen (redirect_engine.parse_todo_redirect_request s) := by
  unfold redirect_engine.parse_todo_redirect_request
  dsimp only
  rw [byteLen_append, byteLen_append]
  have hpos : 0 < byteLen " -- ".toList := by decide
  omega

theorem prefix_enrich_redirect (t : Int) (p : Str) :
    p <+: redirect_engine.enrich_todo_redirect_context t p := by
  unfold redirect_engine.enrich_todo_redirect_context
  dsimp only
  simp only [List.append_assoc]
  exact List.prefix_append _ _

theorem byteLen_lt_final_redirect (s : Str) (t : Int) :
    byteLen s < byteLen (redirect_engine.finalData t s) := by
  have h1 := byteLen_lt_parse_redirect s
  have h2 := byteLen_le_of_prefix
    (prefix_enrich_redirect t (redirect_engine.parse_todo_redirect_request s))
  have h3 := byteLen_le_prepare_redirect
    (redirect_engine.enrich_todo_redirect_context t
      (redirect_engine.parse_todo_redirect_request s))
  exact lt_of_lt_of_le h1 (le_trans h2 h3)

theorem byteLen_lt_parse_stream (s : Str) :
    byteLen s < byteLen (stream_processor.process_data_stream s) := by
  unfold stream_processor.process_data_stream
  dsimp only
  rw [byteLen_append, byteLen_append]
  have hpos : 0 < byteLen " -- ".toList := by decide
  omega

theorem prefix_enrich_stream (t : Int) (p : Str) :
    p <+: stream_processor.enhance_data_processing t p := by
  unfold stream_processor.enhance_data_processing
  dsimp only
  simp only [List.append_assoc]
  exact List.prefix_append _ _

theorem byteLen_lt_final_stream (s : Str) (t : Int) :
    byteLen s < byteLen (stream_processor.finalData t s) := by
  have h1 := byteLen_lt_parse_stream s
  have h2 := byteLen_le_of_prefix
    (prefix_enrich_stream t (stream_processor.process_data_stream s))
  have h3 := byteLen_le_optimize_stream
    (stream_processor.enhance_data_processing t (stream_processor.process_data_stream s))
  exact lt_of_lt_of_le h1 (le_trans h2 h3)

-- ### Claim theorems

set_option maxRecDepth 1000000

/-- C1 (counterexample): the taint-preservation claim is false as stated.  On
input `a&&b` the command pipeline's finalize stage rewrites `&&` to ` ; `, so
the final output (timestamp 0, Linux build) does not contain the input as a
contiguous substring: `containsSub` is the embedding of Rust `str::contains`,
and `containsSub_iff` identifies it with list-infix containment. -/
theorem c1_counterexample :
    containsSub (command_engine.finalData 0 Os.linux "a&&b".toList)
      "a&&b".toList = false := by
  decide

/-- C1 (amended): pipeline outputs contain the raw input as a contiguous
substring only when the input avoids the tokens the stages rewrite: the
command finalize stage replaces both `&&` and `||` by ` ; `, the path parse
stage replaces `path` by `processed_path` and its finalize stage replaces
`unsafe` by `optimized`.  For the command pipeline preservation holds for
every input without `&` and `|` characters; for the path pipeline it holds
when `path` does not occur in the input and `unsafe` does not occur
(case-insensitively) in the enriched data. -/
theorem c1_taint_preservation_amended :
    (∀ (s : Str) (t : Int) (os : Os), '&' ∉ s → '|' ∉ s →
      s <:+: command_engine.finalData t os s) ∧
    (∀ (s : Str) (t : Int), ¬ ("path".toList <:+: s) →
      ¬ ("unsafe".toList <:+: lowerStr (path_engine.enrich_path_context t
        (path_engine.parse_path_request s))) →
      s <:+: path_engine.finalData t s) := by
  constructor
  · intro s t os h1 h2
    exact (prefix_final_command s t os (noAmp_of_not_mem h1 h2)).isInfix
  · intro s t h1 h2
    have hrepl : replaceAll "path".toList "processed_path".toList s = s :=
      replaceAll_of_not_contains _ _ _ h1
    have hparse : s <+: path_engine.parse_path_request s := by
      unfold path_engine.parse_path_request
      dsimp only
      rw [hrepl]
      simp only [List.append_assoc]
      exact List.prefix_append _ _
    have hE := hparse.trans (prefix_enrich_path t (path_engine.parse_path_request s))
    have hcond : containsSub (lowerStr (path_engine.enrich_path_context t
        (path_engine.parse_path_request s))) "unsafe".toList = false :=
      (containsSub_eq_false _ _).mpr h2
    show s <:+: path_engine.prepare_path_execution _
    unfold path_engine.prepare_path_execution
    rw [hcond]
    simp only [Bool.false_eq_true, if_false]
    exact hE.isInfix.trans (List.suffix_append _ _).isInfix

/-- C1 (witness): the amended statement applied at input `hello`, timestamp 0. -/
theorem c1_witness :
    ('&' ∉ "hello".toList ∧ '|' ∉ "hello".toList ∧
      "hello".toList <:+: command_engine.finalData 0 Os.linux "hello".toList) ∧
    (¬ ("path".toList <:+: "hello".toList) ∧
      ¬ ("unsafe".toList <:+: lowerStr (path_engine.enrich_path_context 0
        (path_engine.parse_path_request "hello".toList))) ∧
      "hello".toList <:+: path_engine.finalData 0 "hello".toList) := by
  have hp : ¬ ("path".toList <:+: "hello".toList) := by
    intro h
    exact absurd ((containsSub_iff _ _).mpr h) (by decide)
  have hu : ¬ ("unsafe".toList <:+: lowerStr (path_engine.enrich_path_context 0
      (path_engine.parse_path_request "hello".toList))) := by
    intro h
    exact absurd ((containsSub_iff _ _).mpr h) (by decide)
  exact ⟨⟨by decide, by decide,
      c1_taint_preservation_amended.1 "hello".toList 0 Os.linux (by decide) (by decide)⟩,
    ⟨hp, hu, c1_taint_preservation_amended.2 "hello".toList 0 hp hu⟩⟩

/-- C2: every sink of every pipeline — both command sinks, both path sinks,
both SQL sinks, both redirect sinks, all three XPath sinks, all three
FFI/stream sinks and both directory/LDAP sinks — formats its status string
with the byte length of exactly the data it is handed; every handler hands
its sinks the final, fully-transformed pipeline output; and per scenario
that byte count is the final output's length, not the original input's: for
the command, path, SQL, XPath, redirect and stream pipelines the final
output is strictly longer than the input for every input, and for the
directory pipeline the reported length differs from the input's length at
the nonempty payload `x` (whose final output is empty). -/
theorem c2_sink_status_reports_final_length :
    (∀ d : Str,
      command_engine.execute_first_command_operation d =
        "First command operation completed: ".toList ++ natStr (byteLen d) ++
          " bytes".toList ∧
      command_engine.execute_second_command_operation d =
        "Second command operation completed: ".toList ++ natStr (byteLen d) ++
          " bytes".toList ∧
      path_engine.execute_first_path_operation d =
        "First path operation completed: ".toList ++ natStr (byteLen d) ++
          " bytes".toList ∧
      path_engine.execute_second_path_operation d =
        "Second path operation completed: ".toList ++ natStr (byteLen d) ++
          " bytes".toList ∧
      sql_engine.execute_first_todo_operation d =
        "First todo SQL operation completed: ".toList ++ natStr (byteLen d) ++
          " bytes".toList ∧
      sql_engine.execute_second_todo_operation d =
        "Second todo SQL operation completed: ".toList ++ natStr (byteLen d) ++
          " bytes".toList ∧
      (∀ pf : Str → Bool,
        (redirect_engine.execute_first_redirect_operation pf d).status =
          "First todo redirect operation completed: ".toList ++ natStr (byteLen d) ++
            " bytes".toList ∧
        (redirect_engine.execute_second_redirect_operation pf d).status =
          "Second todo redirect operation completed: ".toList ++ natStr (byteLen d) ++
            " bytes".toList) ∧
      xpath_engine.execute_primary_task_validation d =
        "First task validation operation completed: ".toList ++ natStr (byteLen d) ++
          " bytes".toList ∧
      xpath_engine.execute_secondary_task_validation d =
        "Second task validation operation completed: ".toList ++ natStr (byteLen d) ++
          " bytes".toList ∧
      xpath_engine.execute_tertiary_task_validation d =
        "Third task validation operation completed: ".toList ++ natStr (byteLen d) ++
          " bytes".toList ∧
      stream_processor.execute_primary_connectivity d =
        "First configuration operation completed: ".toList ++ natStr (byteLen d) ++
          " bytes".toList ∧
      stream_processor.execute_secondary_connectivity d =
        "Second configuration operation completed: ".toList ++ natStr (byteLen d) ++
          " bytes".toList ∧
      stream_processor.execute_tertiary_connectivity d =
        "Third configuration operation completed: ".toList ++ natStr (byteLen d) ++
          " bytes".toList ∧
      directory_engine.execute_primary_identity_operation ⟨true, true⟩ d =
        some ("First identity operation completed: ".toList ++ natStr (byteLen d) ++
          " bytes".toList) ∧
      directory_engine.execute_secondary_identity_operation ⟨true, true⟩ d =
        some ("Second identity operation completed: ".toList ++ natStr (byteLen d) ++
          " bytes".toList)) ∧
    (∀ (t : Int) (os : Os) (s : Str),
      command_engine.handle_command_operations t os s =
        Except.ok ("Command operations completed: ".toList ++
          ("First command operation completed: ".toList ++
            natStr (byteLen (command_engine.finalData t os s)) ++ " bytes".toList) ++
          ", ".toList ++
          ("Second command operation completed: ".toList ++
            natStr (byteLen (command_engine.finalData t os s)) ++ " bytes".toList))) ∧
    (∀ (t : Int) (s : Str),
      path_engine.handle_path_operations t s =
        Except.ok ("Path operations completed: ".toList ++
          ("First path operation completed: ".toList ++
            natStr (byteLen (path_engine.finalData t s)) ++ " bytes".toList) ++
          ", ".toList ++
          ("Second path operation completed: ".toList ++
            natStr (byteLen (path_engine.finalData t s)) ++ " bytes".toList))) ∧
    (∀ (t : Int) (s : Str),
      sql_engine.handle_sql_operations t s =
        Except.ok ("Todo SQL operations completed: ".toList ++
          ("First todo SQL operation completed: ".toList ++
            natStr (byteLen (sql_engine.finalData t s)) ++ " bytes".toList) ++
          ", ".toList ++
          ("Second todo SQL operation completed: ".toList ++
            natStr (byteLen (sql_engine.finalData t s)) ++ " bytes".toList))) ∧
    (∀ (pf : Str → Bool) (t : Int) (s : Str),
      redirect_engine.handle_redirect_operations pf t s =
        Except.ok ("Todo redirect operations completed: ".toList ++
          ("First todo redirect operation completed: ".toList ++
            natStr (byteLen (redirect_engine.finalData t s)) ++ " bytes".toList) ++
          ", ".toList ++
          ("Second todo redirect operation completed: ".toList ++
            natStr (byteLen (redirect_engine.finalData t s)) ++ " bytes".toList))) ∧
    (∀ (t : Int) (s : Str),
      xpath_engine.handle_todo_item_operations t s =
        Except.ok ("Todo item operations completed: ".toList ++
          ("First task validation operation completed: ".toList ++
            natStr (byteLen (xpath_engine.finalData t s)) ++ " bytes".toList) ++
          ", ".toList ++
          ("Second task validation operation completed: ".toList ++
            natStr (byteLen (xpath_engine.finalData t s)) ++ " bytes".toList) ++
          ", ".toList ++
          ("Third task validation operation completed: ".toList ++
            natStr (byteLen (xpath_engine.finalData t s)) ++ " bytes".toList))) ∧
    (∀ (t : Int) (s : Str),
      stream_processor.handle_system_integration_operations t s =
        Except.ok ("Integration operations completed: ".toList ++
          ("First configuration operation completed: ".toList ++
            natStr (byteLen (stream_processor.finalData t s)) ++ " bytes".toList) ++
          ", ".toList ++
          ("Second configuration operation completed: ".toList ++
            natStr (byteLen (stream_processor.finalData t s)) ++ " bytes".toList) ++
          ", ".toList ++
          ("Third configuration operation completed: ".toList ++
            natStr (byteLen (stream_processor.finalData t s)) ++ " bytes".toList))) ∧
    (∀ s : Str,
      directory_engine.handle_directory_synchronization_operations ⟨true, true⟩ s =
        some (Except.ok ("Identity operations completed: ".toList ++
          ("First identity operation completed: ".toList ++
            natStr (byteLen (directory_engine.finalData s)) ++ " bytes".toList) ++
          ", ".toList ++
          ("Second identity operation completed: ".toList ++
            natStr (byteLen (directory_engine.finalData s)) ++ " bytes".toList)))) ∧
    (∀ (t : Int) (os : Os) (s : Str),
      byteLen s < byteLen (command_engine.finalData t os s)) ∧
    (∀ (t : Int) (s : Str), byteLen s < byteLen (path_engine.finalData t s)) ∧
    (∀ (t : Int) (s : Str), byteLen s < byteLen (sql_engine.finalData t s)) ∧
    (∀ (t : Int) (s : Str), byteLen s < byteLen (xpath_engine.finalData t s)) ∧
    (∀ (t : Int) (s : Str), byteLen s < byteLen (redirect_engine.finalData t s)) ∧
    (∀ (t : Int) (s : Str), byteLen s < byteLen (stream_processor.finalData t s)) ∧
    byteLen (directory_engine.finalData "x".toList) ≠ byteLen "x".toList := by
  refine ⟨fun d => ⟨rfl, rfl, rfl, rfl, rfl, rfl, fun pf => ⟨rfl, rfl⟩,
      rfl, rfl, rfl, rfl, rfl, rfl, rfl, rfl⟩,
    fun t os s => rfl, fun t s => rfl, fun t s => rfl, fun pf t s => rfl,
    fun t s => rfl, fun t s => rfl, fun s => rfl,
    fun t os s => byteLen_lt_final_command s t os,
    fun t s => byteLen_lt_final_path s t,
    fun t s => byteLen_lt_final_sql s t,
    fun t s => byteLen_lt_final_xpath s t,
    fun t s => byteLen_lt_final_redirect s t,
    fun t s => byteLen_lt_final_stream s t,
    by decide⟩

/-- C3 (counterexample): the scheme-less payload `example.com` is handed to
the URI parser of the first redirect sink as part of the final pipeline
output, which does not start with `http://` — no default scheme is ever
prepended (`List.isPrefixOf` decides list-prefix containment). -/
theorem c3_counterexample :
    List.isPrefixOf "http://".toList
      ((redirect_engine.execute_first_redirect_operation (fun _ => true)
        (redirect_engine.finalData 0 "example.com".toList)).parsed) = false := by
  decide

/-- C3 (amended): the redirect sinks hand the final pipeline output to the
URI parser exactly as it is; no `http://` (or any other) prefix is added to a
scheme-less payload. -/
theorem c3_no_scheme_prefixing_amended :
    ∀ (pf : Str → Bool) (d : Str),
      (redirect_engine.execute_first_redirect_operation pf d).parsed = d ∧
      (redirect_engine.execute_second_redirect_operation pf d).parsed = d :=
  fun _ _ => ⟨rfl, rfl⟩

/-- C4: when the final redirect pipeline output fails to parse as a URI,
neither sink builds a redirect value, no error is raised, and
`handle_redirect_operations` still returns `Ok` with the two sink-status
strings. -/
theorem c4_redirect_parse_failure_silent :
    ∀ (pf : Str → Bool) (t : Int) (s : Str),
      pf (redirect_engine.finalData t s) = false →
      (redirect_engine.execute_first_redirect_operation pf
        (redirect_engine.finalData t s)).redirected = false ∧
      (redirect_engine.execute_second_redirect_operation pf
        (redirect_engine.finalData t s)).redirected = false ∧
      redirect_engine.handle_redirect_operations pf t s =
        Except.ok ("Todo redirect operations completed: ".toList ++
          (redirect_engine.execute_first_redirect_operation pf
            (redirect_engine.finalData t s)).status ++ ", ".toList ++
          (redirect_engine.execute_second_redirect_operation pf
            (redirect_engine.finalData t s)).status) :=
  fun _ _ _ h => ⟨h, h, rfl⟩

/-- C4 (witness): instantiated with a parser that rejects everything and the
empty payload. -/
theorem c4_witness :
    ((fun _ : Str => false) (redirect_engine.finalData 0 []) = false) ∧
    (redirect_engine.execute_first_redirect_operation (fun _ => false)
      (redirect_engine.finalData 0 [])).redirected = false ∧
    (redirect_engine.execute_second_redirect_operation (fun _ => false)
      (redirect_engine.finalData 0 [])).redirected = false ∧
    redirect_engine.handle_redirect_operations (fun _ => false) 0 [] =
      Except.ok ("Todo redirect operations completed: ".toList ++
        (redirect_engine.execute_first_redirect_operation (fun _ => false)
          (redirect_engine.finalData 0 [])).status ++ ", ".toList ++
        (redirect_engine.execute_second_redirect_operation (fun _ => false)
          (redirect_engine.finalData 0 [])).status) :=
  ⟨rfl, c4_redirect_parse_failure_silent (fun _ => false) 0 [] rfl⟩

/-- C5 (counterexample): `add_todo` draws ids from an `AtomicUsize` counter
whose `fetch_add(1)` wraps at `usize::MAX`, and `from_hashmap` seeds it with
a wrapping `max key + 1`.  Seeded from a map holding the key
`usize::MAX - 1 = 2^64 - 2`, two successive `add_todo` calls assign the ids
`2^64 - 1` and then `0`: the assigned ids are not strictly increasing. -/
theorem c5_counterexample :
    assignedIds
      (TodoStore.from_hashmap
        [(18446744073709551614, ⟨18446744073709551614, ⟨[], [], [], false⟩⟩)])
      [StoreOp.add ⟨[], [], [], false⟩, StoreOp.add ⟨[], [], [], false⟩] =
      [18446744073709551615, 0] := by
  decide

/-- C5 (amended): as long as the id counter cannot wrap — the starting
counter plus the number of `add_todo` calls stays within `usize::MAX + 1` —
the ids assigned over any sequence of `add_todo`/`remove_todo` operations are
strictly increasing (hence never repeated); and for a store seeded via
`from_hashmap` from keys below `usize::MAX`, every assigned id is strictly
larger than every pre-existing key. -/
theorem c5_ids_strictly_increasing :
    (∀ (init : TodoStore) (ops : List StoreOp),
      init.id_generator + countAdds ops ≤ usizeSize →
      (assignedIds init ops).Pairwise (· < ·)) ∧
    (∀ (m : List (Nat × IdentifyableTodoItem)) (ops : List StoreOp) (k : Nat),
      k ∈ m.map Prod.fst →
      (∀ k' ∈ m.map Prod.fst, k' + 1 < usizeSize) →
      (TodoStore.from_hashmap m).id_generator + countAdds ops ≤ usizeSize →
      ∀ i ∈ assignedIds (TodoStore.from_hashmap m) ops, k < i) := by
  have main : ∀ (ops : List StoreOp) (st : TodoStore),
      st.id_generator + countAdds ops ≤ usizeSize →
      (assignedIds st ops).Pairwise (· < ·) := by
    intro ops
    induction ops with
    | nil => intro st h; simp [assignedIds, runOps]
    | cons op rest ih =>
      intro st h
      cases op with
      | add todo =>
        simp only [countAdds] at h
        simp only [assignedIds, runOps]
        rcases Nat.lt_or_ge (st.id_generator + 1) usizeSize with hlt | hge
        · have hgen : (st.add_todo todo).2.id_generator = st.id_generator + 1 := by
            rw [add_todo_id_generator, Nat.mod_eq_of_lt hlt]
          refine List.Pairwise.cons ?_ (ih (st.add_todo todo).2 (by rw [hgen]; omega))
          intro j hj
          have hr := assignedIds_ge rest (st.add_todo todo).2 (by rw [hgen]; omega) j hj
          rw [hgen] at hr
          rw [add_todo_fst_id]
          omega
        · have hz : countAdds rest = 0 := by omega
          have hnil : assignedIds (st.add_todo todo).2 rest = [] :=
            assignedIds_eq_nil rest _ hz
          have hnil' : (runOps (st.add_todo todo).2 rest).2 = [] := hnil
          rw [hnil']
          exact List.pairwise_singleton _ _
      | remove id =>
        simp only [countAdds] at h
        simpa only [assignedIds, runOps] using
          ih (st.remove_todo id).2 (by rw [remove_todo_id_generator]; omega)
  refine ⟨fun init ops h => main ops init h, ?_⟩
  intro m ops k hk hbound h i hi
  have hge := assignedIds_ge ops (TodoStore.from_hashmap m) h i hi
  have hgen : k < (TodoStore.from_hashmap m).id_generator := by
    unfold TodoStore.from_hashmap
    cases hmax : (m.map Prod.fst).max? with
    | none =>
      rw [List.max?_eq_none_iff] at hmax
      rw [hmax] at hk
      simp at hk
    | some v =>
      obtain ⟨hvmem, hvb⟩ := List.max?_eq_some_iff'.mp hmax
      have hkv := hvb k hk
      have hv1 := hbound v hvmem
      simp only [hmax]
      rw [Nat.mod_eq_of_lt hv1]
      omega
  omega

/-- C5 (witness): the no-wrap hypothesis and the amended conclusion at a
fresh store and two `add_todo` calls. -/
theorem c5_witness :
    (TodoStore.mk [] 0).id_generator +
        countAdds [StoreOp.add ⟨[], [], [], false⟩, StoreOp.add ⟨[], [], [], false⟩] ≤
      usizeSize ∧
    (assignedIds (TodoStore.mk [] 0)
      [StoreOp.add ⟨[], [], [], false⟩, StoreOp.add ⟨[], [], [], false⟩]).Pairwise (· < ·) :=
  ⟨by decide, c5_ids_strictly_increasing.1 (TodoStore.mk [] 0)
    [StoreOp.add ⟨[], [], [], false⟩, StoreOp.add ⟨[], [], [], false⟩] (by decide)⟩

/-- C6: `update_todo` on an id absent from the store returns the not-found
outcome `none`, raises nothing, and returns the store completely unchanged. -/
theorem c6_update_absent_id :
    ∀ (st : TodoStore) (id : Nat) (patch : UpdateTodoItem),
      st.store.lookup id = none →
      st.update_todo id patch = (none, st) := by
  intro st id patch h
  unfold TodoStore.update_todo
  rw [h]

/-- C6 (witness): updating id 0 of the empty store. -/
theorem c6_witness :
    (TodoStore.mk [] 0).store.lookup 0 = none ∧
    (TodoStore.mk [] 0).update_todo 0 ⟨none, none, none, none⟩ =
      (none, TodoStore.mk [] 0) :=
  ⟨rfl, c6_update_absent_id (TodoStore.mk [] 0) 0 ⟨none, none, none, none⟩ rfl⟩

/-- C7: on input `ls -la` the command pipeline's final output contains
`CMD_TYPE=LISTING`, `PRIORITY=NORMAL` and the literal `ls -la`, and
`handle_command_operations` returns `Ok` with the two sink-status strings,
each reporting the final transformed string's byte length — for any
timestamp and target OS. -/
theorem c7_ls_la_end_to_end :
    ∀ (t : Int) (os : Os),
      "CMD_TYPE=LISTING".toList <:+: command_engine.finalData t os "ls -la".toList ∧
      "PRIORITY=NORMAL".toList <:+: command_engine.finalData t os "ls -la".toList ∧
      "ls -la".toList <:+: command_engine.finalData t os "ls -la".toList ∧
      command_engine.handle_command_operations t os "ls -la".toList =
        Except.ok ("Command operations completed: ".toList ++
          ("First command operation completed: ".toList ++
            natStr (byteLen (command_engine.finalData t os "ls -la".toList)) ++
            " bytes".toList) ++ ", ".toList ++
          ("Second command operation completed: ".toList ++
            natStr (byteLen (command_engine.finalData t os "ls -la".toList)) ++
            " bytes".toList)) := by
  intro t os
  have hnos : noAmp "ls -la".toList = true := by decide
  have hE : noAmp (command_engine.enrich_command_context t os
      (command_engine.parse_command_request "ls -la".toList)) = true :=
    noAmp_enrich_command t os _ (noAmp_parse_command _ hnos)
  obtain ⟨hA, hP⟩ := not_mem_of_noAmp hE
  have h1 := (containsSub_eq_false _ _).mpr
    (not_infix_of_not_mem (show '&' ∈ "&&".toList by decide) hA)
  have h2 := (containsSub_eq_false _ _).mpr
    (not_infix_of_not_mem (show '|' ∈ "||".toList by decide) hP)
  have hPE : command_engine.parse_command_request "ls -la".toList <+:
      command_engine.finalData t os "ls -la".toList :=
    (prefix_enrich_command t os _).trans (prefix_prepare_command _ h1 h2)
  refine ⟨?_, ?_, ?_, rfl⟩
  · exact ((containsSub_iff _ _).mp (by decide)).trans hPE.isInfix
  · exact ((containsSub_iff _ _).mp (by decide)).trans hPE.isInfix
  · exact (prefix_final_command _ t os hnos).isInfix

/-- C8 (counterexample): the monotonic-growth claim fails for the directory
engine's finalize stage: `optimize_identity_flow` maps the one-byte input `:`
to the empty string. -/
theorem c8_counterexample :
    byteLen (directory_engine.optimize_identity_flow ":".toList) <
      byteLen ":".toList := by
  decide

/-- C8 (amended): the finalize stages of the command, path, SQL, XPath,
redirect and FFI/stream pipelines produce outputs at least as long (in bytes)
as their inputs; the directory engine's finalize stage does not. -/
theorem c8_finalize_growth_amended :
    (∀ e : Str, byteLen e ≤ byteLen (command_engine.prepare_command_execution e)) ∧
    (∀ e : Str, byteLen e ≤ byteLen (path_engine.prepare_path_execution e)) ∧
    (∀ e : Str, byteLen e ≤ byteLen (sql_engine.prepare_todo_execution e)) ∧
    (∀ e : Str, byteLen e ≤ byteLen (xpath_engine.prepare_todo_execution e)) ∧
    (∀ e : Str, byteLen e ≤ byteLen (redirect_engine.prepare_todo_redirect_execution e)) ∧
    (∀ e : Str, byteLen e ≤ byteLen (stream_processor.optimize_data_flow e)) :=
  ⟨byteLen_le_prepare_command, byteLen_le_prepare_path, byteLen_le_prepare_sql,
    byteLen_le_prepare_xpath, byteLen_le_prepare_redirect, byteLen_le_optimize_stream⟩

/-- C9 (counterexample): not every failure is converted into a string `Err`.
With the UDP bind and receive succeeding and a nonempty payload, a failed
LDAP connection inside the directory engine's first sink is `unwrap`ped and
panics — the scenario entry point aborts instead of returning `Err`. -/
theorem c9_counterexample :
    process_directory_synchronization ⟨true, some "x".toList⟩ ⟨false, true⟩ = none := rfl

/-- C9 (amended): at every adapter boundary, bind/connect failures, receive
failures and empty payloads are recovered into the documented string `Err`
results — for the TCP path adapter, the UDP XPath, FFI/stream and directory
adapters, and the receive-failure branch of the Windows command, SQL and
redirect adapters; but an LDAP connection failure inside the directory
engine's sinks is not recovered — it panics (`unwrap`), so not every
execution path is non-fatal. -/
theorem c9_error_recovery_amended :
    (∀ (r : Option Str) (t : Int), process_path_stream ⟨false, r⟩ t =
      Except.error "Failed to connect to TCP stream".toList) ∧
    (∀ t : Int, process_path_stream ⟨true, none⟩ t =
      Except.error "Failed to read from TCP stream".toList) ∧
    (∀ t : Int, process_path_stream ⟨true, some []⟩ t =
      Except.error "No path data received".toList) ∧
    (∀ (r : Option Str) (t : Int), process_todo_item_validation ⟨false, r⟩ t =
      Except.error "Failed to bind UDP socket".toList) ∧
    (∀ t : Int, process_todo_item_validation ⟨true, none⟩ t =
      Except.error "Failed to receive todo data from UDP socket".toList) ∧
    (∀ t : Int, process_todo_item_validation ⟨true, some []⟩ t =
      Except.error "No todo item data received".toList) ∧
    (∀ (r : Option Str) (t : Int), process_system_integration ⟨false, r⟩ t =
      Except.error "Failed to bind UDP socket".toList) ∧
    (∀ t : Int, process_system_integration ⟨true, none⟩ t =
      Except.error "Failed to receive integration data from UDP socket".toList) ∧
    (∀ t : Int, process_system_integration ⟨true, some []⟩ t =
      Except.error "No integration data received".toList) ∧
    (∀ (t : Int) (os : Os), process_command_stream (PlatformInput.windows none) t os =
      Except.error "No command data received".toList) ∧
    (∀ t : Int, process_sql_stream (PlatformInput.windows none) t =
      Except.error "No SQL data received".toList) ∧
    (∀ (pf : Str → Bool) (t : Int),
      process_redirect_stream (PlatformInput.windows none) pf t =
        Except.error "No redirect data received".toList) ∧
    (∀ (r : Option Str) (ldap : directory_engine.LdapEnv),
      process_directory_synchronization ⟨false, r⟩ ldap =
        some (Except.error "Failed to bind UDP socket".toList)) ∧
    (∀ ldap : directory_engine.LdapEnv,
      process_directory_synchronization ⟨true, none⟩ ldap =
        some (Except.error "Failed to receive synchronization data from UDP socket".toList)) ∧
    (∀ ldap : directory_engine.LdapEnv,
      process_directory_synchronization ⟨true, some []⟩ ldap =
        some (Except.error "No synchronization data received".toList)) ∧
    (∀ (c : Char) (s : Str) (b : Bool),
      process_directory_synchronization ⟨true, some (c :: s)⟩ ⟨false, b⟩ = none) := by
  refine ⟨fun _ _ => rfl, fun _ => rfl, fun _ => rfl, fun _ _ => rfl, fun _ => rfl,
    fun _ => rfl, fun _ _ => rfl, fun _ => rfl, fun _ => rfl, fun _ _ => rfl,
    fun _ => rfl, fun _ _ => rfl, fun _ _ => rfl, fun _ => rfl, fun _ => rfl, ?_⟩
  intro c s b
  unfold process_directory_synchronization
  simp [directory_engine.handle_directory_synchronization_operations,
    directory_engine.execute_primary_identity_operation]

/-- C10 (counterexample): the directory analogue of the top-level handlers
does not return `Ok` on every input — when the LDAP connection fails it
panics (`unwrap`), modelled as `none`. -/
theorem c10_counterexample :
    directory_engine.handle_directory_synchronization_operations ⟨false, true⟩
      "x".toList = none := by
  unfold directory_engine.handle_directory_synchronization_operations
  simp [directory_engine.execute_primary_identity_operation]

/-- C10 (amended): every pipeline engine's top-level handler returns `Ok` on
every input, except the directory handler, which either returns `Ok` or
panics — none can ever return `Err`, so the `"<Name> engine error"` wrapping
branch of the source adapters is unreachable. -/
theorem c10_handlers_never_err :
    (∀ (t : Int) (os : Os) (s : Str), ∃ r,
      command_engine.handle_command_operations t os s = Except.ok r) ∧
    (∀ (t : Int) (s : Str), ∃ r, path_engine.handle_path_operations t s = Except.ok r) ∧
    (∀ (t : Int) (s : Str), ∃ r, sql_engine.handle_sql_operations t s = Except.ok r) ∧
    (∀ (t : Int) (s : Str), ∃ r,
      xpath_engine.handle_todo_item_operations t s = Except.ok r) ∧
    (∀ (pf : Str → Bool) (t : Int) (s : Str), ∃ r,
      redirect_engine.handle_redirect_operations pf t s = Except.ok r) ∧
    (∀ (t : Int) (s : Str), ∃ r,
      stream_processor.handle_system_integration_operations t s = Except.ok r) ∧
    (∀ (env : directory_engine.LdapEnv) (s e : Str),
      directory_engine.handle_directory_synchronization_operations env s ≠
        some (Except.error e)) ∧
    (∀ (p : PlatformInput) (t : Int) (os : Os) (e : Str),
      process_command_stream p t os ≠
        Except.error ("Command engine error: ".toList ++ e)) := by
  refine ⟨fun t os s => ⟨_, rfl⟩, fun t s => ⟨_, rfl⟩, fun t s => ⟨_, rfl⟩,
    fun t s => ⟨_, rfl⟩, fun pf t s => ⟨_, rfl⟩, fun t s => ⟨_, rfl⟩, ?_, ?_⟩
  · intro env s e
    unfold directory_engine.handle_directory_synchronization_operations
    cases hc : env.connectOk with
    | false =>
      simp [directory_engine.execute_primary_identity_operation, hc]
    | true =>
      cases h2 : env.conn2Ok with
      | false =>
        simp [directory_engine.execute_primary_identity_operation,
          directory_engine.execute_secondary_identity_operation, hc, h2]
      | true =>
        simp [directory_engine.execute_primary_identity_operation,
          directory_engine.execute_secondary_identity_operation, hc, h2]
  · intro p t os e
    cases p with
    | windows recv =>
      cases recv with
      | some d => simp [process_command_stream, command_engine.handle_command_operations]
      | none =>
        intro h
        have h0 : process_command_stream (PlatformInput.windows none) t os =
            Except.error "No command data received".toList := rfl
        rw [h0, Except.error.injEq] at h
        have hNC : 'N' = 'C' := congrArg (fun l => l.headD ' ') h
        exact absurd hNC (by decide)
    | other => simp [process_command_stream, command_engine.handle_command_operations]
